import Mathlib

/-!
# Glino: the fighting scene (Zoro against Aizen) and the runner's high scores

A shallow embedding of the two `Dino_game.cpp` programs of the repository.

* `Glino.Fighter` embeds the fighting game ("Glino completement modifie et
  personalise"): the animation clip, the score manager, the three boss effects,
  the two fighters, the boss AI and the scene with its collision pass.
* `Glino.Runner` embeds the high-score list of the endless runner
  ("Glino normal modifie").

Conventions of the embedding.

* C++ `int` values are mathematical integers; every `int` operation of the
  source is followed by `wrap32`, the two's-complement wrap that the usual
  compilers produce (the C++ standard leaves signed overflow undefined).
  `InInt x` says that `x` is a value of type `int`.
* C++ `float` values are rational numbers: arithmetic is exact, rounding,
  infinities and NaN are not modelled.  `1.0f / fps` is therefore only
  meaningful for `fps ≠ 0`.
* `(int)f` is `floatToInt f`, truncation toward zero.
* Textures, sounds, colours, names and the particle emitters are left out:
  the simulation code never reads them back.
* Keyboard polling (`IsKeyDown`, `IsKeyPressed`) is an explicit `Keys` record
  for the tick, and the values returned by `GetRandomValue` inside the boss AI
  are an explicit `Rolls` record.
-/

namespace Glino

/-- Two's-complement wrap of an integer into the range of a 32-bit `int`. -/
def wrap32 (x : Int) : Int := (x + 2147483648) % 4294967296 - 2147483648

/-- The values of the C++ type `int` (32 bits). -/
def InInt (x : Int) : Prop := -2147483648 ≤ x ∧ x ≤ 2147483647

instance (x : Int) : Decidable (InInt x) := by unfold InInt; infer_instance

/-- The conversion `(int)f` of a float to an `int`: truncation toward zero. -/
def floatToInt (q : Rat) : Int := Int.tdiv q.num q.den

/-- The raylib type `Vector2`. -/
structure Vector2 where
  x : Rat
  y : Rat
  deriving DecidableEq, Repr

/-- The raylib type `Rectangle`. -/
structure Rectangle where
  x : Rat
  y : Rat
  width : Rat
  height : Rat
  deriving DecidableEq, Repr

/-- The raylib function `CheckCollisionRecs`: strict overlap on both axes. -/
def CheckCollisionRecs (rec1 rec2 : Rectangle) : Bool :=
  (decide (rec1.x < rec2.x + rec2.width) && decide (rec1.x + rec1.width > rec2.x)) &&
  (decide (rec1.y < rec2.y + rec2.height) && decide (rec1.y + rec1.height > rec2.y))

namespace Fighter

/-- The constant `SCREEN_WIDTH`. -/
def SCREEN_WIDTH : Int := 1280

/-- The vertical component of the constant `GRAVITY`. -/
def GRAVITY_y : Rat := 980

/-- The enum `ZoroState`. -/
inductive ZoroState where
  | IDLE | WALK | JUMP | FALL | ATTACK1 | ATTACK2 | ATTACK3 | ONI_GIRI
  | SANZEN_SEKAI | TATSUMAKI | HIRYU_KAEN | DEATH | VICTORY | HIT | BLOCK
  deriving DecidableEq, Repr

/-- The enum `AizenState`. -/
inductive AizenState where
  | AIZEN_IDLE | AIZEN_WALK | AIZEN_GUARD | AIZEN_HADO | AIZEN_SPIRIT_SLASH
  | AIZEN_SUIGETSU_KYOKA | AIZEN_ATTACK | AIZEN_HIT | AIZEN_DEATH
  deriving DecidableEq, Repr

open ZoroState AizenState

/-! ## Animation -/

/-- The struct `Animation` (the texture handle is left out). -/
structure Animation where
  frame : Rectangle := ⟨0, 0, 0, 0⟩
  position : Vector2 := ⟨0, 0⟩
  frames : Int := 1
  current : Int := 0
  fps : Rat := 8
  timer : Rat := 0
  loop : Bool := true
  finished : Bool := false
  frameWidth : Int := 0
  frameHeight : Int := 0
  deriving DecidableEq, Repr

/-- The method `Animation::Init`; `frameCount` is the divisor of an `int` division. -/
def Animation.Init (a : Animation) (totalWidth frameHeight_ frameCount : Int) (fps_ : Rat)
    (loop_ : Bool) : Animation :=
  let fw := Int.tdiv totalWidth frameCount
  { a with
    frames := frameCount
    fps := fps_
    loop := loop_
    frameWidth := fw
    frameHeight := frameHeight_
    frame := ⟨0, 0, (fw : Rat), (frameHeight_ : Rat)⟩
    finished := false }

/-- The method `Animation::Update`. -/
def Animation.Update (a : Animation) (dt : Rat) : Animation :=
  if a.frames ≤ 1 then a
  else
    let timer := a.timer + dt
    if timer ≥ 1 / a.fps then
      let current := wrap32 (a.current + 1)
      let b : Animation :=
        if current ≥ a.frames then
          if a.loop then { a with timer := 0, current := 0 }
          else { a with timer := 0, current := wrap32 (a.frames - 1), finished := true }
        else { a with timer := 0, current := current, finished := false }
      { b with frame := { b.frame with x := (b.current : Rat) * b.frame.width } }
    else { a with timer := timer }

/-- The method `Animation::Reset`. -/
def Animation.Reset (a : Animation) : Animation :=
  { a with current := 0, timer := 0, finished := false, frame := { a.frame with x := 0 } }

/-- The method `Animation::Finished`. -/
def Animation.Finished (a : Animation) : Bool := a.finished

/-! ## Score system -/

/-- The struct `HighScoreEntry`; `time` is a float. -/
structure HighScoreEntry where
  name : String
  score : Int
  combo : Int
  time : Rat
  deriving DecidableEq, Repr

/-- The comparison `HighScoreEntry::operator<`: `a` goes before `b` when its score is
larger. -/
def HighScoreEntry.lt (a other : HighScoreEntry) : Bool := decide (a.score > other.score)

/-- The order in which `std::sort` with `operator<` may leave two neighbours: the second is
not strictly before the first. -/
def HighScoreEntry.ge (a b : HighScoreEntry) : Prop := HighScoreEntry.lt b a = false

instance : DecidableRel HighScoreEntry.ge := fun a b => by
  unfold HighScoreEntry.ge; infer_instance

/-- The struct `ScoreManager`: the vector `scores`; `maxScores` is the constant 10. -/
structure ScoreManager where
  scores : List HighScoreEntry := []
  deriving DecidableEq, Repr

/-- The constant member `ScoreManager::maxScores`. -/
def ScoreManager.maxScores : Int := 10

/-- The method `ScoreManager::SortScores`: `std::sort` under `operator<`. The order of
entries with equal scores is unspecified in C++; the embedding fixes the one of an
insertion sort. -/
def ScoreManager.SortScores (m : ScoreManager) : ScoreManager :=
  { m with scores := m.scores.insertionSort HighScoreEntry.ge }

/-- The loop of `ScoreManager::SaveScores` over the sorted vector: records are written while
the running `count` is below `maxScores`. -/
def ScoreManager.writeLoop : List HighScoreEntry → Int → List HighScoreEntry
  | [], _ => []
  | e :: rest, count =>
    if count ≥ ScoreManager.maxScores then []
    else e :: ScoreManager.writeLoop rest (wrap32 (count + 1))

/-- The method `ScoreManager::SaveScores`. `file` is the content of `scores.txt` as a list of
records; `canOpen` says whether the output stream opens. Returns the manager and the file. -/
def ScoreManager.SaveScores (m : ScoreManager) (file : List HighScoreEntry) (canOpen : Bool) :
    ScoreManager × List HighScoreEntry :=
  if !canOpen then (m, file)
  else
    let m1 := m.SortScores
    (m1, ScoreManager.writeLoop m1.scores 0)

/-- The method `ScoreManager::LoadScores`. `file` is `none` when `scores.txt` does not open,
otherwise the records that the extraction loop reads. -/
def ScoreManager.LoadScores (_m : ScoreManager) (file : Option (List HighScoreEntry)) :
    ScoreManager :=
  match file with
  | none => { scores := [] }
  | some records => ScoreManager.SortScores { scores := records }

/-- The method `ScoreManager::AddScore`. -/
def ScoreManager.AddScore (m : ScoreManager) (file : List HighScoreEntry) (canOpen : Bool)
    (name : String) (score combo : Int) (time : Rat) : ScoreManager × List HighScoreEntry :=
  let entry : HighScoreEntry := ⟨name, score, combo, time⟩
  let m1 : ScoreManager := { m with scores := m.scores ++ [entry] }
  let m2 := m1.SortScores
  m2.SaveScores file canOpen

/-- The method `ScoreManager::IsHighScore`. -/
def ScoreManager.IsHighScore (m : ScoreManager) (score : Int) : Bool :=
  if (m.scores.length : Int) < ScoreManager.maxScores then true
  else
    match m.scores.getLast? with
    | some e => decide (score > e.score)
    | none => true

/-- The arguments of one `ScoreManager::AddScore` call, with whether `scores.txt` opens for
writing during that call. -/
structure AddScoreCall where
  name : String
  score : Int
  combo : Int
  time : Rat
  canOpen : Bool := true
  deriving DecidableEq, Repr

/-- A sequence of `ScoreManager::AddScore` calls, threaded through the manager and the
file. -/
def ScoreManager.addScores :
    ScoreManager × List HighScoreEntry → List AddScoreCall → ScoreManager × List HighScoreEntry
  | st, [] => st
  | st, c :: cs =>
    ScoreManager.addScores (st.1.AddScore st.2 c.canOpen c.name c.score c.combo c.time) cs

/-! ## Health bar and the boss effects -/

/-- The struct `HealthBar` (the drawing fields are left out). -/
structure HealthBar where
  maxHp : Int := 100
  hp : Int := 100
  deriving DecidableEq, Repr

/-- The struct `HadoEffect`. -/
structure HadoEffect where
  anim : Animation := {}
  active : Bool := false
  speed : Rat := 400
  damage : Rat := 30
  deriving DecidableEq, Repr

/-- The method `HadoEffect::Init`. -/
def HadoEffect.Init (e : HadoEffect) : HadoEffect :=
  { e with anim := e.anim.Init 662 164 10 12 false }

/-- The method `HadoEffect::Cast`. -/
def HadoEffect.Cast (e : HadoEffect) (pos : Vector2) (_facingRight : Bool) : HadoEffect :=
  { e with active := true, anim := { e.anim.Reset with position := ⟨pos.x - 100, pos.y - 50⟩ } }

/-- The method `HadoEffect::Update`. -/
def HadoEffect.Update (e : HadoEffect) (dt : Rat) : HadoEffect :=
  if !e.active then e
  else
    let anim := e.anim.Update dt
    if anim.Finished then { e with anim := anim, active := false } else { e with anim := anim }

/-- The struct `SpiritSlashEffect`. -/
structure SpiritSlashEffect where
  anim : Animation := {}
  active : Bool := false
  cooldown : Rat := 10
  currentCooldown : Rat := 0
  damage : Rat := 100
  deriving DecidableEq, Repr

/-- The method `SpiritSlashEffect::Init`. -/
def SpiritSlashEffect.Init (e : SpiritSlashEffect) : SpiritSlashEffect :=
  { e with anim := e.anim.Init 268 102 3 8 false }

/-- The method `SpiritSlashEffect::CanCast`. -/
def SpiritSlashEffect.CanCast (e : SpiritSlashEffect) : Bool := decide (e.currentCooldown ≤ 0)

/-- The method `SpiritSlashEffect::Cast`. -/
def SpiritSlashEffect.Cast (e : SpiritSlashEffect) (pos : Vector2) : SpiritSlashEffect :=
  if !e.CanCast then e
  else
    { e with
      active := true
      currentCooldown := e.cooldown
      anim := { e.anim.Reset with position := ⟨pos.x - 100, pos.y - 50⟩ } }

/-- The method `SpiritSlashEffect::Update`. -/
def SpiritSlashEffect.Update (e : SpiritSlashEffect) (dt : Rat) : SpiritSlashEffect :=
  let cd := e.currentCooldown - dt
  let e1 := { e with currentCooldown := if cd < 0 then 0 else cd }
  if !e1.active then e1
  else
    let anim := e1.anim.Update dt
    if anim.Finished then { e1 with anim := anim, active := false } else { e1 with anim := anim }

/-- The struct `SuigetsuKyokaEffect`. -/
structure SuigetsuKyokaEffect where
  anim : Animation := {}
  active : Bool := false
  duration : Rat := 3
  timer : Rat := 0
  damage : Rat := 50
  deriving DecidableEq, Repr

/-- The method `SuigetsuKyokaEffect::Init`. -/
def SuigetsuKyokaEffect.Init (e : SuigetsuKyokaEffect) : SuigetsuKyokaEffect :=
  { e with anim := e.anim.Init 1058 110 12 15 true }

/-- The method `SuigetsuKyokaEffect::Cast`. -/
def SuigetsuKyokaEffect.Cast (e : SuigetsuKyokaEffect) (pos : Vector2) : SuigetsuKyokaEffect :=
  { e with
    active := true
    timer := e.duration
    anim := { e.anim.Reset with position := ⟨pos.x - 200, pos.y - 100⟩ } }

/-- The method `SuigetsuKyokaEffect::Update`. -/
def SuigetsuKyokaEffect.Update (e : SuigetsuKyokaEffect) (dt : Rat) : SuigetsuKyokaEffect :=
  if !e.active then e
  else
    let timer := e.timer - dt
    let anim := e.anim.Update dt
    if timer ≤ 0 then { e with timer := timer, anim := anim, active := false }
    else { e with timer := timer, anim := anim }

/-! ## Zoro -/

/-- The keyboard as polled during one tick: `IsKeyDown` for the arrows (`right`, `left`), `A`,
`U` and `I`; `IsKeyPressed` for `SPACE`, `J`, `K`, `L`, `O`, `ENTER`, `ESCAPE` and, in the
menus, for the four arrows (`upPressed`, `downPressed`, `leftPressed`, `rightPressed`). -/
structure Keys where
  right : Bool := false
  left : Bool := false
  space : Bool := false
  a : Bool := false
  j : Bool := false
  k : Bool := false
  l : Bool := false
  u : Bool := false
  i : Bool := false
  o : Bool := false
  enter : Bool := false
  escape : Bool := false
  upPressed : Bool := false
  downPressed : Bool := false
  leftPressed : Bool := false
  rightPressed : Bool := false
  deriving DecidableEq, Repr

/-- The struct `Zoro` (the particle emitter is left out). -/
structure Zoro where
  idle : Animation := {}
  walk : Animation := {}
  jump : Animation := {}
  fall : Animation := {}
  attack1 : Animation := {}
  attack2 : Animation := {}
  attack3 : Animation := {}
  oniGiri : Animation := {}
  sanzenSekai : Animation := {}
  tatsumaki : Animation := {}
  hiryuKaen : Animation := {}
  death : Animation := {}
  victory : Animation := {}
  hit : Animation := {}
  block : Animation := {}
  state : ZoroState := IDLE
  facingRight : Bool := true
  position : Vector2 := ⟨320, 430⟩
  velocity : Vector2 := ⟨0, 0⟩
  isGrounded : Bool := false
  jumpForce : Rat := -450
  moveSpeed : Rat := 280
  damage : Int := 20
  comboCount : Int := 0
  comboTimer : Rat := 0
  comboWindow : Rat := 1 / 2
  attackCooldown : Rat := 0
  blockCooldown : Rat := 0
  isBlocking : Bool := false
  healthBar : HealthBar := {}
  hitStopTime : Rat := 0
  shakeTime : Rat := 0
  score : Int := 0
  maxCombo : Int := 0
  deriving DecidableEq, Repr

/-- The method `Zoro::Init`. -/
def Zoro.Init (z : Zoro) : Zoro :=
  { z with
    idle := z.idle.Init 1150 157 8 12 true
    walk := z.walk.Init 1150 157 8 12 true
    jump := z.jump.Init 1190 300 7 10 false
    fall := z.fall.Init 2168 155 12 12 false
    attack1 := z.attack1.Init 1122 170 6 15 false
    attack2 := z.attack2.Init 937 179 5 15 false
    attack3 := z.attack3.Init 1274 155 7 15 false
    oniGiri := z.oniGiri.Init 1280 244 6 12 false
    sanzenSekai := z.sanzenSekai.Init 1280 160 8 12 false
    tatsumaki := z.tatsumaki.Init 1970 210 8 12 false
    hiryuKaen := z.hiryuKaen.Init 1797 256 10 12 false
    death := z.death.Init 1274 155 7 8 false
    victory := z.victory.Init 1000 170 5 6 false
    hit := z.hit.Init 260 105 3 10 false
    block := z.block.Init 894 213 1 1 true
    healthBar := { maxHp := 1000, hp := 1000 } }

/-- The method `Zoro::IsAttacking`. -/
def Zoro.IsAttacking (z : Zoro) : Bool :=
  z.state == ATTACK1 || z.state == ATTACK2 || z.state == ATTACK3 ||
  z.state == ONI_GIRI || z.state == TATSUMAKI || z.state == HIRYU_KAEN ||
  z.state == SANZEN_SEKAI

/-- The method `Zoro::IsVulnerable`. -/
def Zoro.IsVulnerable (z : Zoro) : Bool := z.state != HIT && z.state != DEATH

/-- The method `Zoro::StartAttack`. -/
def Zoro.StartAttack (z : Zoro) (attackType : ZoroState) : Zoro :=
  let comboCount := wrap32 (z.comboCount + 1)
  let z1 : Zoro :=
    { z with
      state := attackType
      comboTimer := z.comboWindow
      comboCount := comboCount
      maxCombo := if comboCount > z.maxCombo then comboCount else z.maxCombo }
  match attackType with
  | ATTACK1 => { z1 with attack1 := z1.attack1.Reset }
  | ATTACK2 => { z1 with attack2 := z1.attack2.Reset }
  | ATTACK3 => { z1 with attack3 := z1.attack3.Reset }
  | ONI_GIRI => { z1 with oniGiri := z1.oniGiri.Reset }
  | TATSUMAKI => { z1 with tatsumaki := z1.tatsumaki.Reset }
  | HIRYU_KAEN => { z1 with hiryuKaen := z1.hiryuKaen.Reset }
  | SANZEN_SEKAI => { z1 with sanzenSekai := z1.sanzenSekai.Reset }
  | _ => z1

/-- The start of `Zoro::HandleInput`, `velocity.x = 0; isBlocking = false;`, and its movement
block. -/
def Zoro.inputMove (z : Zoro) (keys : Keys) : Zoro :=
  let z0 : Zoro := { z with velocity := { z.velocity with x := 0 }, isBlocking := false }
  if keys.right then
    let m : Zoro :=
      { z0 with velocity := { z0.velocity with x := z0.moveSpeed }, facingRight := true }
    if m.isGrounded && !m.IsAttacking then { m with state := WALK } else m
  else if keys.left then
    let m : Zoro :=
      { z0 with velocity := { z0.velocity with x := -z0.moveSpeed }, facingRight := false }
    if m.isGrounded && !m.IsAttacking then { m with state := WALK } else m
  else if z0.isGrounded && z0.state == WALK then { z0 with state := IDLE }
  else z0

/-- The jump block of `Zoro::HandleInput`. -/
def Zoro.inputJump (z : Zoro) (keys : Keys) : Zoro :=
  if keys.space && z.isGrounded then
    { z with
      velocity := { z.velocity with y := z.jumpForce }
      isGrounded := false
      state := JUMP
      jump := z.jump.Reset }
  else z

/-- The block (guard) block of `Zoro::HandleInput`. -/
def Zoro.inputBlock (z : Zoro) (keys : Keys) : Zoro :=
  if keys.a && decide (z.blockCooldown ≤ 0) then
    { z with
      isBlocking := true
      state := BLOCK
      velocity := { z.velocity with x := z.velocity.x * (1 / 2) } }
  else z

/-- The attack block of `Zoro::HandleInput`. -/
def Zoro.inputAttack (z : Zoro) (keys : Keys) : Zoro :=
  if decide (z.attackCooldown ≤ 0) && !z.isBlocking then
    if keys.j then { z.StartAttack ATTACK1 with attackCooldown := 1 / 5 }
    else if keys.k && z.isGrounded then { z.StartAttack ONI_GIRI with attackCooldown := 1 }
    else if keys.l && z.isGrounded then { z.StartAttack TATSUMAKI with attackCooldown := 2 }
    else if keys.u && keys.i && z.isGrounded then
      { z.StartAttack HIRYU_KAEN with attackCooldown := 5 }
    else if keys.o then { z.StartAttack SANZEN_SEKAI with attackCooldown := 3 }
    else z
  else z

/-- The method `Zoro::HandleInput` (its `dt` argument is unused in the source): the four
blocks in source order. -/
def Zoro.HandleInput (z : Zoro) (keys : Keys) : Zoro :=
  (((z.inputMove keys).inputJump keys).inputBlock keys).inputAttack keys

/-- The method `Zoro::UpdateAnimationPositions`. -/
def Zoro.UpdateAnimationPositions (z : Zoro) : Zoro :=
  let p := z.position
  { z with
    idle := { z.idle with position := p }
    walk := { z.walk with position := p }
    jump := { z.jump with position := ⟨p.x, p.y - 100⟩ }
    fall := { z.fall with position := p }
    attack1 := { z.attack1 with position := p }
    attack2 := { z.attack2 with position := p }
    attack3 := { z.attack3 with position := p }
    oniGiri := { z.oniGiri with position := ⟨p.x, p.y - 50⟩ }
    sanzenSekai := { z.sanzenSekai with position := ⟨p.x, p.y - 30⟩ }
    tatsumaki := { z.tatsumaki with position := p }
    hiryuKaen := { z.hiryuKaen with position := ⟨p.x, p.y - 80⟩ }
    death := { z.death with position := p }
    victory := { z.victory with position := p }
    hit := { z.hit with position := p }
    block := { z.block with position := p } }

/-- The method `Zoro::UpdateCurrentAnimation`. -/
def Zoro.UpdateCurrentAnimation (z : Zoro) (dt : Rat) : Zoro :=
  match z.state with
  | IDLE => { z with idle := z.idle.Update dt }
  | WALK => { z with walk := z.walk.Update dt }
  | JUMP => { z with jump := z.jump.Update dt }
  | FALL => { z with fall := z.fall.Update dt }
  | ATTACK1 =>
    let c := z.attack1.Update dt
    { z with attack1 := c, state := if c.Finished then IDLE else z.state }
  | ATTACK2 =>
    let c := z.attack2.Update dt
    { z with attack2 := c, state := if c.Finished then IDLE else z.state }
  | ATTACK3 =>
    let c := z.attack3.Update dt
    { z with attack3 := c, state := if c.Finished then IDLE else z.state }
  | ONI_GIRI =>
    let c := z.oniGiri.Update dt
    { z with oniGiri := c, state := if c.Finished then IDLE else z.state }
  | TATSUMAKI =>
    let c := z.tatsumaki.Update dt
    { z with tatsumaki := c, state := if c.Finished then IDLE else z.state }
  | HIRYU_KAEN =>
    let c := z.hiryuKaen.Update dt
    { z with hiryuKaen := c, state := if c.Finished then IDLE else z.state }
  | SANZEN_SEKAI =>
    let c := z.sanzenSekai.Update dt
    { z with sanzenSekai := c, state := if c.Finished then IDLE else z.state }
  | DEATH => { z with death := z.death.Update dt }
  | VICTORY => { z with victory := z.victory.Update dt }
  | HIT => { z with hit := z.hit.Update dt }
  | BLOCK => z

/-- The method `Zoro::TakeDamage`. -/
def Zoro.TakeDamage (z : Zoro) (amount : Int) : Zoro :=
  let amount1 := if z.isBlocking then Int.tdiv amount 4 else amount
  let hp := wrap32 (z.healthBar.hp - amount1)
  let z1 : Zoro := { z with healthBar := { z.healthBar with hp := hp }, comboCount := 0 }
  if z1.healthBar.hp ≤ 0 then
    { z1 with
      healthBar := { z1.healthBar with hp := 0 }
      state := DEATH
      death := z1.death.Reset }
  else
    { z1 with
      state := HIT
      hit := z1.hit.Reset
      hitStopTime := 1 / 10
      shakeTime := 1 / 5 }

/-- The method `Zoro::AddScore`. -/
def Zoro.AddScore (z : Zoro) (points : Int) : Zoro :=
  { z with score := wrap32 (z.score + wrap32 (points * wrap32 (z.comboCount + 1))) }

/-- The method `Zoro::GetAttackBounds`. -/
def Zoro.GetAttackBounds (z : Zoro) : Rectangle :=
  if !z.IsAttacking then ⟨0, 0, 0, 0⟩
  else
    match z.state with
    | ATTACK1 | ATTACK2 | ATTACK3 =>
      ⟨z.position.x + (if z.facingRight then 50 else -150), z.position.y, 100, 100⟩
    | ONI_GIRI =>
      ⟨z.position.x + (if z.facingRight then 50 else -200), z.position.y - 50, 150, 150⟩
    | SANZEN_SEKAI =>
      ⟨z.position.x + (if z.facingRight then 0 else -300), z.position.y - 30, 300, 130⟩
    | TATSUMAKI =>
      ⟨z.position.x + (if z.facingRight then 0 else -300), z.position.y, 300, 150⟩
    | HIRYU_KAEN =>
      ⟨z.position.x + (if z.facingRight then 0 else -400), z.position.y - 100, 400, 256⟩
    | _ => ⟨0, 0, 0, 0⟩

/-- The physics block of `Zoro::Update`. -/
def Zoro.physics (z : Zoro) (dt : Rat) : Zoro :=
  if z.state != HIT && z.state != DEATH then
    let z1 : Zoro :=
      { z with position := ⟨z.position.x + z.velocity.x * dt, z.position.y + z.velocity.y * dt⟩ }
    let z2 : Zoro :=
      if !z1.isGrounded then
        { z1 with velocity := { z1.velocity with y := z1.velocity.y + GRAVITY_y * dt } }
      else z1
    if z2.position.y > 430 then
      { z2 with
        position := { z2.position with y := 430 }
        velocity := { z2.velocity with y := 0 }
        isGrounded := true
        state := if z2.state == JUMP || z2.state == FALL then IDLE else z2.state }
    else z2
  else z

/-- The three timer decrements of `Zoro::Update` that follow the hit-stop test. -/
def Zoro.tickTimers (z : Zoro) (dt : Rat) : Zoro :=
  { z with
    comboTimer := z.comboTimer - dt
    attackCooldown := z.attackCooldown - dt
    blockCooldown := z.blockCooldown - dt }

/-- The state dispatch of `Zoro::Update`: leave the hit reaction when its clip has finished,
do nothing when dead, handle the input otherwise. -/
def Zoro.dispatch (z : Zoro) (keys : Keys) : Zoro :=
  if z.state == HIT then (if z.hit.Finished then { z with state := IDLE } else z)
  else if z.state == DEATH then z
  else z.HandleInput keys

/-- The method `Zoro::Update`. -/
def Zoro.Update (z : Zoro) (dt : Rat) (keys : Keys) : Zoro :=
  if z.hitStopTime > 0 then { z with hitStopTime := z.hitStopTime - dt }
  else
    let z1 := z.tickTimers dt
    let z2 := z1.dispatch keys
    let z3 := z2.physics dt
    let z4 := z3.UpdateAnimationPositions
    let z5 := z4.UpdateCurrentAnimation dt
    if z5.shakeTime > 0 then { z5 with shakeTime := z5.shakeTime - dt } else z5

/-! ## Aizen and its AI -/

/-- The values that the four `GetRandomValue` calls of `AizenAI::Update` return when they are
reached: the movement roll and the target abscissa, the attack roll and the attack type. -/
structure Rolls where
  move : Int := 0
  target : Int := 200
  attack : Int := 0
  attackType : Int := 0
  deriving DecidableEq, Repr

/-- The struct `AizenAI`. -/
structure AizenAI where
  timer : Rat := 0
  actionTimer : Rat := 0
  moveTimer : Rat := 0
  targetPosition : Vector2 := ⟨0, 0⟩
  moving : Bool := false
  deriving DecidableEq, Repr

/-- The variables that `AizenAI::Update` receives by reference, with the AI itself. -/
structure AIResult where
  ai : AizenAI
  position : Vector2
  velocity : Vector2
  state : AizenState
  deriving DecidableEq, Repr

/-- The local `baseActionDelay` of `AizenAI::Update`. -/
def AizenAI.baseActionDelay (difficulty : Int) : Rat := 2 - (difficulty : Rat) * (1 / 2)

/-- The local `moveChance` of `AizenAI::Update`. -/
def AizenAI.moveChance (difficulty : Int) : Rat := 3 / 10 + (difficulty : Rat) * (1 / 5)

/-- The local `attackChance` of `AizenAI::Update`. -/
def AizenAI.attackChance (difficulty : Int) : Rat := 2 / 5 + (difficulty : Rat) * (3 / 10)

/-- The start of `AizenAI::Update`: the three timers accumulate `dt`. -/
def AizenAI.tickTimers (ai : AizenAI) (dt : Rat) : AizenAI :=
  { ai with timer := ai.timer + dt, actionTimer := ai.actionTimer + dt,
            moveTimer := ai.moveTimer + dt }

/-- The "random movement" block of `AizenAI::Update`. -/
def AizenAI.decideMove (ai : AizenAI) (dt : Rat) (difficulty : Int) (rolls : Rolls) : AizenAI :=
  if !ai.moving && decide (rolls.move < floatToInt (AizenAI.moveChance difficulty * 100 * dt))
      && decide (ai.moveTimer > 1) then
    { ai with moving := true, targetPosition := ⟨(rolls.target : Rat), 430⟩, moveTimer := 0 }
  else ai

/-- The `if (moving)` block of `AizenAI::Update`. The distance `sqrtf(dx*dx + 0*0)` is `|dx|`
and the normalised direction is `dx / |dx|`. -/
def AizenAI.walk (ai : AizenAI) (position velocity : Vector2) (state : AizenState) :
    AIResult :=
  if ai.moving then
    let dx : Rat := ai.targetPosition.x - position.x
    let distance : Rat := |dx|
    if distance > 10 then
      let len : Rat := |dx|
      let dirx : Rat := if len > 0 then dx / len else dx
      ⟨ai, position, { velocity with x := dirx * 150 }, state⟩
    else ⟨{ ai with moving := false }, position, { velocity with x := 0 }, state⟩
  else ⟨ai, position, velocity, state⟩

/-- The "random attacks" block of `AizenAI::Update`. -/
def AizenAI.decideAttack (r : AIResult) (attackCooldown : Rat) (difficulty : Int)
    (rolls : Rolls) : AIResult :=
  if decide (r.ai.actionTimer > AizenAI.baseActionDelay difficulty)
      && decide (rolls.attack < floatToInt (AizenAI.attackChance difficulty * 100)) then
    if attackCooldown ≤ 0 then
      let st : AizenState :=
        if rolls.attackType < 40 then AIZEN_HADO
        else if rolls.attackType < 70 then AIZEN_SPIRIT_SLASH
        else AIZEN_SUIGETSU_KYOKA
      { r with state := st, ai := { r.ai with actionTimer := 0 } }
    else r
  else r

/-- The method `AizenAI::Update`: its blocks in source order. -/
def AizenAI.Update (ai : AizenAI) (dt : Rat) (position velocity : Vector2)
    (_playerPos : Vector2) (state : AizenState) (attackCooldown : Rat) (difficulty : Int)
    (rolls : Rolls) : AIResult :=
  AizenAI.decideAttack
    (AizenAI.walk ((ai.tickTimers dt).decideMove dt difficulty rolls) position velocity state)
    attackCooldown difficulty rolls

/-- The struct `Aizen` (the particle emitter is left out). -/
structure Aizen where
  idle : Animation := {}
  walk : Animation := {}
  guard : Animation := {}
  attack : Animation := {}
  hit : Animation := {}
  death : Animation := {}
  state : AizenState := AIZEN_IDLE
  position : Vector2 := ⟨900, 430⟩
  velocity : Vector2 := ⟨0, 0⟩
  facingRight : Bool := false
  isGuarding : Bool := false
  healthBar : HealthBar := {}
  hado : HadoEffect := {}
  spiritSlash : SpiritSlashEffect := {}
  suigetsuKyoka : SuigetsuKyokaEffect := {}
  attackTimer : Rat := 0
  attackInterval : Rat := 3
  ai : AizenAI := {}
  difficulty : Int := 1
  deriving DecidableEq, Repr

/-- The method `Aizen::Init`. -/
def Aizen.Init (a : Aizen) (diff : Int) : Aizen :=
  let hp := wrap32 (800 + wrap32 (diff * 200))
  { a with
    difficulty := diff
    idle := a.idle.Init 264 104 4 4 true
    walk := a.walk.Init 1058 110 12 4 true
    guard := a.guard.Init 70 105 1 1 true
    attack := a.attack.Init 482 104 5 10 false
    hit := a.hit.Init 260 105 3 10 false
    death := a.death.Init 75 105 1 1 true
    healthBar := { maxHp := hp, hp := hp }
    hado := a.hado.Init
    spiritSlash := a.spiritSlash.Init
    suigetsuKyoka := a.suigetsuKyoka.Init }

/-- The method `Aizen::IsVulnerable`. -/
def Aizen.IsVulnerable (a : Aizen) : Bool := a.state != AIZEN_HIT && a.state != AIZEN_DEATH

/-- The method `Aizen::GetBounds`. -/
def Aizen.GetBounds (a : Aizen) : Rectangle := ⟨a.position.x - 37, a.position.y, 75, 105⟩

/-- The method `Aizen::GetHadoBounds`. -/
def Aizen.GetHadoBounds (a : Aizen) : Rectangle :=
  if !a.hado.active then ⟨0, 0, 0, 0⟩
  else ⟨a.hado.anim.position.x, a.hado.anim.position.y, 120, 120⟩

/-- The method `Aizen::GetSpiritSlashBounds`; the width is the `int` quotient `268/3`. -/
def Aizen.GetSpiritSlashBounds (a : Aizen) : Rectangle :=
  if !a.spiritSlash.active then ⟨0, 0, 0, 0⟩
  else ⟨a.spiritSlash.anim.position.x, a.spiritSlash.anim.position.y,
        ((Int.tdiv 268 3 : Int) : Rat), 102⟩

/-- The method `Aizen::GetSuigetsuBounds`; the width is the `int` quotient `1058/12`. -/
def Aizen.GetSuigetsuBounds (a : Aizen) : Rectangle :=
  if !a.suigetsuKyoka.active then ⟨0, 0, 0, 0⟩
  else ⟨a.suigetsuKyoka.anim.position.x, a.suigetsuKyoka.anim.position.y,
        ((Int.tdiv 1058 12 : Int) : Rat), 110⟩

/-- The method `Aizen::TakeDamage`. -/
def Aizen.TakeDamage (a : Aizen) (amount : Int) : Aizen :=
  let amount1 := if a.state == AIZEN_GUARD then Int.tdiv amount 2 else amount
  let hp := wrap32 (a.healthBar.hp - amount1)
  let a1 : Aizen := { a with healthBar := { a.healthBar with hp := hp } }
  if a1.healthBar.hp ≤ 0 then
    { a1 with healthBar := { a1.healthBar with hp := 0 }, state := AIZEN_DEATH }
  else if a1.state != AIZEN_HIT then
    { a1 with state := AIZEN_HIT, hit := a1.hit.Reset }
  else a1

/-- The call of `ai.Update` in `Aizen::Update`: position, velocity and state are passed by
reference. -/
def Aizen.applyAI (a : Aizen) (dt : Rat) (zoroPos : Vector2) (rolls : Rolls) : Aizen :=
  let r := a.ai.Update dt a.position a.velocity zoroPos a.state a.attackTimer a.difficulty rolls
  { a with ai := r.ai, position := r.position, velocity := r.velocity, state := r.state }

/-- The block "update state based on AI" of `Aizen::Update`. -/
def Aizen.settleState (a1 : Aizen) : Aizen :=
  if a1.isGuarding then { a1 with state := AIZEN_GUARD }
  else if a1.state == AIZEN_HADO || a1.state == AIZEN_SPIRIT_SLASH ||
      a1.state == AIZEN_SUIGETSU_KYOKA || a1.state == AIZEN_ATTACK then
    let b1 : Aizen :=
      if a1.state == AIZEN_HADO && !a1.hado.active then { a1 with state := AIZEN_IDLE } else a1
    let b2 : Aizen :=
      if b1.state == AIZEN_SPIRIT_SLASH && !b1.spiritSlash.active then
        { b1 with state := AIZEN_IDLE }
      else b1
    let b3 : Aizen :=
      if b2.state == AIZEN_SUIGETSU_KYOKA && !b2.suigetsuKyoka.active then
        { b2 with state := AIZEN_IDLE }
      else b2
    if b3.state == AIZEN_ATTACK && b3.attack.Finished then { b3 with state := AIZEN_IDLE }
    else b3
  else if a1.velocity.x ≠ 0 then { a1 with state := AIZEN_WALK }
  else { a1 with state := AIZEN_IDLE }

/-- The blocks "update facing" and "apply movement" of `Aizen::Update`. -/
def Aizen.faceAndMove (a2 : Aizen) (dt : Rat) : Aizen :=
  let a3 : Aizen :=
    if a2.velocity.x > 0 then { a2 with facingRight := true }
    else if a2.velocity.x < 0 then { a2 with facingRight := false }
    else a2
  let x1 : Rat := a3.position.x + a3.velocity.x * dt
  let x2 : Rat := if x1 < 200 then 200 else x1
  let xmax : Rat := ((SCREEN_WIDTH - 200 : Int) : Rat)
  let x3 : Rat := if x2 > xmax then xmax else x2
  { a3 with position := { a3.position with x := x3 } }

/-- The block "execute attacks" of `Aizen::Update`: the cast step. -/
def Aizen.executeAttacks (a4 : Aizen) (dt : Rat) : Aizen :=
  if a4.state == AIZEN_HADO then
    if !a4.hado.active then { a4 with hado := a4.hado.Cast a4.position a4.facingRight } else a4
  else if a4.state == AIZEN_SPIRIT_SLASH then
    if !a4.spiritSlash.active && a4.spiritSlash.CanCast then
      { a4 with spiritSlash := a4.spiritSlash.Cast a4.position }
    else a4
  else if a4.state == AIZEN_SUIGETSU_KYOKA then
    if !a4.suigetsuKyoka.active then
      { a4 with suigetsuKyoka := a4.suigetsuKyoka.Cast a4.position }
    else a4
  else if a4.state == AIZEN_ATTACK then { a4 with attack := a4.attack.Update dt }
  else a4

/-- The branch of `Aizen::Update` taken when Aizen is neither hit nor dead: the AI, the state
bookkeeping, the facing, the movement and the casts, in source order. -/
def Aizen.act (a : Aizen) (dt : Rat) (zoroPos : Vector2) (rolls : Rolls) : Aizen :=
  (((a.applyAI dt zoroPos rolls).settleState).faceAndMove dt).executeAttacks dt

/-- The start of `Aizen::Update`: the three effects are updated. -/
def Aizen.updateEffects (a : Aizen) (dt : Rat) : Aizen :=
  { a with
    hado := a.hado.Update dt
    spiritSlash := a.spiritSlash.Update dt
    suigetsuKyoka := a.suigetsuKyoka.Update dt }

/-- The state dispatch of `Aizen::Update`: leave the hit reaction when its clip has finished,
stay in death, act otherwise. -/
def Aizen.react (a : Aizen) (dt : Rat) (zoroPos : Vector2) (rolls : Rolls) : Aizen :=
  if a.state == AIZEN_HIT then (if a.hit.Finished then { a with state := AIZEN_IDLE } else a)
  else if a.state == AIZEN_DEATH then a
  else a.act dt zoroPos rolls

/-- The end of `Aizen::Update`: the clips are placed at Aizen's position. -/
def Aizen.placeClips (a : Aizen) : Aizen :=
  { a with
    idle := { a.idle with position := a.position }
    walk := { a.walk with position := a.position }
    guard := { a.guard with position := a.position }
    attack := { a.attack with position := a.position }
    hit := { a.hit with position := a.position }
    death := { a.death with position := a.position } }

/-- The method `Aizen::Update`. -/
def Aizen.Update (a : Aizen) (dt : Rat) (zoro : Zoro) (rolls : Rolls) : Aizen :=
  ((a.updateEffects dt).react dt zoro.position rolls).placeClips

/-! ## The game scene -/

/-- The struct `GameScene` (textures and the player name buffer are left out). -/
structure GameScene where
  zoro : Zoro := {}
  aizen : Aizen := {}
  initialized : Bool := false
  gameTime : Rat := 0
  hitStop : Rat := 0
  scoreManager : ScoreManager := {}
  nameInput : Bool := false
  deriving DecidableEq, Repr

/-- The method `GameScene::Init`; `file` is what `scores.txt` holds (`none`: no file). -/
def GameScene.Init (g : GameScene) (difficulty : Int) (file : Option (List HighScoreEntry)) :
    GameScene :=
  { g with
    zoro := g.zoro.Init
    aizen := g.aizen.Init difficulty
    scoreManager := g.scoreManager.LoadScores file
    initialized := true }

/-- The local `damage` of `GameScene::CheckCollisions`: Zoro's base damage times the
multiplier of his current attack. -/
def GameScene.attackDamage (g : GameScene) : Int :=
  let d0 : Int := g.zoro.damage
  let d1 : Int := if g.zoro.state == ONI_GIRI then wrap32 (d0 * 2) else d0
  let d2 : Int := if g.zoro.state == TATSUMAKI then wrap32 (d1 * 3) else d1
  let d3 : Int := if g.zoro.state == HIRYU_KAEN then wrap32 (d2 * 5) else d2
  if g.zoro.state == SANZEN_SEKAI then wrap32 (d3 * 4) else d3

/-- The first block of `GameScene::CheckCollisions`: Zoro attacks Aizen. -/
def GameScene.zoroAttacksAizen (g : GameScene) : GameScene :=
  if g.zoro.IsAttacking && g.aizen.IsVulnerable then
    let zoroAttack := g.zoro.GetAttackBounds
    let aizenBounds := g.aizen.GetBounds
    if CheckCollisionRecs zoroAttack aizenBounds then
      let damage : Int := g.attackDamage
      { g with
        aizen := g.aizen.TakeDamage damage
        zoro := g.zoro.AddScore (wrap32 (damage * 10))
        hitStop := 1 / 20 }
    else g
  else g

/-- The local rectangle `zoroBounds` of `GameScene::CheckCollisions`: Zoro's hurtbox. -/
def GameScene.zoroBounds (g : GameScene) : Rectangle :=
  ⟨g.zoro.position.x - 50, g.zoro.position.y, 100, 160⟩

/-- The second block of `GameScene::CheckCollisions`: Aizen attacks Zoro. -/
def GameScene.aizenAttacksZoro (g : GameScene) : GameScene :=
  if g.aizen.IsVulnerable then
    let hadoBounds := g.aizen.GetHadoBounds
    let spiritBounds := g.aizen.GetSpiritSlashBounds
    let suigetsuBounds := g.aizen.GetSuigetsuBounds
    let zoroBounds : Rectangle := g.zoroBounds
    let z1 : Zoro :=
      if CheckCollisionRecs hadoBounds zoroBounds then
        g.zoro.TakeDamage (floatToInt g.aizen.hado.damage)
      else g.zoro
    let z2 : Zoro :=
      if CheckCollisionRecs spiritBounds zoroBounds then
        z1.TakeDamage (floatToInt g.aizen.spiritSlash.damage)
      else z1
    let z3 : Zoro :=
      if CheckCollisionRecs suigetsuBounds zoroBounds then
        z2.TakeDamage (floatToInt g.aizen.suigetsuKyoka.damage)
      else z2
    { g with zoro := z3 }
  else g

/-- The method `GameScene::CheckCollisions`. -/
def GameScene.CheckCollisions (g : GameScene) : GameScene :=
  g.zoroAttacksAizen.aizenAttacksZoro

/-- The method `GameScene::CheckWinCondition`. -/
def GameScene.CheckWinCondition (g : GameScene) : GameScene :=
  if g.zoro.healthBar.hp ≤ 0 || g.aizen.healthBar.hp ≤ 0 then
    if g.scoreManager.IsHighScore g.zoro.score && !g.nameInput then { g with nameInput := true }
    else g
  else g

/-- The simulation steps of `GameScene::Update`: the game time and the two fighters. -/
def GameScene.advance (g : GameScene) (dt : Rat) (keys : Keys) (rolls : Rolls) : GameScene :=
  let g1 : GameScene := { g with gameTime := g.gameTime + dt }
  let g2 : GameScene := { g1 with zoro := g1.zoro.Update dt keys }
  { g2 with aizen := g2.aizen.Update dt g2.zoro rolls }

/-- The last block of `GameScene::Update`: `ENTER` opens the name input after a terminal
outcome with a high score. -/
def GameScene.submitScore (g : GameScene) (keys : Keys) : GameScene :=
  if keys.enter then
    if g.zoro.healthBar.hp ≤ 0 || g.aizen.healthBar.hp ≤ 0 then
      if g.scoreManager.IsHighScore g.zoro.score then { g with nameInput := true } else g
    else g
  else g

/-- The method `GameScene::Update`. -/
def GameScene.Update (g : GameScene) (dt : Rat) (keys : Keys) (rolls : Rolls) : GameScene :=
  if !g.initialized || g.nameInput then g
  else if g.hitStop > 0 then { g with hitStop := g.hitStop - dt }
  else ((g.advance dt keys rolls).CheckCollisions.CheckWinCondition).submitScore keys

/-- The method `GameScene::Unload`: besides releasing the textures it clears
`initialized`. -/
def GameScene.Unload (g : GameScene) : GameScene := { g with initialized := false }

/-! ## Particle system -/

/-- The struct `Particle` (the colour is left out). -/
structure Particle where
  position : Vector2
  velocity : Vector2
  size : Rat
  life : Rat
  maxLife : Rat
  rotation : Rat
  rotationSpeed : Rat
  deriving DecidableEq, Repr

/-- The struct `ParticleSystem`. -/
structure ParticleSystem where
  particles : List Particle := []
  deriving DecidableEq, Repr

/-- The body of the `for` loop of `ParticleSystem::Update`: its five assignments in source
order, each reading the particle as the previous ones left it. -/
def Particle.integrate (p : Particle) (dt : Rat) : Particle :=
  let p1 : Particle :=
    { p with position := { p.position with x := p.position.x + p.velocity.x * dt } }
  let p2 : Particle :=
    { p1 with position := { p1.position with y := p1.position.y + p1.velocity.y * dt } }
  let p3 : Particle :=
    { p2 with velocity := { p2.velocity with y := p2.velocity.y + GRAVITY_y * dt * (1 / 10) } }
  let p4 : Particle := { p3 with rotation := p3.rotation + p3.rotationSpeed * dt }
  { p4 with life := p4.life - dt }

/-- The `for` loop of `ParticleSystem::Update` over the vector. -/
def ParticleSystem.integrateAll : List Particle → Rat → List Particle
  | [], _ => []
  | p :: rest, dt => p.integrate dt :: ParticleSystem.integrateAll rest dt

/-- The idiom `particles.erase(std::remove_if(..., pred), particles.end())`: the elements
for which `pred` fails, in their order. -/
def ParticleSystem.eraseRemoveIf (pred : Particle → Bool) : List Particle → List Particle
  | [] => []
  | p :: rest =>
    if pred p then ParticleSystem.eraseRemoveIf pred rest
    else p :: ParticleSystem.eraseRemoveIf pred rest

/-- The method `ParticleSystem::Update`. -/
def ParticleSystem.Update (s : ParticleSystem) (dt : Rat) : ParticleSystem :=
  let moved := ParticleSystem.integrateAll s.particles dt
  { s with particles := ParticleSystem.eraseRemoveIf (fun p => decide (p.life ≤ 0)) moved }

/-! ## Menus and the main game class -/

/-- The enum `GameState`. -/
inductive GameState where
  | INTRO | MENU | GAME | OPTIONS | CREDITS | HIGHSCORES | HELP | GAME_OVER | EXIT
  deriving DecidableEq, Repr

/-- The struct `GameConfig`. -/
structure GameConfig where
  musicVolume : Rat := 1 / 2
  sfxVolume : Rat := 7 / 10
  gameSpeed : Rat := 1
  fullscreen : Bool := false
  vsync : Bool := true
  difficulty : Int := 1
  deriving DecidableEq, Repr

/-- The struct `MenuSystem`: `itemCount` is `items.size()`; texts, positions and colours of
the items are left out. -/
structure MenuSystem where
  itemCount : Nat := 0
  selectedIndex : Int := 0
  pulse : Rat := 0
  deriving DecidableEq, Repr

/-- The method `MenuSystem::AddItem`. -/
def MenuSystem.AddItem (m : MenuSystem) : MenuSystem := { m with itemCount := m.itemCount + 1 }

/-- The method `MenuSystem::Update`; `frameTime` is the value of `GetFrameTime()`. The index
arithmetic mixes `int` and `size_t`: the `int` operand is converted to a 64-bit unsigned
value before the addition and the remainder. -/
def MenuSystem.Update (m : MenuSystem) (frameTime : Rat) (keys : Keys) : MenuSystem :=
  let m1 : MenuSystem := { m with pulse := m.pulse + frameTime * 2 }
  let m2 : MenuSystem :=
    if keys.downPressed then
      { m1 with selectedIndex :=
          wrap32 ((wrap32 (m1.selectedIndex + 1) % 18446744073709551616) % (m1.itemCount : Int)) }
    else m1
  if keys.upPressed then
    { m2 with selectedIndex :=
        wrap32 (((wrap32 (m2.selectedIndex - 1) + (m2.itemCount : Int)) % 18446744073709551616)
          % (m2.itemCount : Int)) }
  else m2

/-- The class `Game` (textures, music and sounds are left out). -/
structure Game where
  currentState : GameState := GameState.INTRO
  nextState : GameState := GameState.INTRO
  transitionAlpha : Rat := 0
  transitioning : Bool := false
  gameScene : GameScene := {}
  mainMenu : MenuSystem := {}
  optionsMenu : MenuSystem := {}
  scoreManager : ScoreManager := {}
  config : GameConfig := {}
  introTimer : Rat := 0
  selectedDifficulty : Int := 1
  deriving DecidableEq, Repr

/-- The method `Game::Init`: six main menu items, five option items, the scores and the
configuration; `configFile` is the content of `config.txt` when it opens. -/
def Game.Init (g : Game) (scoreFile : Option (List HighScoreEntry))
    (configFile : Option GameConfig) : Game :=
  { g with
    mainMenu := g.mainMenu.AddItem.AddItem.AddItem.AddItem.AddItem.AddItem
    optionsMenu := g.optionsMenu.AddItem.AddItem.AddItem.AddItem.AddItem
    scoreManager := g.scoreManager.LoadScores scoreFile
    config := match configFile with
      | some c => c
      | none => g.config }

/-- The method `Game::StartTransition`; `scoreFile` is what `scores.txt` holds when the game
scene is initialised. -/
def Game.StartTransition (g : Game) (newState : GameState)
    (scoreFile : Option (List HighScoreEntry)) : Game :=
  let g1 : Game :=
    if newState == GameState.GAME then
      { g with gameScene := g.gameScene.Init g.selectedDifficulty scoreFile }
    else g
  { g1 with transitioning := true, nextState := newState, transitionAlpha := 0 }

/-- The start of the `OPTIONS` case of `Game::Update`: the menu update and the `ENTER`
block. -/
def Game.optionsEnter (g : Game) (dt : Rat) (keys : Keys) : Game :=
  let g1 : Game := { g with optionsMenu := g.optionsMenu.Update dt keys }
  if keys.enter then
    if g1.optionsMenu.selectedIndex == 4 then { g1 with currentState := GameState.MENU }
    else if g1.optionsMenu.selectedIndex == 3 then
      { g1 with config := { g1.config with fullscreen := !g1.config.fullscreen } }
    else g1
  else g1

/-- The three adjustment blocks of the `OPTIONS` case of `Game::Update`: music volume, effect
volume and difficulty. -/
def Game.optionsAdjust (g2 : Game) (keys : Keys) : Game :=
  let g3 : Game :=
    if g2.optionsMenu.selectedIndex == 0 then
      let c1 : GameConfig :=
        if keys.leftPressed then
          { g2.config with musicVolume := max 0 (g2.config.musicVolume - 1 / 10) }
        else g2.config
      let c2 : GameConfig :=
        if keys.rightPressed then { c1 with musicVolume := min 1 (c1.musicVolume + 1 / 10) }
        else c1
      { g2 with config := c2 }
    else g2
  let g4 : Game :=
    if g3.optionsMenu.selectedIndex == 1 then
      let c1 : GameConfig :=
        if keys.leftPressed then
          { g3.config with sfxVolume := max 0 (g3.config.sfxVolume - 1 / 10) }
        else g3.config
      let c2 : GameConfig :=
        if keys.rightPressed then { c1 with sfxVolume := min 1 (c1.sfxVolume + 1 / 10) }
        else c1
      { g3 with config := c2 }
    else g3
  if g4.optionsMenu.selectedIndex == 2 then
    let d1 : Int :=
      if keys.leftPressed then max 0 (wrap32 (g4.selectedDifficulty - 1))
      else g4.selectedDifficulty
    let d2 : Int := if keys.rightPressed then min 2 (wrap32 (d1 + 1)) else d1
    { g4 with selectedDifficulty := d2, config := { g4.config with difficulty := d2 } }
  else g4

/-- The `OPTIONS` case of `Game::Update`: the two blocks above, then the `ESCAPE` block. -/
def Game.updateOptions (g : Game) (dt : Rat) (keys : Keys) : Game :=
  let g5 : Game := (g.optionsEnter dt keys).optionsAdjust keys
  if keys.escape then { g5 with currentState := GameState.MENU } else g5

/-- The method `Game::Update`; `rolls` feeds the boss AI and `scoreFile` is what `scores.txt`
holds should the game scene be initialised in this call. -/
def Game.Update (g : Game) (dt : Rat) (keys : Keys) (rolls : Rolls)
    (scoreFile : Option (List HighScoreEntry)) : Game :=
  if g.transitioning then
    let alpha := g.transitionAlpha + dt * 2
    if alpha ≥ 1 then
      { g with transitionAlpha := 0, transitioning := false, currentState := g.nextState }
    else { g with transitionAlpha := alpha }
  else
    match g.currentState with
    | GameState.INTRO =>
      let g1 : Game := { g with introTimer := g.introTimer + dt }
      if decide (g1.introTimer > 3) || keys.enter then
        g1.StartTransition GameState.MENU scoreFile
      else g1
    | GameState.MENU =>
      let g1 : Game := { g with mainMenu := g.mainMenu.Update dt keys }
      if keys.enter then
        if g1.mainMenu.selectedIndex = 0 then g1.StartTransition GameState.GAME scoreFile
        else if g1.mainMenu.selectedIndex = 1 then
          { g1 with currentState := GameState.HIGHSCORES }
        else if g1.mainMenu.selectedIndex = 2 then { g1 with currentState := GameState.OPTIONS }
        else if g1.mainMenu.selectedIndex = 3 then { g1 with currentState := GameState.CREDITS }
        else if g1.mainMenu.selectedIndex = 4 then { g1 with currentState := GameState.HELP }
        else if g1.mainMenu.selectedIndex = 5 then { g1 with currentState := GameState.EXIT }
        else g1
      else g1
    | GameState.GAME =>
      let g1 : Game :=
        { g with gameScene := g.gameScene.Update (dt * g.config.gameSpeed) keys rolls }
      if keys.escape then
        ({ g1 with gameScene := g1.gameScene.Unload }).StartTransition GameState.MENU scoreFile
      else g1
    | GameState.OPTIONS => g.updateOptions dt keys
    | GameState.HIGHSCORES =>
      if keys.escape || keys.enter then { g with currentState := GameState.MENU } else g
    | GameState.CREDITS =>
      if keys.escape || keys.enter then { g with currentState := GameState.MENU } else g
    | GameState.HELP =>
      if keys.escape || keys.enter then { g with currentState := GameState.MENU } else g
    | GameState.GAME_OVER => g
    | GameState.EXIT => g

/-! ## Concrete scenes used as test inputs -/

/-- A scene after `GameScene::Init` on difficulty 1 in which Zoro stands at `x = 800` facing
right in state `HIRYU_KAEN` and Aizen, at its start position, has 100 health points left. -/
def sceneHiryuKaen : GameScene :=
  let g := ({} : GameScene).Init 1 none
  { g with
    zoro := { g.zoro with state := HIRYU_KAEN, position := ⟨800, 430⟩, isGrounded := true }
    aizen := { g.aizen with healthBar := { g.aizen.healthBar with hp := 100 } } }

/-- A scene after `GameScene::Init` on difficulty 1 in which Zoro stands at `x = 850`, next to
Aizen, and Aizen is in state `AIZEN_HADO` with its Hado effect just cast by
`HadoEffect::Cast` at Aizen's position. -/
def sceneHadoCast : GameScene :=
  let g := ({} : GameScene).Init 1 none
  { g with
    zoro := { g.zoro with position := ⟨850, 430⟩ }
    aizen :=
      { g.aizen with
        state := AIZEN_HADO
        hado := g.aizen.hado.Cast g.aizen.position g.aizen.facingRight } }

/-- The scene `sceneHadoCast` with Zoro already in his hit reaction. -/
def sceneHadoCastZoroHit : GameScene :=
  { sceneHadoCast with zoro := { sceneHadoCast.zoro with state := HIT } }

/-- An initialised Zoro after one tick of 1/60 s in which `J` is pressed: `ATTACK1` has just
started and `attackCooldown` is 0.2 s. -/
def zoroAttackStarted : Zoro := (({} : Zoro).Init).Update (1 / 60) { j := true }

/-- The Zoro `zoroAttackStarted` twelve ticks of 1/60 s later, no key held: 0.2 s into the
0.4 s clip of `ATTACK1`. -/
def zoroMidAttack : Zoro :=
  (List.replicate 12 ({} : Keys)).foldl (fun z keys => z.Update (1 / 60) keys) zoroAttackStarted

/-- The Zoro `zoroMidAttack` one more tick of 1/60 s later, no key held: still in the clip of
`ATTACK1`, with the attack cooldown run out by a whole tick. -/
def zoroLateAttack : Zoro := zoroMidAttack.Update (1 / 60) {}

/-- The scene `sceneHiryuKaen` one tick of 1/60 s later, no key held: Zoro's attack has
killed Aizen, 1000 points are scored and the new-high-score sub-state is entered. -/
def scenePlayed : GameScene := sceneHiryuKaen.Update (1 / 60) {} {}

/-- A scene after `GameScene::Init` on difficulty 1 and two ticks: `LEFT` held for 1 s, then
1/60 s with no key. Zoro has walked to `x = 40` and stands on the ground. -/
def sceneZoroNearLeftEdge : GameScene :=
  ([((1 : Rat), ({ left := true } : Keys), ({} : Rolls)), (1 / 60, {}, {})]).foldl
    (fun s t => s.Update t.1 t.2.1 t.2.2) (({} : GameScene).Init 1 none)

end Fighter

/-! ## The runner: its high-score list -/

namespace Runner

/-- The struct `HighScore` of the runner. -/
structure HighScore where
  score : Int
  date : String
  deriving DecidableEq, Repr

/-- The comparison passed to `std::sort` in `AddHighScore`: `a.score > b.score`. -/
def scoreGt (a b : HighScore) : Bool := decide (a.score > b.score)

/-- The order in which `std::sort` with `scoreGt` may leave two neighbours: the second is not
strictly before the first. -/
def sortedPair (a b : HighScore) : Prop := scoreGt b a = false

instance : DecidableRel sortedPair := fun a b => by unfold sortedPair; infer_instance

/-- The function `SaveHighScores`: the file `highscores.dat` receives the count and every
record of the vector when it opens, and is left as it was otherwise. -/
def SaveHighScores (scores : List HighScore) (file : List HighScore) (canOpen : Bool) :
    List HighScore :=
  if canOpen then scores else file

/-- The function `AddHighScore`; `dateStr` is the formatted current date. Returns the vector
and the file. The order of equal scores after `std::sort` is the one of an insertion sort. -/
def AddHighScore (scores : List HighScore) (newScore : Int) (dateStr : String)
    (file : List HighScore) (canOpen : Bool) : List HighScore × List HighScore :=
  let newEntry : HighScore := ⟨newScore, dateStr⟩
  let s1 := scores ++ [newEntry]
  let s2 := s1.insertionSort sortedPair
  let s3 := if s2.length > 5 then s2.take 5 else s2
  (s3, SaveHighScores s3 file canOpen)

end Runner

end Glino

/-! # Properties -/

namespace Glino

open Fighter Fighter.ZoroState Fighter.AizenState

/-! ## Arithmetic helpers -/

theorem wrap32_of_inInt {x : Int} (h : InInt x) : wrap32 x = x := by
  unfold InInt at h
  unfold wrap32
  omega

theorem tdiv_four_eq {a : Int} (h : 0 ≤ a) : Int.tdiv a 4 = a / 4 :=
  Int.tdiv_eq_ediv h (by decide)

theorem tdiv_two_eq {a : Int} (h : 0 ≤ a) : Int.tdiv a 2 = a / 2 :=
  Int.tdiv_eq_ediv h (by decide)

/-! ## Damage -/

/-- The amount that `Zoro::TakeDamage` subtracts: a quarter when Zoro blocks. -/
theorem zoro_takeDamage_hp (z : Zoro) (amount : Int) :
    (z.TakeDamage amount).healthBar.hp =
      max 0 (wrap32 (z.healthBar.hp - (if z.isBlocking then Int.tdiv amount 4 else amount))) := by
  unfold Zoro.TakeDamage
  simp only []
  split_ifs <;> simp <;> omega

theorem zoro_takeDamage_state (z : Zoro) (amount : Int) :
    (z.TakeDamage amount).state =
      if wrap32 (z.healthBar.hp - (if z.isBlocking then Int.tdiv amount 4 else amount)) ≤ 0
      then DEATH else HIT := by
  unfold Zoro.TakeDamage
  simp only []
  split_ifs <;> simp_all

theorem zoro_takeDamage_maxHp (z : Zoro) (amount : Int) :
    (z.TakeDamage amount).healthBar.maxHp = z.healthBar.maxHp := by
  unfold Zoro.TakeDamage
  simp only []
  split_ifs <;> rfl

/-- The amount that `Aizen::TakeDamage` subtracts: a half when Aizen guards. -/
theorem aizen_takeDamage_hp (a : Aizen) (amount : Int) :
    (a.TakeDamage amount).healthBar.hp =
      max 0 (wrap32 (a.healthBar.hp -
        (if a.state = AIZEN_GUARD then Int.tdiv amount 2 else amount))) := by
  unfold Aizen.TakeDamage
  simp only [beq_iff_eq]
  split_ifs <;> simp <;> omega

theorem aizen_takeDamage_state (a : Aizen) (amount : Int) :
    (a.TakeDamage amount).state =
      if wrap32 (a.healthBar.hp -
        (if a.state = AIZEN_GUARD then Int.tdiv amount 2 else amount)) ≤ 0
      then AIZEN_DEATH else AIZEN_HIT := by
  unfold Aizen.TakeDamage
  simp only [beq_iff_eq, bne_iff_ne, ne_eq]
  split_ifs <;> simp_all

theorem aizen_takeDamage_maxHp (a : Aizen) (amount : Int) :
    (a.TakeDamage amount).healthBar.maxHp = a.healthBar.maxHp := by
  unfold Aizen.TakeDamage
  simp only []
  split_ifs <;> rfl

/-- C1: for a damage amount `>= 0` and a fighter whose health is a non-negative `int`,
`Zoro::TakeDamage` and `Aizen::TakeDamage` leave the health at most the health before and
never below 0, keep `maxHp` (so `0 <= hp <= maxHp` is preserved), and the resulting state is
the death state exactly when the resulting health is 0, and the hit state otherwise. -/
theorem takeDamage_monotone_clamped_death_iff (z : Zoro) (a : Aizen) (amount : Int)
    (hamount : 0 ≤ amount ∧ InInt amount)
    (hz : 0 ≤ z.healthBar.hp ∧ InInt z.healthBar.hp)
    (ha : 0 ≤ a.healthBar.hp ∧ InInt a.healthBar.hp) :
    ((z.TakeDamage amount).healthBar.hp ≤ z.healthBar.hp ∧
      0 ≤ (z.TakeDamage amount).healthBar.hp ∧
      (z.healthBar.hp ≤ z.healthBar.maxHp →
        (z.TakeDamage amount).healthBar.hp ≤ (z.TakeDamage amount).healthBar.maxHp) ∧
      ((z.TakeDamage amount).state = DEATH ↔ (z.TakeDamage amount).healthBar.hp = 0) ∧
      ((z.TakeDamage amount).healthBar.hp ≠ 0 → (z.TakeDamage amount).state = HIT)) ∧
    ((a.TakeDamage amount).healthBar.hp ≤ a.healthBar.hp ∧
      0 ≤ (a.TakeDamage amount).healthBar.hp ∧
      (a.healthBar.hp ≤ a.healthBar.maxHp →
        (a.TakeDamage amount).healthBar.hp ≤ (a.TakeDamage amount).healthBar.maxHp) ∧
      ((a.TakeDamage amount).state = AIZEN_DEATH ↔ (a.TakeDamage amount).healthBar.hp = 0) ∧
      ((a.TakeDamage amount).healthBar.hp ≠ 0 → (a.TakeDamage amount).state = AIZEN_HIT)) := by
  obtain ⟨hamt0, hamtI⟩ := hamount
  obtain ⟨hz0, hzI⟩ := hz
  obtain ⟨ha0, haI⟩ := ha
  have h4 := tdiv_four_eq hamt0
  have h2 := tdiv_two_eq hamt0
  unfold InInt at hamtI hzI haI
  constructor
  · rw [zoro_takeDamage_hp, zoro_takeDamage_state, zoro_takeDamage_maxHp]
    have hd : 0 ≤ (if z.isBlocking then Int.tdiv amount 4 else amount) ∧
        (if z.isBlocking then Int.tdiv amount 4 else amount) ≤ amount := by
      split_ifs <;> omega
    generalize (if z.isBlocking then Int.tdiv amount 4 else amount) = d at hd
    have hw : wrap32 (z.healthBar.hp - d) = z.healthBar.hp - d :=
      wrap32_of_inInt (by unfold InInt; omega)
    rw [hw]
    refine ⟨by omega, by omega, by omega, ?_, ?_⟩
    · by_cases h : z.healthBar.hp - d ≤ 0
      · simp [h]
      · simp [h]
    · intro hne
      by_cases h : z.healthBar.hp - d ≤ 0
      · exfalso; omega
      · simp [h]
  · rw [aizen_takeDamage_hp, aizen_takeDamage_state, aizen_takeDamage_maxHp]
    have hd : 0 ≤ (if a.state = AIZEN_GUARD then Int.tdiv amount 2 else amount) ∧
        (if a.state = AIZEN_GUARD then Int.tdiv amount 2 else amount) ≤ amount := by
      split_ifs <;> omega
    generalize (if a.state = AIZEN_GUARD then Int.tdiv amount 2 else amount) = d at hd
    have hw : wrap32 (a.healthBar.hp - d) = a.healthBar.hp - d :=
      wrap32_of_inInt (by unfold InInt; omega)
    rw [hw]
    refine ⟨by omega, by omega, by omega, ?_, ?_⟩
    · by_cases h : a.healthBar.hp - d ≤ 0
      · simp [h]
      · simp [h]
    · intro hne
      by_cases h : a.healthBar.hp - d ≤ 0
      · exfalso; omega
      · simp [h]

/-- Witness of C1: an initialised Zoro and Aizen (health 1000) taking 30 points of damage. -/
theorem takeDamage_monotone_clamped_death_iff_witness :
    ((0 : Int) ≤ 30 ∧ InInt 30) ∧
    (0 ≤ (({} : Zoro).Init).healthBar.hp ∧ InInt (({} : Zoro).Init).healthBar.hp) ∧
    (0 ≤ ((({} : Aizen).Init 1)).healthBar.hp ∧ InInt ((({} : Aizen).Init 1)).healthBar.hp) ∧
    ((({} : Zoro).Init).TakeDamage 30).healthBar.hp ≤ (({} : Zoro).Init).healthBar.hp ∧
    (((({} : Aizen).Init 1)).TakeDamage 30).healthBar.hp ≤ ((({} : Aizen).Init 1)).healthBar.hp :=
  ⟨by decide, by decide, by decide,
    (takeDamage_monotone_clamped_death_iff (({} : Zoro).Init) (({} : Aizen).Init 1) 30
      (by decide) (by decide) (by decide)).1.1,
    (takeDamage_monotone_clamped_death_iff (({} : Zoro).Init) (({} : Aizen).Init 1) 30
      (by decide) (by decide) (by decide)).2.1⟩

/-- Counterexample to C2: a blocking Zoro (health 1000) hit for 3 points and a guarding Aizen
(health 1000) hit for 1 point lose no health at all, because `3 / 4` and `1 / 2` are 0 in
`int` arithmetic: the deducted value is not `> 0`. -/
theorem blocked_small_damage_deducts_nothing :
    ({ ({} : Zoro).Init with isBlocking := true } : Zoro).isBlocking = true ∧
    (0 : Int) < 3 ∧
    ({ ({} : Zoro).Init with isBlocking := true } : Zoro).healthBar.hp -
      (({ ({} : Zoro).Init with isBlocking := true } : Zoro).TakeDamage 3).healthBar.hp = 0 ∧
    ({ ({} : Aizen).Init 1 with state := AIZEN_GUARD } : Aizen).state = AIZEN_GUARD ∧
    (0 : Int) < 1 ∧
    ({ ({} : Aizen).Init 1 with state := AIZEN_GUARD } : Aizen).healthBar.hp -
      (({ ({} : Aizen).Init 1 with state := AIZEN_GUARD } : Aizen).TakeDamage 1).healthBar.hp
        = 0 := by
  decide

/-- C2 (amended): for every positive `int` damage amount and a fighter with a non-negative
health, the health deducted from a blocking Zoro is `min hp (amount / 4)` and the health
deducted from a guarding Aizen is `min hp (amount / 2)` (truncating `int` division): the
deducted value is between 0 and the original amount, it is positive as soon as the fighter has
health left and the amount is at least 4 (Zoro) or 2 (Aizen), and it is 0 for the amounts
below. -/
theorem blocked_damage_reduced (z : Zoro) (a : Aizen) (amount : Int)
    (hamount : 0 < amount ∧ InInt amount)
    (hz : z.isBlocking = true ∧ 0 ≤ z.healthBar.hp ∧ InInt z.healthBar.hp)
    (ha : a.state = AIZEN_GUARD ∧ 0 ≤ a.healthBar.hp ∧ InInt a.healthBar.hp) :
    (z.healthBar.hp - (z.TakeDamage amount).healthBar.hp = min z.healthBar.hp (amount / 4) ∧
      0 ≤ z.healthBar.hp - (z.TakeDamage amount).healthBar.hp ∧
      z.healthBar.hp - (z.TakeDamage amount).healthBar.hp ≤ amount ∧
      (4 ≤ amount → 0 < z.healthBar.hp →
        0 < z.healthBar.hp - (z.TakeDamage amount).healthBar.hp) ∧
      (amount < 4 → z.healthBar.hp - (z.TakeDamage amount).healthBar.hp = 0)) ∧
    (a.healthBar.hp - (a.TakeDamage amount).healthBar.hp = min a.healthBar.hp (amount / 2) ∧
      0 ≤ a.healthBar.hp - (a.TakeDamage amount).healthBar.hp ∧
      a.healthBar.hp - (a.TakeDamage amount).healthBar.hp ≤ amount ∧
      (2 ≤ amount → 0 < a.healthBar.hp →
        0 < a.healthBar.hp - (a.TakeDamage amount).healthBar.hp) ∧
      (amount < 2 → a.healthBar.hp - (a.TakeDamage amount).healthBar.hp = 0)) := by
  obtain ⟨hamt0, hamtI⟩ := hamount
  obtain ⟨hzb, hz0, hzI⟩ := hz
  obtain ⟨hag, ha0, haI⟩ := ha
  have h4 := tdiv_four_eq (le_of_lt hamt0)
  have h2 := tdiv_two_eq (le_of_lt hamt0)
  unfold InInt at hamtI hzI haI
  constructor
  · rw [zoro_takeDamage_hp, if_pos hzb, h4]
    have hw : wrap32 (z.healthBar.hp - amount / 4) = z.healthBar.hp - amount / 4 :=
      wrap32_of_inInt (by unfold InInt; omega)
    rw [hw]
    refine ⟨by omega, by omega, by omega, ?_, ?_⟩
    · intro h1 h2; omega
    · intro h1; omega
  · rw [aizen_takeDamage_hp, if_pos hag, h2]
    have hw : wrap32 (a.healthBar.hp - amount / 2) = a.healthBar.hp - amount / 2 :=
      wrap32_of_inInt (by unfold InInt; omega)
    rw [hw]
    refine ⟨by omega, by omega, by omega, ?_, ?_⟩
    · intro h1 h2; omega
    · intro h1; omega

/-- Witness of C2 (amended): a blocking Zoro and a guarding Aizen, both with health 1000, hit
by the Hado damage 30 lose 7 and 15 points. -/
theorem blocked_damage_reduced_witness :
    ((0 : Int) < 30 ∧ InInt 30) ∧
    ({ ({} : Zoro).Init with isBlocking := true } : Zoro).healthBar.hp -
      (({ ({} : Zoro).Init with isBlocking := true } : Zoro).TakeDamage 30).healthBar.hp
        = min 1000 (30 / 4) ∧
    ({ ({} : Aizen).Init 1 with state := AIZEN_GUARD } : Aizen).healthBar.hp -
      (({ ({} : Aizen).Init 1 with state := AIZEN_GUARD } : Aizen).TakeDamage 30).healthBar.hp
        = min 1000 (30 / 2) :=
  ⟨by decide,
    (blocked_damage_reduced { ({} : Zoro).Init with isBlocking := true }
      { ({} : Aizen).Init 1 with state := AIZEN_GUARD } 30 (by decide) (by decide)
      (by decide)).1.1,
    (blocked_damage_reduced { ({} : Zoro).Init with isBlocking := true }
      { ({} : Aizen).Init 1 with state := AIZEN_GUARD } 30 (by decide) (by decide)
      (by decide)).2.1⟩

/-! ## Sorting helpers -/

theorem insertionSort_pairwise_of_key {α : Type} (key : α → Int) (r : α → α → Prop)
    [DecidableRel r] (hr : ∀ a b, r a b ↔ key b ≤ key a) (l : List α) :
    (l.insertionSort r).Pairwise (fun a b => key b ≤ key a) := by
  have htotal : IsTotal α r := ⟨fun a b => by rw [hr a b, hr b a]; exact le_total _ _⟩
  have htrans : IsTrans α r :=
    ⟨fun a b c hab hbc => by rw [hr] at hab hbc ⊢; exact le_trans hbc hab⟩
  have hs := @List.sorted_insertionSort α r _ htotal htrans l
  exact List.Pairwise.imp (fun {a b} h => (hr a b).mp h) hs

theorem take_ge_drop_of_pairwise {α : Type} {r : α → α → Prop} {l : List α}
    (h : l.Pairwise r) (k : Nat) : ∀ x ∈ l.take k, ∀ y ∈ l.drop k, r x y := by
  have h2 : (l.take k ++ l.drop k).Pairwise r := by rw [List.take_append_drop]; exact h
  exact (List.pairwise_append.mp h2).2.2

theorem top_scores_of_sorted {α : Type} (key : α → Int) (r : α → α → Prop)
    [DecidableRel r] (hr : ∀ a b, r a b ↔ key b ≤ key a) (l : List α) (k : Nat) :
    ((l.insertionSort r).take k).Pairwise (fun a b => key b ≤ key a) ∧
    ((l.insertionSort r).take k).length = min k l.length ∧
    ∃ rest : List Int,
      (l.map key).Perm (((l.insertionSort r).take k).map key ++ rest) ∧
      ∀ x ∈ ((l.insertionSort r).take k).map key, ∀ y ∈ rest, y ≤ x := by
  have hs := insertionSort_pairwise_of_key key r hr l
  refine ⟨hs.sublist (List.take_sublist _ _), ?_, ((l.insertionSort r).drop k).map key, ?_, ?_⟩
  · rw [List.length_take, List.length_insertionSort]
  · rw [← List.map_append, List.take_append_drop]
    exact ((List.perm_insertionSort r l).map key).symm
  · intro x hx y hy
    obtain ⟨a, ha, rfl⟩ := List.mem_map.mp hx
    obtain ⟨b, hb, rfl⟩ := List.mem_map.mp hy
    exact take_ge_drop_of_pairwise hs k a ha b hb

theorem highScoreEntry_ge_iff (a b : HighScoreEntry) :
    HighScoreEntry.ge a b ↔ b.score ≤ a.score := by
  unfold HighScoreEntry.ge HighScoreEntry.lt
  simp

theorem writeLoop_eq_take (l : List HighScoreEntry) (count : Int)
    (h : 0 ≤ count ∧ count ≤ 10) :
    ScoreManager.writeLoop l count = l.take (10 - count).toNat := by
  induction l generalizing count with
  | nil => simp [ScoreManager.writeLoop]
  | cons e rest ih =>
    unfold ScoreManager.writeLoop
    by_cases hc : count ≥ ScoreManager.maxScores
    · have : count = 10 := by unfold ScoreManager.maxScores at hc; omega
      subst this
      simp [ScoreManager.maxScores]
    · have hlt : count < 10 := by unfold ScoreManager.maxScores at hc; omega
      rw [if_neg hc]
      have hw : wrap32 (count + 1) = count + 1 := wrap32_of_inInt (by unfold InInt; omega)
      rw [hw, ih (count + 1) (by omega)]
      have : (10 - count).toNat = (10 - (count + 1)).toNat + 1 := by omega
      rw [this, List.take_succ_cons]

theorem sortScores_pairwise (m : ScoreManager) :
    m.SortScores.scores.Pairwise (fun a b => b.score ≤ a.score) :=
  insertionSort_pairwise_of_key HighScoreEntry.score HighScoreEntry.ge highScoreEntry_ge_iff
    m.scores

theorem sortScores_length (m : ScoreManager) : m.SortScores.scores.length = m.scores.length :=
  List.length_insertionSort _ _

theorem sortScores_sortScores (m : ScoreManager) : m.SortScores.SortScores = m.SortScores := by
  unfold ScoreManager.SortScores
  simp only []
  congr 1
  apply List.Sorted.insertionSort_eq
  have htotal : IsTotal HighScoreEntry HighScoreEntry.ge :=
    ⟨fun a b => by rw [highScoreEntry_ge_iff, highScoreEntry_ge_iff]; exact le_total _ _⟩
  have htrans : IsTrans HighScoreEntry HighScoreEntry.ge :=
    ⟨fun a b c hab hbc => by
      rw [highScoreEntry_ge_iff] at hab hbc ⊢; exact le_trans hbc hab⟩
  exact @List.sorted_insertionSort _ HighScoreEntry.ge _ htotal htrans m.scores

theorem addScore_scores (m : ScoreManager) (file : List HighScoreEntry) (canOpen : Bool)
    (name : String) (score combo : Int) (time : Rat) :
    (m.AddScore file canOpen name score combo time).1 =
      ScoreManager.SortScores { m with scores := m.scores ++ [⟨name, score, combo, time⟩] } := by
  unfold ScoreManager.AddScore ScoreManager.SaveScores
  cases canOpen
  · simp
  · simp [sortScores_sortScores]

theorem addScores_pairwise (calls : List AddScoreCall) :
    ∀ st : ScoreManager × List HighScoreEntry,
      st.1.scores.Pairwise (fun a b => b.score ≤ a.score) →
      (ScoreManager.addScores st calls).1.scores.Pairwise (fun a b => b.score ≤ a.score) := by
  induction calls with
  | nil => intro st h; simpa [ScoreManager.addScores] using h
  | cons c cs ih =>
    intro st _
    unfold ScoreManager.addScores
    apply ih
    rw [addScore_scores]
    exact sortScores_pairwise _

theorem addScores_length (calls : List AddScoreCall) :
    ∀ st : ScoreManager × List HighScoreEntry,
      (ScoreManager.addScores st calls).1.scores.length = st.1.scores.length + calls.length := by
  induction calls with
  | nil => intro st; simp [ScoreManager.addScores]
  | cons c cs ih =>
    intro st
    unfold ScoreManager.addScores
    rw [ih, addScore_scores, sortScores_length]
    simp
    omega

/-! ## High scores -/

/-- Counterexample to C3: eleven `ScoreManager::AddScore` calls (scores 0 to 10) from an empty
list leave eleven entries in the stored vector, more than `maxScores`. -/
theorem addScore_eleven_calls_length :
    (ScoreManager.addScores (({} : ScoreManager), [])
      ((List.range 11).map (fun i => (⟨"PLAYER", (i : Int), 0, 0, true⟩ : AddScoreCall)))
      ).1.scores.length = 11 ∧
    ¬ ((11 : Int) ≤ ScoreManager.maxScores) := by
  decide

/-- C3 (amended): after every sequence of `ScoreManager::AddScore` calls starting from an
empty score list, the stored vector is sorted in descending score order and its length is the
number of calls (the vector is never truncated); what a call writes to `scores.txt` is the
first ten entries of the stored vector, hence at most `maxScores` records. -/
theorem addScores_sorted_untruncated (file0 : List HighScoreEntry) (calls : List AddScoreCall) :
    (ScoreManager.addScores (({} : ScoreManager), file0) calls).1.scores.Pairwise
      (fun a b => b.score ≤ a.score) ∧
    (ScoreManager.addScores (({} : ScoreManager), file0) calls).1.scores.length = calls.length ∧
    ∀ (m : ScoreManager) (file : List HighScoreEntry) (name : String) (score combo : Int)
      (time : Rat),
      (m.AddScore file true name score combo time).2 =
        (m.AddScore file true name score combo time).1.scores.take 10 ∧
      ((m.AddScore file true name score combo time).2.length : Int) ≤ ScoreManager.maxScores := by
  refine ⟨addScores_pairwise calls _ List.Pairwise.nil, ?_, ?_⟩
  · rw [addScores_length]
    simp
  · intro m file name score combo time
    have hfile : (m.AddScore file true name score combo time).2 =
        (m.AddScore file true name score combo time).1.scores.take 10 := by
      unfold ScoreManager.AddScore ScoreManager.SaveScores
      simp only [Bool.not_true, Bool.false_eq_true, if_false]
      rw [writeLoop_eq_take _ 0 (by omega)]
      rfl
    refine ⟨hfile, ?_⟩
    rw [hfile, List.length_take]
    unfold ScoreManager.maxScores
    omega

/-- C4: for every score list and every new score, the list after the runner's `AddHighScore`
is sorted in descending score order, has `min 5 (n + 1)` entries (at most 5), and its scores
are the largest of the old scores plus the new one: the remaining scores `rest` are all at most
every kept score. -/
theorem addHighScore_top_five (scores : List Runner.HighScore) (newScore : Int)
    (dateStr : String) (file : List Runner.HighScore) (canOpen : Bool) :
    (Runner.AddHighScore scores newScore dateStr file canOpen).1.Pairwise
      (fun a b => b.score ≤ a.score) ∧
    (Runner.AddHighScore scores newScore dateStr file canOpen).1.length ≤ 5 ∧
    (Runner.AddHighScore scores newScore dateStr file canOpen).1.length
      = min 5 (scores.length + 1) ∧
    ∃ rest : List Int,
      (scores.map Runner.HighScore.score ++ [newScore]).Perm
        ((Runner.AddHighScore scores newScore dateStr file canOpen).1.map
          Runner.HighScore.score ++ rest) ∧
      ∀ x ∈ (Runner.AddHighScore scores newScore dateStr file canOpen).1.map
          Runner.HighScore.score,
        ∀ y ∈ rest, y ≤ x := by
  have hr : ∀ a b : Runner.HighScore, Runner.sortedPair a b ↔ b.score ≤ a.score := by
    intro a b
    unfold Runner.sortedPair Runner.scoreGt
    simp
  have hres : (Runner.AddHighScore scores newScore dateStr file canOpen).1 =
      ((scores ++ [(⟨newScore, dateStr⟩ : Runner.HighScore)]).insertionSort
        Runner.sortedPair).take 5 := by
    unfold Runner.AddHighScore
    simp only []
    split_ifs with h
    · rfl
    · exact (List.take_of_length_le (Nat.le_of_not_lt h)).symm
  rw [hres]
  obtain ⟨h1, h2, rest, h3, h4⟩ :=
    top_scores_of_sorted Runner.HighScore.score Runner.sortedPair hr
      (scores ++ [(⟨newScore, dateStr⟩ : Runner.HighScore)]) 5
  refine ⟨h1, ?_, ?_, rest, ?_, h4⟩
  · rw [h2]; omega
  · rw [h2]; simp
  · simpa using h3

/-- C5: for every score file with more than `maxScores` valid records,
`ScoreManager::LoadScores` followed by `ScoreManager::SaveScores` writes exactly 10 records, in
descending score order, whose scores are the 10 highest of the loaded ones: the scores left
out (`rest`) are all at most every written score. -/
theorem loadScores_saveScores_top_ten (m : ScoreManager) (records : List HighScoreEntry)
    (hlen : ScoreManager.maxScores < (records.length : Int)) :
    ((m.LoadScores (some records)).SaveScores records true).2.length = 10 ∧
    ((m.LoadScores (some records)).SaveScores records true).2.Pairwise
      (fun a b => b.score ≤ a.score) ∧
    ∃ rest : List Int,
      (records.map HighScoreEntry.score).Perm
        (((m.LoadScores (some records)).SaveScores records true).2.map HighScoreEntry.score
          ++ rest) ∧
      ∀ x ∈ ((m.LoadScores (some records)).SaveScores records true).2.map HighScoreEntry.score,
        ∀ y ∈ rest, y ≤ x := by
  have hres : ((m.LoadScores (some records)).SaveScores records true).2 =
      (records.insertionSort HighScoreEntry.ge).take 10 := by
    unfold ScoreManager.LoadScores ScoreManager.SaveScores
    simp only [Bool.not_true, Bool.false_eq_true, if_false]
    rw [sortScores_sortScores, writeLoop_eq_take _ 0 (by omega)]
    rfl
  rw [hres]
  obtain ⟨h1, h2, rest, h3, h4⟩ :=
    top_scores_of_sorted HighScoreEntry.score HighScoreEntry.ge highScoreEntry_ge_iff records 10
  refine ⟨?_, h1, rest, h3, h4⟩
  rw [h2]
  unfold ScoreManager.maxScores at hlen
  omega

/-- Witness of C5: a score file with the twelve scores 0 to 11. -/
theorem loadScores_saveScores_top_ten_witness :
    ScoreManager.maxScores <
      ((((List.range 12).map (fun i => (⟨"PLAYER", (i : Int), 0, 0⟩ : HighScoreEntry))).length
        : Nat) : Int) ∧
    (((({} : ScoreManager).LoadScores
        (some ((List.range 12).map (fun i => (⟨"PLAYER", (i : Int), 0, 0⟩ : HighScoreEntry))))
      ).SaveScores
        ((List.range 12).map (fun i => (⟨"PLAYER", (i : Int), 0, 0⟩ : HighScoreEntry))) true
      ).2.length = 10) :=
  ⟨by decide,
    (loadScores_saveScores_top_ten {}
      ((List.range 12).map (fun i => (⟨"PLAYER", (i : Int), 0, 0⟩ : HighScoreEntry)))
      (by decide)).1⟩

/-! ## Combo counter -/

theorem startAttack_comboCount (z : Zoro) (t : ZoroState) :
    (z.StartAttack t).comboCount = wrap32 (z.comboCount + 1) := by
  unfold Zoro.StartAttack
  cases t <;> rfl

theorem startAttacks_comboCount (types : List ZoroState) :
    ∀ z : Zoro, 0 ≤ z.comboCount → z.comboCount + types.length ≤ 2147483647 →
      (types.foldl Zoro.StartAttack z).comboCount = z.comboCount + types.length := by
  induction types with
  | nil => intro z _ _; simp
  | cons t ts ih =>
    intro z h0 hN
    simp only [List.length_cons, Nat.cast_add, Nat.cast_one] at hN
    have hw : (z.StartAttack t).comboCount = z.comboCount + 1 := by
      rw [startAttack_comboCount]
      exact wrap32_of_inInt (by unfold InInt; omega)
    rw [List.foldl_cons, ih (z.StartAttack t) (by omega) (by omega), hw]
    simp only [List.length_cons, Nat.cast_add, Nat.cast_one]
    omega

theorem zoro_takeDamage_comboCount (z : Zoro) (amount : Int) :
    (z.TakeDamage amount).comboCount = 0 := by
  unfold Zoro.TakeDamage
  simp only []
  split_ifs <;> rfl

/-- C6: starting from `comboCount = 0`, after `N` consecutive `Zoro::StartAttack` calls (with
`N` a value of type `int`) `comboCount` equals `N`; and whatever the prior `comboCount`, one
`Zoro::TakeDamage` call sets it to 0. -/
theorem comboCount_counts_attacks_and_resets (z : Zoro) (types : List ZoroState)
    (hzero : z.comboCount = 0) (hN : InInt (types.length : Int)) :
    (types.foldl Zoro.StartAttack z).comboCount = (types.length : Int) ∧
    ∀ (z2 : Zoro) (amount : Int), (z2.TakeDamage amount).comboCount = 0 := by
  refine ⟨?_, zoro_takeDamage_comboCount⟩
  unfold InInt at hN
  rw [startAttacks_comboCount types z (by omega) (by omega), hzero]
  simp

/-- Witness of C6: three attacks of an initialised Zoro. -/
theorem comboCount_counts_attacks_and_resets_witness :
    (({} : Zoro).Init).comboCount = 0 ∧
    InInt (([ATTACK1, ONI_GIRI, ATTACK1] : List ZoroState).length : Int) ∧
    (([ATTACK1, ONI_GIRI, ATTACK1] : List ZoroState).foldl Zoro.StartAttack
      (({} : Zoro).Init)).comboCount = 3 :=
  ⟨by decide, by decide,
    (comboCount_counts_attacks_and_resets (({} : Zoro).Init) [ATTACK1, ONI_GIRI, ATTACK1]
      (by decide) (by decide)).1⟩

/-! ## Collisions -/

theorem aizenAttacksZoro_aizen (g : GameScene) : g.aizenAttacksZoro.aizen = g.aizen := by
  unfold GameScene.aizenAttacksZoro
  split_ifs <;> rfl

theorem zoroAttacksAizen_aizen_of_not_vulnerable (g : GameScene)
    (h : g.aizen.IsVulnerable = false) : g.zoroAttacksAizen = g := by
  unfold GameScene.zoroAttacksAizen
  simp [h]

/-- C7: for a Zoro in state `HIRYU_KAEN` with base damage 20 whose attack hit-box overlaps
Aizen's hurtbox, and an Aizen with health exactly 100 whose state is none of `AIZEN_GUARD`,
`AIZEN_HIT`, `AIZEN_DEATH`, one `GameScene::CheckCollisions` call leaves Aizen's health at 0
and Aizen's state `AIZEN_DEATH`. -/
theorem checkCollisions_hiryuKaen_kills (g : GameScene)
    (hstate : g.zoro.state = HIRYU_KAEN) (hdamage : g.zoro.damage = 20)
    (hoverlap : CheckCollisionRecs g.zoro.GetAttackBounds g.aizen.GetBounds = true)
    (hhp : g.aizen.healthBar.hp = 100)
    (haizen : g.aizen.state ≠ AIZEN_GUARD ∧ g.aizen.state ≠ AIZEN_HIT ∧
      g.aizen.state ≠ AIZEN_DEATH) :
    g.CheckCollisions.aizen.healthBar.hp = 0 ∧ g.CheckCollisions.aizen.state = AIZEN_DEATH := by
  obtain ⟨hguard, hhit, hdeath⟩ := haizen
  unfold GameScene.CheckCollisions
  rw [aizenAttacksZoro_aizen]
  have hatt : g.zoro.IsAttacking = true := by simp [Zoro.IsAttacking, hstate]
  have hvul : g.aizen.IsVulnerable = true := by simp [Aizen.IsVulnerable, hhit, hdeath]
  have hstep : g.zoroAttacksAizen.aizen = g.aizen.TakeDamage 100 := by
    unfold GameScene.zoroAttacksAizen
    simp [hatt, hvul, hoverlap, GameScene.attackDamage, hstate, hdamage, wrap32]
  rw [hstep, aizen_takeDamage_hp, aizen_takeDamage_state, if_neg hguard, hhp]
  simp [wrap32]

/-- Witness of C7: the scene `sceneHiryuKaen`. -/
theorem checkCollisions_hiryuKaen_kills_witness :
    sceneHiryuKaen.zoro.state = HIRYU_KAEN ∧
    CheckCollisionRecs sceneHiryuKaen.zoro.GetAttackBounds sceneHiryuKaen.aizen.GetBounds
      = true ∧
    sceneHiryuKaen.aizen.healthBar.hp = 100 ∧
    sceneHiryuKaen.CheckCollisions.aizen.healthBar.hp = 0 ∧
    sceneHiryuKaen.CheckCollisions.aizen.state = AIZEN_DEATH :=
  ⟨by decide, by decide!, by decide,
    checkCollisions_hiryuKaen_kills sceneHiryuKaen (by decide) (by decide) (by decide!)
      (by decide) (by decide)⟩

theorem zoro_takeDamage_hp_bounds (z : Zoro) (amount : Int)
    (hz : 0 ≤ z.healthBar.hp ∧ InInt z.healthBar.hp) (hd : 0 ≤ amount ∧ InInt amount) :
    (0 ≤ (z.TakeDamage amount).healthBar.hp ∧ InInt (z.TakeDamage amount).healthBar.hp) ∧
    z.healthBar.hp - amount ≤ (z.TakeDamage amount).healthBar.hp ∧
    (z.TakeDamage amount).healthBar.hp ≤ z.healthBar.hp := by
  obtain ⟨hz0, hzI⟩ := hz
  obtain ⟨hd0, hdI⟩ := hd
  have h4 := tdiv_four_eq hd0
  unfold InInt at hzI hdI ⊢
  rw [zoro_takeDamage_hp]
  have hq : 0 ≤ (if z.isBlocking then Int.tdiv amount 4 else amount) ∧
      (if z.isBlocking then Int.tdiv amount 4 else amount) ≤ amount := by
    split_ifs <;> omega
  generalize (if z.isBlocking then Int.tdiv amount 4 else amount) = d at hq
  have hw : wrap32 (z.healthBar.hp - d) = z.healthBar.hp - d :=
    wrap32_of_inInt (by unfold InInt; omega)
  rw [hw]
  omega

theorem zoro_takeDamage_if_bounds (z : Zoro) (c : Bool) (amount : Int)
    (hz : 0 ≤ z.healthBar.hp ∧ InInt z.healthBar.hp) (hd : 0 ≤ amount ∧ InInt amount) :
    (0 ≤ (if c then z.TakeDamage amount else z).healthBar.hp ∧
      InInt (if c then z.TakeDamage amount else z).healthBar.hp) ∧
    z.healthBar.hp - (if c then amount else 0) ≤
      (if c then z.TakeDamage amount else z).healthBar.hp ∧
    (if c then z.TakeDamage amount else z).healthBar.hp ≤ z.healthBar.hp := by
  cases c
  · simp only [Bool.false_eq_true, if_false]
    exact ⟨hz, by omega, le_refl _⟩
  · simp only [if_true]
    exact zoro_takeDamage_hp_bounds z amount hz hd

theorem aizen_takeDamage_effects (a : Aizen) (amount : Int) :
    (a.TakeDamage amount).hado = a.hado ∧
    (a.TakeDamage amount).spiritSlash = a.spiritSlash ∧
    (a.TakeDamage amount).suigetsuKyoka = a.suigetsuKyoka := by
  unfold Aizen.TakeDamage
  simp only []
  split_ifs <;> exact ⟨rfl, rfl, rfl⟩

/-- What the first block of `CheckCollisions` leaves untouched: Zoro's health bar and hurtbox,
and Aizen's three effects. -/
theorem zoroAttacksAizen_frame (g : GameScene) :
    g.zoroAttacksAizen.zoro.healthBar = g.zoro.healthBar ∧
    g.zoroAttacksAizen.zoroBounds = g.zoroBounds ∧
    g.zoroAttacksAizen.aizen.hado = g.aizen.hado ∧
    g.zoroAttacksAizen.aizen.spiritSlash = g.aizen.spiritSlash ∧
    g.zoroAttacksAizen.aizen.suigetsuKyoka = g.aizen.suigetsuKyoka := by
  unfold GameScene.zoroAttacksAizen
  by_cases h1 : (g.zoro.IsAttacking && g.aizen.IsVulnerable) = true
  · by_cases h2 : CheckCollisionRecs g.zoro.GetAttackBounds g.aizen.GetBounds = true
    · rw [if_pos h1]
      simp only [h2, if_true]
      obtain ⟨e1, e2, e3⟩ := aizen_takeDamage_effects g.aizen g.attackDamage
      exact ⟨rfl, rfl, e1, e2, e3⟩
    · rw [if_pos h1]
      simp only [h2]
      exact ⟨rfl, rfl, rfl, rfl, rfl⟩
  · rw [if_neg h1]
    exact ⟨rfl, rfl, rfl, rfl, rfl⟩

/-- One `GameScene::CheckCollisions` call deducts the damage of each Aizen effect at most
once: Zoro's health after the call is at most the health before and at least the health before
minus the damage of each effect whose bounding rectangle overlaps Zoro's hurtbox. -/
theorem checkCollisions_effect_damage_once_per_tick (g : GameScene)
    (hhp : 0 ≤ g.zoro.healthBar.hp ∧ InInt g.zoro.healthBar.hp)
    (hhado : 0 ≤ floatToInt g.aizen.hado.damage ∧ InInt (floatToInt g.aizen.hado.damage))
    (hspirit : 0 ≤ floatToInt g.aizen.spiritSlash.damage ∧
      InInt (floatToInt g.aizen.spiritSlash.damage))
    (hsuigetsu : 0 ≤ floatToInt g.aizen.suigetsuKyoka.damage ∧
      InInt (floatToInt g.aizen.suigetsuKyoka.damage)) :
    g.CheckCollisions.zoro.healthBar.hp ≤ g.zoro.healthBar.hp ∧
    g.zoro.healthBar.hp -
      ((if CheckCollisionRecs g.aizen.GetHadoBounds g.zoroBounds then
          floatToInt g.aizen.hado.damage else 0) +
        (if CheckCollisionRecs g.aizen.GetSpiritSlashBounds g.zoroBounds then
          floatToInt g.aizen.spiritSlash.damage else 0) +
        (if CheckCollisionRecs g.aizen.GetSuigetsuBounds g.zoroBounds then
          floatToInt g.aizen.suigetsuKyoka.damage else 0))
      ≤ g.CheckCollisions.zoro.healthBar.hp := by
  obtain ⟨f1, f2, f3, f4, f5⟩ := zoroAttacksAizen_frame g
  have hb1 : g.zoroAttacksAizen.aizen.GetHadoBounds = g.aizen.GetHadoBounds := by
    unfold Aizen.GetHadoBounds; rw [f3]
  have hb2 : g.zoroAttacksAizen.aizen.GetSpiritSlashBounds = g.aizen.GetSpiritSlashBounds := by
    unfold Aizen.GetSpiritSlashBounds; rw [f4]
  have hb3 : g.zoroAttacksAizen.aizen.GetSuigetsuBounds = g.aizen.GetSuigetsuBounds := by
    unfold Aizen.GetSuigetsuBounds; rw [f5]
  have hd1 : 0 ≤ (if CheckCollisionRecs g.aizen.GetHadoBounds g.zoroBounds then
      floatToInt g.aizen.hado.damage else 0) := by split_ifs <;> omega
  have hd2 : 0 ≤ (if CheckCollisionRecs g.aizen.GetSpiritSlashBounds g.zoroBounds then
      floatToInt g.aizen.spiritSlash.damage else 0) := by split_ifs <;> omega
  have hd3 : 0 ≤ (if CheckCollisionRecs g.aizen.GetSuigetsuBounds g.zoroBounds then
      floatToInt g.aizen.suigetsuKyoka.damage else 0) := by split_ifs <;> omega
  unfold GameScene.CheckCollisions GameScene.aizenAttacksZoro
  by_cases hv : g.zoroAttacksAizen.aizen.IsVulnerable = true
  · rw [if_pos hv]
    simp only [hb1, hb2, hb3, f2, f3, f4, f5]
    have hz0 : 0 ≤ g.zoroAttacksAizen.zoro.healthBar.hp ∧
        InInt g.zoroAttacksAizen.zoro.healthBar.hp := by rw [f1]; exact hhp
    obtain ⟨k1, l1, u1⟩ := zoro_takeDamage_if_bounds g.zoroAttacksAizen.zoro
      (CheckCollisionRecs g.aizen.GetHadoBounds g.zoroBounds)
      (floatToInt g.aizen.hado.damage) hz0 hhado
    obtain ⟨k2, l2, u2⟩ := zoro_takeDamage_if_bounds _
      (CheckCollisionRecs g.aizen.GetSpiritSlashBounds g.zoroBounds)
      (floatToInt g.aizen.spiritSlash.damage) k1 hspirit
    obtain ⟨_, l3, u3⟩ := zoro_takeDamage_if_bounds _
      (CheckCollisionRecs g.aizen.GetSuigetsuBounds g.zoroBounds)
      (floatToInt g.aizen.suigetsuKyoka.damage) k2 hsuigetsu
    rw [f1] at l1 u1
    constructor
    · exact le_trans u3 (le_trans u2 u1)
    · omega
  · rw [if_neg hv, f1]
    constructor
    · exact le_refl _
    · omega

/-- An instance of the bound: the scene `sceneHadoCast`, Hado over Zoro's hurtbox. -/
theorem checkCollisions_effect_damage_once_per_tick_witness :
    (0 ≤ sceneHadoCast.zoro.healthBar.hp ∧ InInt sceneHadoCast.zoro.healthBar.hp) ∧
    CheckCollisionRecs sceneHadoCast.aizen.GetHadoBounds sceneHadoCast.zoroBounds = true ∧
    sceneHadoCast.CheckCollisions.zoro.healthBar.hp ≤ sceneHadoCast.zoro.healthBar.hp :=
  ⟨by decide, by decide!,
    (checkCollisions_effect_damage_once_per_tick sceneHadoCast (by decide) (by decide!)
      (by decide!) (by decide!)).1⟩

/-- What `GameScene::CheckCollisions` does for an Aizen in hit reaction or death: nothing at
all, both blocks are guarded by `aizen.IsVulnerable()`. -/
theorem checkCollisions_aizen_not_vulnerable (g : GameScene)
    (h : g.aizen.state = AIZEN_HIT ∨ g.aizen.state = AIZEN_DEATH) : g.CheckCollisions = g := by
  have hv : g.aizen.IsVulnerable = false := by
    unfold Aizen.IsVulnerable
    rcases h with h | h <;> simp [h]
  unfold GameScene.CheckCollisions
  rw [zoroAttacksAizen_aizen_of_not_vulnerable g hv]
  unfold GameScene.aizenAttacksZoro
  simp [hv]

/-- C9, the failing input: Zoro is in his hit reaction (state `HIT`) when the check starts,
Aizen is vulnerable and its Hado rectangle lies over Zoro's hurtbox; `CheckCollisions` deducts
the Hado damage all the same, 1000 -> 970, because the second block tests
`aizen.IsVulnerable()` and `Zoro::IsVulnerable` is never consulted. -/
theorem checkCollisions_damages_zoro_in_hit :
    sceneHadoCastZoroHit.zoro.state = HIT ∧
    sceneHadoCastZoroHit.zoro.IsVulnerable = false ∧
    sceneHadoCastZoroHit.zoro.healthBar.hp = 1000 ∧
    sceneHadoCastZoroHit.CheckCollisions.zoro.healthBar.hp = 970 := by
  decide!

/-! ## Input handling -/

/-- The three blocks of `HandleInput` that precede the attack block leave the combo data, the
cooldowns and the seven attack clips alone, and set `isBlocking` from the block key. -/
theorem inputBlocks_frame (z : Zoro) (keys : Keys) :
    (((z.inputMove keys).inputJump keys).inputBlock keys).attackCooldown = z.attackCooldown ∧
    (((z.inputMove keys).inputJump keys).inputBlock keys).isBlocking
      = (keys.a && decide (z.blockCooldown ≤ 0)) ∧
    (((z.inputMove keys).inputJump keys).inputBlock keys).comboCount = z.comboCount ∧
    (((z.inputMove keys).inputJump keys).inputBlock keys).maxCombo = z.maxCombo ∧
    (((z.inputMove keys).inputJump keys).inputBlock keys).comboTimer = z.comboTimer ∧
    (((z.inputMove keys).inputJump keys).inputBlock keys).attack1 = z.attack1 ∧
    (((z.inputMove keys).inputJump keys).inputBlock keys).attack2 = z.attack2 ∧
    (((z.inputMove keys).inputJump keys).inputBlock keys).attack3 = z.attack3 ∧
    (((z.inputMove keys).inputJump keys).inputBlock keys).oniGiri = z.oniGiri ∧
    (((z.inputMove keys).inputJump keys).inputBlock keys).sanzenSekai = z.sanzenSekai ∧
    (((z.inputMove keys).inputJump keys).inputBlock keys).tatsumaki = z.tatsumaki ∧
    (((z.inputMove keys).inputJump keys).inputBlock keys).hiryuKaen = z.hiryuKaen := by
  have hm : (z.inputMove keys).attackCooldown = z.attackCooldown ∧
      (z.inputMove keys).blockCooldown = z.blockCooldown ∧
      (z.inputMove keys).isBlocking = false ∧
      (z.inputMove keys).comboCount = z.comboCount ∧
      (z.inputMove keys).maxCombo = z.maxCombo ∧
      (z.inputMove keys).comboTimer = z.comboTimer ∧
      (z.inputMove keys).attack1 = z.attack1 ∧
      (z.inputMove keys).attack2 = z.attack2 ∧
      (z.inputMove keys).attack3 = z.attack3 ∧
      (z.inputMove keys).oniGiri = z.oniGiri ∧
      (z.inputMove keys).sanzenSekai = z.sanzenSekai ∧
      (z.inputMove keys).tatsumaki = z.tatsumaki ∧
      (z.inputMove keys).hiryuKaen = z.hiryuKaen := by
    unfold Zoro.inputMove
    simp only []
    split_ifs <;> simp
  have hj : ∀ w : Zoro, (w.inputJump keys).attackCooldown = w.attackCooldown ∧
      (w.inputJump keys).blockCooldown = w.blockCooldown ∧
      (w.inputJump keys).isBlocking = w.isBlocking ∧
      (w.inputJump keys).comboCount = w.comboCount ∧
      (w.inputJump keys).maxCombo = w.maxCombo ∧
      (w.inputJump keys).comboTimer = w.comboTimer ∧
      (w.inputJump keys).attack1 = w.attack1 ∧
      (w.inputJump keys).attack2 = w.attack2 ∧
      (w.inputJump keys).attack3 = w.attack3 ∧
      (w.inputJump keys).oniGiri = w.oniGiri ∧
      (w.inputJump keys).sanzenSekai = w.sanzenSekai ∧
      (w.inputJump keys).tatsumaki = w.tatsumaki ∧
      (w.inputJump keys).hiryuKaen = w.hiryuKaen := by
    intro w
    unfold Zoro.inputJump
    split_ifs <;> simp
  have hb : ∀ w : Zoro, (w.inputBlock keys).attackCooldown = w.attackCooldown ∧
      (w.inputBlock keys).isBlocking
        = (if keys.a && decide (w.blockCooldown ≤ 0) then true else w.isBlocking) ∧
      (w.inputBlock keys).comboCount = w.comboCount ∧
      (w.inputBlock keys).maxCombo = w.maxCombo ∧
      (w.inputBlock keys).comboTimer = w.comboTimer ∧
      (w.inputBlock keys).attack1 = w.attack1 ∧
      (w.inputBlock keys).attack2 = w.attack2 ∧
      (w.inputBlock keys).attack3 = w.attack3 ∧
      (w.inputBlock keys).oniGiri = w.oniGiri ∧
      (w.inputBlock keys).sanzenSekai = w.sanzenSekai ∧
      (w.inputBlock keys).tatsumaki = w.tatsumaki ∧
      (w.inputBlock keys).hiryuKaen = w.hiryuKaen := by
    intro w
    unfold Zoro.inputBlock
    split_ifs <;> simp
  obtain ⟨m1, m2, m3, m4, m5, m6, m7, m8, m9, m10, m11, m12, m13⟩ := hm
  obtain ⟨j1, j2, j3, j4, j5, j6, j7, j8, j9, j10, j11, j12, j13⟩ := hj (z.inputMove keys)
  obtain ⟨b1, b2, b3, b4, b5, b6, b7, b8, b9, b10, b11, b12⟩ :=
    hb ((z.inputMove keys).inputJump keys)
  refine ⟨by rw [b1, j1, m1], ?_, by rw [b3, j4, m4], by rw [b4, j5, m5], by rw [b5, j6, m6],
    by rw [b6, j7, m7], by rw [b7, j8, m8], by rw [b8, j9, m9], by rw [b9, j10, m10],
    by rw [b10, j11, m11], by rw [b11, j12, m12], by rw [b12, j13, m13]⟩
  rw [b2, j2, m2, j3, m3]
  split_ifs with h <;> simp_all

/-- Counterexample to C10: `zoroLateAttack` is 14 ticks of 1/60 s into the 0.4 s clip of
`ATTACK1` (frame 3 of 6, not finished) and its 0.2 s attack cooldown ran out one tick ago;
`HandleInput` with `J` pressed starts a new attack: `comboCount` goes from 1 to 2 and the clip
is restarted from frame 0; with `K` pressed the state becomes `ONI_GIRI`. -/
theorem handleInput_restarts_attack_mid_clip :
    (zoroLateAttack.state = ATTACK1 ∧ zoroLateAttack.attack1.Finished = false ∧
      zoroLateAttack.attack1.current = 3 ∧ zoroLateAttack.comboCount = 1 ∧
      zoroLateAttack.attackCooldown < 0) ∧
    ((zoroLateAttack.HandleInput { j := true }).comboCount = 2 ∧
      (zoroLateAttack.HandleInput { j := true }).attack1.current = 0) ∧
    ((zoroLateAttack.HandleInput { k := true }).state = ONI_GIRI ∧
      (zoroLateAttack.HandleInput { k := true }).comboCount = 2) := by
  decide!

/-- C10 (amended): for every Zoro whose `attackCooldown` is still positive, or who blocks in
this tick (`A` held with `blockCooldown <= 0`), and for every keyboard input,
`Zoro::HandleInput` does not call `StartAttack`: `comboCount`, `maxCombo`, `comboTimer`, the
cooldown and the seven attack clips are unchanged. The gate is the cooldown, not the clip:
with `attackCooldown <= 0` and no block, a pressed `J` starts `ATTACK1` whatever the current
state and clip are. -/
theorem handleInput_attack_gated_by_cooldown (z : Zoro) (keys : Keys) :
    ((0 < z.attackCooldown ∨ (keys.a = true ∧ z.blockCooldown ≤ 0)) →
      (z.HandleInput keys).comboCount = z.comboCount ∧
      (z.HandleInput keys).maxCombo = z.maxCombo ∧
      (z.HandleInput keys).comboTimer = z.comboTimer ∧
      (z.HandleInput keys).attackCooldown = z.attackCooldown ∧
      (z.HandleInput keys).attack1 = z.attack1 ∧
      (z.HandleInput keys).attack2 = z.attack2 ∧
      (z.HandleInput keys).attack3 = z.attack3 ∧
      (z.HandleInput keys).oniGiri = z.oniGiri ∧
      (z.HandleInput keys).sanzenSekai = z.sanzenSekai ∧
      (z.HandleInput keys).tatsumaki = z.tatsumaki ∧
      (z.HandleInput keys).hiryuKaen = z.hiryuKaen) ∧
    (z.attackCooldown ≤ 0 → ¬ (keys.a = true ∧ z.blockCooldown ≤ 0) → keys.j = true →
      (z.HandleInput keys).state = ATTACK1 ∧
      (z.HandleInput keys).comboCount = wrap32 (z.comboCount + 1) ∧
      (z.HandleInput keys).attack1 = z.attack1.Reset ∧
      (z.HandleInput keys).attackCooldown = 1 / 5) := by
  obtain ⟨f1, f2, f3, f4, f5, f6, f7, f8, f9, f10, f11, f12⟩ := inputBlocks_frame z keys
  constructor
  · intro h
    have hgate : (decide ((((z.inputMove keys).inputJump keys).inputBlock keys).attackCooldown
        ≤ 0) && !(((z.inputMove keys).inputJump keys).inputBlock keys).isBlocking) = false := by
      rw [f1, f2]
      rcases h with h | ⟨ha, hb⟩
      · simp [not_le.mpr h]
      · simp [ha, hb]
    have hres : z.HandleInput keys = ((z.inputMove keys).inputJump keys).inputBlock keys := by
      unfold Zoro.HandleInput
      generalize ((z.inputMove keys).inputJump keys).inputBlock keys = w at hgate ⊢
      unfold Zoro.inputAttack
      rw [hgate]
      rfl
    rw [hres]
    exact ⟨f3, f4, f5, f1, f6, f7, f8, f9, f10, f11, f12⟩
  · intro hcd hnb hj
    have hgate : (decide ((((z.inputMove keys).inputJump keys).inputBlock keys).attackCooldown
        ≤ 0) && !(((z.inputMove keys).inputJump keys).inputBlock keys).isBlocking) = true := by
      rw [f1, f2]
      have : (keys.a && decide (z.blockCooldown ≤ 0)) = false := by
        rw [Bool.and_eq_false_iff]
        by_cases ha : keys.a = true
        · right
          simpa using fun hb => hnb ⟨ha, hb⟩
        · left
          simpa using ha
      simp [this, hcd]
    have hres : z.HandleInput keys =
        { (((z.inputMove keys).inputJump keys).inputBlock keys).StartAttack ATTACK1 with
          attackCooldown := 1 / 5 } := by
      unfold Zoro.HandleInput
      generalize ((z.inputMove keys).inputJump keys).inputBlock keys = w at hgate ⊢
      unfold Zoro.inputAttack
      rw [hgate]
      simp [hj]
    rw [hres]
    refine ⟨rfl, ?_, ?_, rfl⟩
    · show ((((z.inputMove keys).inputJump keys).inputBlock keys).StartAttack ATTACK1).comboCount
        = _
      rw [startAttack_comboCount, f3]
    · show ((((z.inputMove keys).inputJump keys).inputBlock keys).StartAttack ATTACK1).attack1
        = _
      rw [← f6]
      rfl

/-- Witness of C10 (amended): `zoroAttackStarted` has 0.2 s of cooldown left and ignores `J`;
`zoroLateAttack` has none left and restarts `ATTACK1`. -/
theorem handleInput_attack_gated_by_cooldown_witness :
    (0 < zoroAttackStarted.attackCooldown ∧
      (zoroAttackStarted.HandleInput { j := true }).comboCount = zoroAttackStarted.comboCount) ∧
    (zoroLateAttack.attackCooldown < 0 ∧
      (zoroLateAttack.HandleInput { j := true }).state = ATTACK1) :=
  ⟨⟨by decide!,
      ((handleInput_attack_gated_by_cooldown zoroAttackStarted { j := true }).1
        (Or.inl (by decide!))).1⟩,
    ⟨by decide!,
      ((handleInput_attack_gated_by_cooldown zoroLateAttack { j := true }).2
        (by decide!) (by decide) rfl).1⟩⟩

/-! ## Death is terminal -/

theorem zoro_updateAnimationPositions_frame (z : Zoro) :
    z.UpdateAnimationPositions.state = z.state ∧
    z.UpdateAnimationPositions.position = z.position ∧
    z.UpdateAnimationPositions.velocity = z.velocity ∧
    z.UpdateAnimationPositions.shakeTime = z.shakeTime :=
  ⟨rfl, rfl, rfl, rfl⟩

theorem zoro_update_death (z : Zoro) (dt : Rat) (keys : Keys) (h : z.state = DEATH) :
    (z.Update dt keys).state = DEATH ∧ (z.Update dt keys).position = z.position ∧
    (z.Update dt keys).velocity = z.velocity := by
  unfold Zoro.Update
  by_cases hs : z.hitStopTime > 0
  · rw [if_pos hs]
    exact ⟨h, rfl, rfl⟩
  · rw [if_neg hs]
    have h1 : (z.tickTimers dt).state = DEATH := h
    have hd : (z.tickTimers dt).dispatch keys = z.tickTimers dt := by
      unfold Zoro.dispatch
      simp [h1]
    have hp : (z.tickTimers dt).physics dt = z.tickTimers dt := by
      unfold Zoro.physics
      simp [h1]
    have hc : ∀ w : Zoro, w.state = DEATH →
        (w.UpdateCurrentAnimation dt).state = DEATH ∧
        (w.UpdateCurrentAnimation dt).position = w.position ∧
        (w.UpdateCurrentAnimation dt).velocity = w.velocity := by
      intro w hw
      unfold Zoro.UpdateCurrentAnimation
      rw [hw]
      exact ⟨rfl, rfl, rfl⟩
    obtain ⟨c1, c2, c3⟩ := hc (z.tickTimers dt).UpdateAnimationPositions h1
    simp only [hd, hp]
    split_ifs
    · exact ⟨c1, c2, c3⟩
    · exact ⟨c1, c2, c3⟩

theorem aizen_update_death (a : Aizen) (dt : Rat) (zoro : Zoro) (rolls : Rolls)
    (h : a.state = AIZEN_DEATH) :
    (a.Update dt zoro rolls).state = AIZEN_DEATH ∧
    (a.Update dt zoro rolls).position = a.position ∧
    (a.Update dt zoro rolls).velocity = a.velocity := by
  have h1 : (a.updateEffects dt).state = AIZEN_DEATH := h
  have hr : (a.updateEffects dt).react dt zoro.position rolls = a.updateEffects dt := by
    unfold Aizen.react
    simp [h1]
  unfold Aizen.Update
  rw [hr]
  exact ⟨h, rfl, rfl⟩

/-- C11: for every Zoro in state `DEATH`, every `dt` and every keyboard input, `Zoro::Update`
leaves the state `DEATH` and the position and velocity unchanged; likewise for every Aizen in
state `AIZEN_DEATH`, every `dt`, every Zoro and every AI random roll, `Aizen::Update` leaves
the state `AIZEN_DEATH` and the position and velocity unchanged. -/
theorem update_death_is_terminal (z : Zoro) (a : Aizen) (dt : Rat) (keys : Keys)
    (zoro : Zoro) (rolls : Rolls) (hz : z.state = DEATH) (ha : a.state = AIZEN_DEATH) :
    ((z.Update dt keys).state = DEATH ∧ (z.Update dt keys).position = z.position ∧
      (z.Update dt keys).velocity = z.velocity) ∧
    ((a.Update dt zoro rolls).state = AIZEN_DEATH ∧
      (a.Update dt zoro rolls).position = a.position ∧
      (a.Update dt zoro rolls).velocity = a.velocity) :=
  ⟨zoro_update_death z dt keys hz, aizen_update_death a dt zoro rolls ha⟩

/-- Witness of C11: an initialised Zoro and an initialised Aizen killed by 1000 points of
damage. -/
theorem update_death_is_terminal_witness :
    ((({} : Zoro).Init).TakeDamage 1000).state = DEATH ∧
    ((({} : Aizen).Init 1).TakeDamage 1000).state = AIZEN_DEATH ∧
    (((({} : Zoro).Init).TakeDamage 1000).Update (1 / 60) { right := true, j := true }).state
      = DEATH ∧
    (((({} : Aizen).Init 1).TakeDamage 1000).Update (1 / 60) (({} : Zoro).Init) {}).state
      = AIZEN_DEATH :=
  ⟨by decide, by decide,
    (update_death_is_terminal ((({} : Zoro).Init).TakeDamage 1000)
      ((({} : Aizen).Init 1).TakeDamage 1000) (1 / 60) { right := true, j := true }
      (({} : Zoro).Init) {} (by decide) (by decide)).1.1,
    (update_death_is_terminal ((({} : Zoro).Init).TakeDamage 1000)
      ((({} : Aizen).Init 1).TakeDamage 1000) (1 / 60) { right := true, j := true }
      (({} : Zoro).Init) {} (by decide) (by decide)).2.1⟩

/-! ## Animation clips -/

/-- `Animation::Update` never touches the clip parameters. -/
theorem animation_update_params (a : Animation) (dt : Rat) :
    (a.Update dt).frames = a.frames ∧ (a.Update dt).loop = a.loop ∧
    (a.Update dt).fps = a.fps := by
  unfold Animation.Update
  simp only []
  split_ifs <;> exact ⟨rfl, rfl, rfl⟩

/-- `Animation::Update` on a clip with a single frame (or none) does nothing. -/
theorem animation_update_still (a : Animation) (dt : Rat) (h : a.frames ≤ 1) :
    a.Update dt = a := by
  unfold Animation.Update
  rw [if_pos h]

/-- `Animation::Update` below the frame duration: only the timer moves. -/
theorem animation_update_wait (a : Animation) (dt : Rat) (h : 1 < a.frames)
    (ht : a.timer + dt < 1 / a.fps) :
    a.Update dt = { a with timer := a.timer + dt } := by
  unfold Animation.Update
  rw [if_neg (not_le.mpr h)]
  simp only []
  rw [if_neg (not_le.mpr ht)]

/-- `Animation::Update` at or above the frame duration: the timer, the frame index and the
finished flag after the advance. -/
theorem animation_update_advance (a : Animation) (dt : Rat) (h : 1 < a.frames)
    (ht : 1 / a.fps ≤ a.timer + dt) :
    (a.Update dt).timer = 0 ∧
    (a.Update dt).current =
      (if a.frames ≤ wrap32 (a.current + 1) then
        (if a.loop then 0 else wrap32 (a.frames - 1))
      else wrap32 (a.current + 1)) ∧
    (a.Update dt).finished =
      (if a.frames ≤ wrap32 (a.current + 1) then
        (if a.loop then a.finished else true)
      else false) := by
  unfold Animation.Update
  rw [if_neg (not_le.mpr h)]
  simp only []
  rw [if_pos ht]
  split_ifs <;> exact ⟨rfl, rfl, rfl⟩

/-- C12: for a clip with `frames > 1` and `fps > 0` (frame count and index of type `int`),
`Animation::Update(dt)` adds `dt` to the timer; if the timer is then `>= 1/fps` it sets the
timer to 0 and advances the frame index by exactly one, wrapping to 0 when the clip loops and
otherwise clamping to `frames - 1` and setting `finished`; if the timer is still `< 1/fps`
the frame index and the finished flag are unchanged. -/
theorem animation_update_contract (a : Animation) (dt : Rat)
    (hframes : 1 < a.frames) (_hfps : 0 < a.fps)
    (hint : InInt a.frames ∧ InInt (a.current + 1)) :
    (1 / a.fps ≤ a.timer + dt →
      (a.Update dt).timer = 0 ∧
      (a.current + 1 < a.frames →
        (a.Update dt).current = a.current + 1 ∧ (a.Update dt).finished = false) ∧
      (a.frames ≤ a.current + 1 → a.loop = true →
        (a.Update dt).current = 0 ∧ (a.Update dt).finished = a.finished) ∧
      (a.frames ≤ a.current + 1 → a.loop = false →
        (a.Update dt).current = a.frames - 1 ∧ (a.Update dt).finished = true)) ∧
    (a.timer + dt < 1 / a.fps →
      (a.Update dt).timer = a.timer + dt ∧ (a.Update dt).current = a.current ∧
      (a.Update dt).finished = a.finished) := by
  obtain ⟨hfi, hci⟩ := hint
  have hw1 : wrap32 (a.current + 1) = a.current + 1 := wrap32_of_inInt hci
  have hw2 : wrap32 (a.frames - 1) = a.frames - 1 :=
    wrap32_of_inInt (by unfold InInt at hfi ⊢; omega)
  constructor
  · intro ht
    obtain ⟨e1, e2, e3⟩ := animation_update_advance a dt hframes ht
    rw [hw1, hw2] at e2
    rw [hw1] at e3
    refine ⟨e1, ?_, ?_, ?_⟩
    · intro hlt
      rw [e2, e3, if_neg (not_le.mpr hlt), if_neg (not_le.mpr hlt)]
      exact ⟨rfl, rfl⟩
    · intro hge hloop
      rw [e2, e3, if_pos hge, if_pos hge, if_pos hloop, if_pos hloop]
      exact ⟨rfl, rfl⟩
    · intro hge hloop
      rw [e2, e3, if_pos hge, if_pos hge, hloop]
      exact ⟨rfl, rfl⟩
  · intro ht
    rw [animation_update_wait a dt hframes ht]
    exact ⟨rfl, rfl, rfl⟩

/-- Witness of C12: Zoro's `ATTACK1` clip (6 frames, 15 fps) after `Init`, with a tick of
1/15 s. -/
theorem animation_update_contract_witness :
    (1 : Int) < (({} : Animation).Init 1122 170 6 15 false).frames ∧
    (0 : Rat) < (({} : Animation).Init 1122 170 6 15 false).fps ∧
    ((({} : Animation).Init 1122 170 6 15 false).Update (1 / 15)).timer = 0 :=
  ⟨by decide, by decide!,
    ((animation_update_contract (({} : Animation).Init 1122 170 6 15 false) (1 / 15)
      (by decide) (by decide!) (by decide)).1 (by decide!)).1⟩

/-- One `Animation::Update` keeps an index that lies in `[0, frames)` there. -/
theorem animation_update_current_range (a : Animation) (dt : Rat)
    (hframes : 1 ≤ a.frames ∧ InInt a.frames)
    (hcur : 0 ≤ a.current ∧ a.current < a.frames) :
    0 ≤ (a.Update dt).current ∧ (a.Update dt).current < a.frames := by
  obtain ⟨hf1, hfi⟩ := hframes
  obtain ⟨hc0, hc1⟩ := hcur
  unfold InInt at hfi
  by_cases h1 : a.frames ≤ 1
  · rw [animation_update_still a dt h1]
    exact ⟨hc0, hc1⟩
  · have h1lt : 1 < a.frames := not_le.mp h1
    by_cases ht : 1 / a.fps ≤ a.timer + dt
    · obtain ⟨_, e2, _⟩ := animation_update_advance a dt h1lt ht
      have hw1 : wrap32 (a.current + 1) = a.current + 1 :=
        wrap32_of_inInt (by unfold InInt; omega)
      have hw2 : wrap32 (a.frames - 1) = a.frames - 1 :=
        wrap32_of_inInt (by unfold InInt; omega)
      rw [e2, hw1, hw2]
      split_ifs <;> omega
    · rw [animation_update_wait a dt h1lt (not_le.mp ht)]
      exact ⟨hc0, hc1⟩

/-- C13: for every clip with `frames >= 1` (a value of type `int`) whose frame index is in
`[0, frames)`, every `Animation::Update(dt)` and every `Animation::Reset()` leaves the frame
index in `[0, frames)`. -/
theorem animation_index_in_range (a : Animation) (dt : Rat)
    (hframes : 1 ≤ a.frames ∧ InInt a.frames)
    (hcur : 0 ≤ a.current ∧ a.current < a.frames) :
    (0 ≤ (a.Update dt).current ∧ (a.Update dt).current < (a.Update dt).frames) ∧
    (0 ≤ a.Reset.current ∧ a.Reset.current < a.Reset.frames) := by
  refine ⟨?_, ?_⟩
  · rw [(animation_update_params a dt).1]
    exact animation_update_current_range a dt hframes hcur
  · show (0 : Int) ≤ 0 ∧ (0 : Int) < a.frames
    have := hframes.1
    omega

/-- Witness of C13: Zoro's `ATTACK1` clip after `Init`. -/
theorem animation_index_in_range_witness :
    ((1 : Int) ≤ (({} : Animation).Init 1122 170 6 15 false).frames ∧
      InInt (({} : Animation).Init 1122 170 6 15 false).frames) ∧
    0 ≤ ((({} : Animation).Init 1122 170 6 15 false).Update (1 / 15)).current :=
  ⟨by decide,
    (animation_index_in_range (({} : Animation).Init 1122 170 6 15 false) (1 / 15)
      (by decide) (by decide)).1.1⟩

/-- One `Animation::Update` of a non-looping clip: `finished` is only ever true on the last
frame, and it stays true once it is. -/
theorem animation_update_nonloop_finished (a : Animation) (dt : Rat)
    (hloop : a.loop = false) (hframes : 1 < a.frames ∧ InInt a.frames)
    (hinv : a.finished = true → a.current = a.frames - 1) :
    ((a.Update dt).finished = true → (a.Update dt).current = a.frames - 1) ∧
    (a.finished = true → (a.Update dt).finished = true) := by
  obtain ⟨hf1, hfi⟩ := hframes
  have hw2 : wrap32 (a.frames - 1) = a.frames - 1 :=
    wrap32_of_inInt (by unfold InInt at hfi ⊢; omega)
  by_cases ht : 1 / a.fps ≤ a.timer + dt
  · obtain ⟨_, e2, e3⟩ := animation_update_advance a dt hf1 ht
    rw [hloop, hw2] at e2
    rw [hloop] at e3
    simp only [Bool.false_eq_true, if_false] at e2 e3
    constructor
    · intro hfin
      rw [e3] at hfin
      rw [e2]
      split_ifs with h
      · rfl
      · rw [if_neg h] at hfin
        exact absurd hfin (by decide)
    · intro hfin
      have hc := hinv hfin
      have hw : wrap32 (a.current + 1) = a.frames := by
        rw [hc]
        have : a.frames - 1 + 1 = a.frames := by omega
        rw [this]
        exact wrap32_of_inInt hfi
      rw [e3, hw, if_pos (le_refl _)]
  · rw [animation_update_wait a dt hf1 (not_le.mp ht)]
    exact ⟨hinv, fun h => h⟩

/-- A sequence of `Animation::Update` calls on a non-looping clip keeps the invariant
"finished only on the last frame" and keeps `finished` once set. -/
theorem animation_updates_nonloop_finished (dts : List Rat) :
    ∀ a : Animation, a.loop = false → (1 < a.frames ∧ InInt a.frames) →
      (a.finished = true → a.current = a.frames - 1) →
      (dts.foldl Animation.Update a).loop = false ∧
      (dts.foldl Animation.Update a).frames = a.frames ∧
      ((dts.foldl Animation.Update a).finished = true →
        (dts.foldl Animation.Update a).current = a.frames - 1) ∧
      (a.finished = true → (dts.foldl Animation.Update a).finished = true) := by
  induction dts with
  | nil => intro a hloop _ hinv; exact ⟨hloop, rfl, hinv, fun h => h⟩
  | cons dt rest ih =>
    intro a hloop hframes hinv
    obtain ⟨p1, p2, _⟩ := animation_update_params a dt
    obtain ⟨s1, s2⟩ := animation_update_nonloop_finished a dt hloop hframes hinv
    have hinv2 : (a.Update dt).finished = true →
        (a.Update dt).current = (a.Update dt).frames - 1 := by rw [p1]; exact s1
    obtain ⟨r1, r2, r3, r4⟩ := ih (a.Update dt) (by rw [p2]; exact hloop)
      (by rw [p1]; exact hframes) hinv2
    rw [List.foldl_cons]
    rw [p1] at r2 r3
    exact ⟨r1, r2, r3, fun h => r4 (s2 h)⟩

/-- C14: for a non-looping clip with `frames > 1` (a value of type `int`) and `fps > 0` in any
state reached from `Init` or `Reset` by `Update` calls, once `finished` is true it is still
true after every further sequence of `Update(dt)` calls; `Reset` clears it. -/
theorem animation_finished_sticky (b start : Animation)
    (totalWidth frameHeight frameCount : Int) (fps : Rat) (dts more : List Rat)
    (hstart : start = b.Init totalWidth frameHeight frameCount fps false ∨ start = b.Reset)
    (hclip : start.loop = false ∧ 1 < start.frames ∧ InInt start.frames ∧ 0 < start.fps)
    (hfin : (dts.foldl Animation.Update start).finished = true) :
    (more.foldl Animation.Update (dts.foldl Animation.Update start)).finished = true ∧
    (more.foldl Animation.Update (dts.foldl Animation.Update start)).Reset.finished = false := by
  obtain ⟨hloop, hf1, hfi, _⟩ := hclip
  have hnf : start.finished = false := by
    rcases hstart with h | h
    · rw [h]; rfl
    · rw [h]; rfl
  have hinv : start.finished = true → start.current = start.frames - 1 := by
    intro h
    rw [hnf] at h
    exact absurd h (by decide)
  obtain ⟨q1, q2, q3, _⟩ := animation_updates_nonloop_finished dts start hloop ⟨hf1, hfi⟩ hinv
  have hinv2 : (dts.foldl Animation.Update start).finished = true →
      (dts.foldl Animation.Update start).current
        = (dts.foldl Animation.Update start).frames - 1 := by
    rw [q2]; exact q3
  obtain ⟨_, _, _, r4⟩ := animation_updates_nonloop_finished more
    (dts.foldl Animation.Update start) q1 (by rw [q2]; exact ⟨hf1, hfi⟩) hinv2
  exact ⟨r4 hfin, rfl⟩

/-- Witness of C14: the hit clip (3 frames, 10 fps, not looping) after `Init`, three ticks of
0.1 s to finish it and two more ticks. -/
theorem animation_finished_sticky_witness :
    (([1 / 10, 1 / 10, 1 / 10] : List Rat).foldl Animation.Update
      (({} : Animation).Init 260 105 3 10 false)).finished = true ∧
    (([1 / 10, 1 / 60] : List Rat).foldl Animation.Update
      (([1 / 10, 1 / 10, 1 / 10] : List Rat).foldl Animation.Update
        (({} : Animation).Init 260 105 3 10 false))).finished = true :=
  ⟨by decide!,
    (animation_finished_sticky {} (({} : Animation).Init 260 105 3 10 false) 260 105 3 10
      [1 / 10, 1 / 10, 1 / 10] [1 / 10, 1 / 60] (Or.inl rfl)
      ⟨by decide, by decide, by decide, by decide!⟩ (by decide!)).1⟩

/-! ### Looping clips over one period -/

/-- A sequence of `Animation::Update` calls keeps an index that lies in `[0, frames)`
there. -/
theorem animation_updates_current_range (dts : List Rat) :
    ∀ a : Animation, (1 ≤ a.frames ∧ InInt a.frames) →
      (0 ≤ a.current ∧ a.current < a.frames) →
      0 ≤ (dts.foldl Animation.Update a).current ∧
      (dts.foldl Animation.Update a).current < a.frames := by
  induction dts with
  | nil => intro a _ h; exact h
  | cons dt rest ih =>
    intro a hframes hcur
    obtain ⟨p1, _, _⟩ := animation_update_params a dt
    have h1 := animation_update_current_range a dt hframes hcur
    have h2 := ih (a.Update dt) (by rw [p1]; exact hframes) (by rw [p1]; exact h1)
    rw [p1] at h2
    rw [List.foldl_cons]
    exact h2

/-- Counterexample to C16: the hit clip (3 frames, 10 fps, not looping) started from `Reset`
and updated in steps of 0.1 s. The second `Update` is the first that brings the frame index
to the last frame 2, and it leaves `finished` false; `finished` becomes true only with the
third `Update`, which does not move the index. -/
theorem finished_not_set_on_reaching_last_frame :
    ((({} : Animation).Init 260 105 3 10 false).Reset.loop = false ∧
      (({} : Animation).Init 260 105 3 10 false).Reset.frames = 3) ∧
    ((([1 / 10] : List Rat).foldl Animation.Update
        (({} : Animation).Init 260 105 3 10 false).Reset).current = 1 ∧
      (([1 / 10] : List Rat).foldl Animation.Update
        (({} : Animation).Init 260 105 3 10 false).Reset).finished = false) ∧
    ((([1 / 10, 1 / 10] : List Rat).foldl Animation.Update
        (({} : Animation).Init 260 105 3 10 false).Reset).current = 2 ∧
      (([1 / 10, 1 / 10] : List Rat).foldl Animation.Update
        (({} : Animation).Init 260 105 3 10 false).Reset).finished = false) ∧
    ((([1 / 10, 1 / 10, 1 / 10] : List Rat).foldl Animation.Update
        (({} : Animation).Init 260 105 3 10 false).Reset).current = 2 ∧
      (([1 / 10, 1 / 10, 1 / 10] : List Rat).foldl Animation.Update
        (({} : Animation).Init 260 105 3 10 false).Reset).finished = true) := by
  decide!

/-- C16 (amended): for a non-looping clip with `frames > 1` started from `Reset`, in every
state reached by `Animation::Update` calls the frame index is in `[0, frames - 1]` and
`finished` is true only on the last frame; an `Update` made while the index is below the last
frame leaves `finished` false (so the `Update` that first brings the index to `frames - 1`
does not set it); the `Update` that first sets `finished` is made with the index already on
the last frame, reaches the frame duration and leaves the index on `frames - 1`. -/
theorem finished_set_after_last_frame (b : Animation) (dts : List Rat) (dt : Rat)
    (hclip : b.loop = false ∧ 1 < b.frames ∧ InInt b.frames) :
    (0 ≤ (dts.foldl Animation.Update b.Reset).current ∧
      (dts.foldl Animation.Update b.Reset).current ≤ b.frames - 1) ∧
    ((dts.foldl Animation.Update b.Reset).finished = true →
      (dts.foldl Animation.Update b.Reset).current = b.frames - 1) ∧
    ((dts.foldl Animation.Update b.Reset).current < b.frames - 1 →
      ((dts.foldl Animation.Update b.Reset).Update dt).finished = false) ∧
    (((dts.foldl Animation.Update b.Reset).Update dt).finished = true →
      (dts.foldl Animation.Update b.Reset).finished = false →
      (dts.foldl Animation.Update b.Reset).current = b.frames - 1 ∧
      ((dts.foldl Animation.Update b.Reset).Update dt).current = b.frames - 1 ∧
      1 / (dts.foldl Animation.Update b.Reset).fps
        ≤ (dts.foldl Animation.Update b.Reset).timer + dt) := by
  obtain ⟨hloop, hf1, hfi⟩ := hclip
  have hfi2 := hfi
  unfold InInt at hfi2
  have hR1 : b.Reset.loop = false := hloop
  have hR2 : b.Reset.frames = b.frames := rfl
  have hR3 : b.Reset.current = 0 := rfl
  have hR4 : b.Reset.finished = false := rfl
  obtain ⟨q1, q2, q3, _⟩ := animation_updates_nonloop_finished dts b.Reset hR1 ⟨hf1, hfi⟩
    (fun h => by rw [hR4] at h; exact absurd h (by decide))
  obtain ⟨r1, r2⟩ := animation_updates_current_range dts b.Reset ⟨by omega, hfi⟩
    (by rw [hR3, hR2]; omega)
  rw [hR2] at q2 q3 r2
  generalize dts.foldl Animation.Update b.Reset = a at q1 q2 q3 r1 r2 ⊢
  have hw1 : wrap32 (a.current + 1) = a.current + 1 :=
    wrap32_of_inInt (by unfold InInt; omega)
  refine ⟨⟨r1, by omega⟩, q3, ?_, ?_⟩
  · intro hlt
    have hnf : a.finished = false := by
      by_contra hcon
      have := q3 (by simpa using hcon)
      omega
    by_cases ht : 1 / a.fps ≤ a.timer + dt
    · obtain ⟨_, _, e3⟩ := animation_update_advance a dt (by rw [q2]; exact hf1) ht
      rw [e3, hw1, q2, if_neg (by omega)]
    · rw [animation_update_wait a dt (by rw [q2]; exact hf1) (not_le.mp ht)]
      exact hnf
  · intro hfin hnf
    by_cases ht : 1 / a.fps ≤ a.timer + dt
    · obtain ⟨_, e2, e3⟩ := animation_update_advance a dt (by rw [q2]; exact hf1) ht
      rw [e3, hw1, q2] at hfin
      rw [e2, hw1, q2, q1]
      by_cases hge : b.frames ≤ a.current + 1
      · have hw2 : wrap32 (b.frames - 1) = b.frames - 1 :=
          wrap32_of_inInt (by unfold InInt; omega)
        rw [if_pos hge, hw2]
        exact ⟨by omega, by simp, ht⟩
      · rw [if_neg hge] at hfin
        exact absurd hfin (by decide)
    · rw [animation_update_wait a dt (by rw [q2]; exact hf1) (not_le.mp ht)] at hfin
      rw [hnf] at hfin
      exact absurd hfin (by decide)

/-- Witness of C16 (amended): the hit clip (3 frames, 10 fps, not looping) from `Reset`, two
steps of 0.1 s and a third one. -/
theorem finished_set_after_last_frame_witness :
    ((({} : Animation).Init 260 105 3 10 false).loop = false ∧
      (1 : Int) < (({} : Animation).Init 260 105 3 10 false).frames) ∧
    (([1 / 10, 1 / 10] : List Rat).foldl Animation.Update
      (({} : Animation).Init 260 105 3 10 false).Reset).current
        ≤ (({} : Animation).Init 260 105 3 10 false).frames - 1 :=
  ⟨by decide,
    (finished_set_after_last_frame (({} : Animation).Init 260 105 3 10 false)
      [1 / 10, 1 / 10] (1 / 10) (by decide)).1.2⟩

/-! ## Initialisation -/

/-- What `Animation::Init` writes and what it keeps: the clip parameters, the frame rectangle
and `finished` are set; the frame index and the time accumulator are those of the prior
state. -/
theorem animation_init_fields (a : Animation) (totalWidth frameHeight frameCount : Int)
    (fps : Rat) (loop : Bool) :
    (a.Init totalWidth frameHeight frameCount fps loop).finished = false ∧
    (a.Init totalWidth frameHeight frameCount fps loop).frame.x = 0 ∧
    (a.Init totalWidth frameHeight frameCount fps loop).frameWidth
      = Int.tdiv totalWidth frameCount ∧
    (a.Init totalWidth frameHeight frameCount fps loop).frame.width
      = ((Int.tdiv totalWidth frameCount : Int) : Rat) ∧
    (a.Init totalWidth frameHeight frameCount fps loop).current = a.current ∧
    (a.Init totalWidth frameHeight frameCount fps loop).timer = a.timer :=
  ⟨rfl, rfl, rfl, rfl, rfl, rfl⟩

/-- C17, the failing input: the `ATTACK1` clip of `zoroMidAttack` is on frame 3 with 1/60 s
accumulated; `Animation::Init` with the arguments of `Zoro::Init` clears `finished` and puts
the frame rectangle back at `x = 0`, but the frame index is still 3 and the accumulator still
1/60, not 0. -/
theorem animation_init_keeps_index_and_timer :
    (zoroMidAttack.attack1.current = 3 ∧ zoroMidAttack.attack1.timer = 1 / 60) ∧
    ((zoroMidAttack.attack1.Init 1122 170 6 15 false).finished = false ∧
      (zoroMidAttack.attack1.Init 1122 170 6 15 false).frame.x = 0 ∧
      (zoroMidAttack.attack1.Init 1122 170 6 15 false).frameWidth = 187) ∧
    ((zoroMidAttack.attack1.Init 1122 170 6 15 false).current = 3 ∧
      (zoroMidAttack.attack1.Init 1122 170 6 15 false).timer = 1 / 60) := by
  decide!

/-- `GameScene::Init` on a freshly constructed scene, difficulty 0, 1 or 2: both fighters and
the scene are in the initial state. -/
theorem gameScene_init_fresh (difficulty : Int) (hd : 0 ≤ difficulty ∧ difficulty ≤ 2)
    (file : Option (List HighScoreEntry)) :
    ((({} : GameScene).Init difficulty file).zoro.state = IDLE ∧
      (({} : GameScene).Init difficulty file).zoro.healthBar = ⟨1000, 1000⟩ ∧
      (({} : GameScene).Init difficulty file).zoro.score = 0 ∧
      (({} : GameScene).Init difficulty file).zoro.comboCount = 0 ∧
      (({} : GameScene).Init difficulty file).zoro.position = ⟨320, 430⟩ ∧
      (({} : GameScene).Init difficulty file).zoro.velocity = ⟨0, 0⟩) ∧
    ((({} : GameScene).Init difficulty file).aizen.state = AIZEN_IDLE ∧
      (({} : GameScene).Init difficulty file).aizen.healthBar
        = ⟨800 + 200 * difficulty, 800 + 200 * difficulty⟩ ∧
      (({} : GameScene).Init difficulty file).aizen.position = ⟨900, 430⟩) ∧
    ((({} : GameScene).Init difficulty file).gameTime = 0 ∧
      (({} : GameScene).Init difficulty file).nameInput = false) := by
  obtain ⟨h0, h2⟩ := hd
  have hw : wrap32 (800 + wrap32 (difficulty * 200)) = 800 + 200 * difficulty := by
    unfold wrap32
    omega
  refine ⟨⟨rfl, rfl, rfl, rfl, rfl, rfl⟩, ⟨rfl, ?_, rfl⟩, ⟨rfl, rfl⟩⟩
  show (⟨wrap32 (800 + wrap32 (difficulty * 200)), wrap32 (800 + wrap32 (difficulty * 200))⟩
    : HealthBar) = _
  rw [hw]

/-- C18, the failing input: `scenePlayed` is the scene at the end of a game (Aizen dead, Zoro
in `HIRYU_KAEN` at `x = 800` with 1000 points, `gameTime` 1/60, `nameInput` true). After
`GameScene::Unload` and `GameScene::Init(1)`, which is how `Game::StartTransition` re-enters
gameplay on the same scene object, the health bars are reset to 1000 but Zoro's state,
position and score, Aizen's state, `gameTime` and `nameInput` are those of the previous
game. -/
theorem gameScene_init_keeps_previous_game :
    ((scenePlayed.Unload.Init 1 none).initialized = true ∧
      (scenePlayed.Unload.Init 1 none).zoro.healthBar = ⟨1000, 1000⟩ ∧
      (scenePlayed.Unload.Init 1 none).aizen.healthBar = ⟨1000, 1000⟩) ∧
    ((scenePlayed.Unload.Init 1 none).zoro.state = HIRYU_KAEN ∧
      (scenePlayed.Unload.Init 1 none).zoro.position = ⟨800, 430⟩ ∧
      (scenePlayed.Unload.Init 1 none).zoro.score = 1000) ∧
    (scenePlayed.Unload.Init 1 none).aizen.state = AIZEN_DEATH ∧
    ((scenePlayed.Unload.Init 1 none).gameTime = 1 / 60 ∧
      (scenePlayed.Unload.Init 1 none).nameInput = true) := by
  decide!

/-! ## Particles -/

theorem integrateAll_eq_map (ps : List Particle) (dt : Rat) :
    ParticleSystem.integrateAll ps dt = ps.map (fun p => p.integrate dt) := by
  induction ps with
  | nil => rfl
  | cons p rest ih =>
    unfold ParticleSystem.integrateAll
    rw [ih]
    rfl

theorem eraseRemoveIf_eq_filter (pred : Particle → Bool) (ps : List Particle) :
    ParticleSystem.eraseRemoveIf pred ps = ps.filter (fun p => !pred p) := by
  induction ps with
  | nil => rfl
  | cons p rest ih =>
    unfold ParticleSystem.eraseRemoveIf
    rw [ih]
    by_cases h : pred p = true
    · simp [h]
    · simp [h]

/-- C19: for every particle list and every `dt`, `ParticleSystem::Update(dt)` yields exactly
the input particles in their original order, each integrated once (position += velocity*dt
with the velocity before the update, then velocity.y += 980*dt*0.1, rotation +=
rotationSpeed*dt, life -= dt), minus those whose new life is `<= 0`; so no particle in the
result has life `<= 0`. -/
theorem particleSystem_update_integrates_then_culls (s : ParticleSystem) (dt : Rat) :
    (s.Update dt).particles =
      (s.particles.map (fun p =>
        ({ position := ⟨p.position.x + p.velocity.x * dt, p.position.y + p.velocity.y * dt⟩
           velocity := ⟨p.velocity.x, p.velocity.y + 980 * dt * (1 / 10)⟩
           size := p.size
           life := p.life - dt
           maxLife := p.maxLife
           rotation := p.rotation + p.rotationSpeed * dt
           rotationSpeed := p.rotationSpeed } : Particle))).filter
        (fun q => decide (0 < q.life)) ∧
    ∀ q ∈ (s.Update dt).particles, 0 < q.life := by
  have hupd : (s.Update dt).particles =
      (s.particles.map (fun p => p.integrate dt)).filter (fun q => decide (0 < q.life)) := by
    unfold ParticleSystem.Update
    simp only []
    rw [integrateAll_eq_map, eraseRemoveIf_eq_filter]
    congr 1
    funext q
    by_cases h : 0 < q.life
    · simp [h]
    · simp [h, not_lt.mp h]
  constructor
  · rw [hupd]
    rfl
  · intro q hq
    rw [hupd] at hq
    have := (List.mem_filter.mp hq).2
    simpa using this

/-! ## Difficulty -/

/-- What the blocks of `AizenAI::Update` before the attack block leave alone: the action
timer, beyond its increment by `dt`, and the state. -/
theorem aizenAI_before_attack (ai : AizenAI) (dt : Rat) (position velocity : Vector2)
    (state : AizenState) (difficulty : Int) (rolls : Rolls) :
    (AizenAI.walk ((ai.tickTimers dt).decideMove dt difficulty rolls) position velocity
      state).ai.actionTimer = ai.actionTimer + dt ∧
    (AizenAI.walk ((ai.tickTimers dt).decideMove dt difficulty rolls) position velocity
      state).state = state := by
  have hm : ((ai.tickTimers dt).decideMove dt difficulty rolls).actionTimer
      = ai.actionTimer + dt := by
    unfold AizenAI.decideMove
    split_ifs <;> rfl
  have hw : ∀ b : AizenAI, (AizenAI.walk b position velocity state).ai.actionTimer
      = b.actionTimer ∧ (AizenAI.walk b position velocity state).state = state := by
    intro b
    unfold AizenAI.walk
    simp only []
    split_ifs <;> exact ⟨rfl, rfl⟩
  obtain ⟨w1, w2⟩ := hw ((ai.tickTimers dt).decideMove dt difficulty rolls)
  exact ⟨by rw [w1, hm], w2⟩

/-- The attack block of `AizenAI::Update`: when its three conditions hold the chosen attack
becomes the state and the action timer is reset, otherwise nothing changes. -/
theorem aizenAI_decideAttack_cases (r : AIResult) (attackCooldown : Rat) (difficulty : Int)
    (rolls : Rolls) :
    ((AizenAI.baseActionDelay difficulty < r.ai.actionTimer ∧
        rolls.attack < floatToInt (AizenAI.attackChance difficulty * 100) ∧
        attackCooldown ≤ 0) →
      (AizenAI.decideAttack r attackCooldown difficulty rolls).state =
        (if rolls.attackType < 40 then AIZEN_HADO
          else if rolls.attackType < 70 then AIZEN_SPIRIT_SLASH
          else AIZEN_SUIGETSU_KYOKA) ∧
      (AizenAI.decideAttack r attackCooldown difficulty rolls).ai.actionTimer = 0) ∧
    (¬ (AizenAI.baseActionDelay difficulty < r.ai.actionTimer ∧
        rolls.attack < floatToInt (AizenAI.attackChance difficulty * 100) ∧
        attackCooldown ≤ 0) →
      AizenAI.decideAttack r attackCooldown difficulty rolls = r) := by
  unfold AizenAI.decideAttack
  constructor
  · rintro ⟨h1, h2, h3⟩
    simp [h1, h2, h3]
  · intro h
    by_cases h1 : AizenAI.baseActionDelay difficulty < r.ai.actionTimer
    · by_cases h2 : rolls.attack < floatToInt (AizenAI.attackChance difficulty * 100)
      · have h3 : ¬ attackCooldown ≤ 0 := fun h3 => h ⟨h1, h2, h3⟩
        simp [h1, h2, h3]
      · simp [h2]
    · simp [h1]

/-- C20: for difficulties `d < d2` in {0, 1, 2} (exact arithmetic) the base action delay
`2.0 - 0.5*d` strictly decreases and the move chance `0.3 + 0.2*d` and the attack chance
`0.4 + 0.3*d` strictly increase; and for the same AI state, timers, cooldown and random rolls,
whenever `AizenAI::Update` issues an attack at difficulty 0 (it resets the action timer instead
of leaving it at its incremented value) it issues the same attack at difficulty 2. -/
theorem difficulty_monotone_aggression (d d2 : Int) (hd : 0 ≤ d ∧ d < d2 ∧ d2 ≤ 2)
    (ai : AizenAI) (dt : Rat) (position velocity playerPos : Vector2) (state : AizenState)
    (attackCooldown : Rat) (rolls : Rolls) :
    (AizenAI.baseActionDelay d2 < AizenAI.baseActionDelay d ∧
      AizenAI.moveChance d < AizenAI.moveChance d2 ∧
      AizenAI.attackChance d < AizenAI.attackChance d2) ∧
    ((ai.Update dt position velocity playerPos state attackCooldown 0 rolls).ai.actionTimer
        ≠ ai.actionTimer + dt →
      ((ai.Update dt position velocity playerPos state attackCooldown 0 rolls).ai.actionTimer = 0 ∧
        (ai.Update dt position velocity playerPos state attackCooldown 0 rolls).state =
          (if rolls.attackType < 40 then AIZEN_HADO
            else if rolls.attackType < 70 then AIZEN_SPIRIT_SLASH
            else AIZEN_SUIGETSU_KYOKA)) ∧
      ((ai.Update dt position velocity playerPos state attackCooldown 2 rolls).ai.actionTimer = 0 ∧
        (ai.Update dt position velocity playerPos state attackCooldown 2 rolls).state =
          (ai.Update dt position velocity playerPos state attackCooldown 0 rolls).state ∧
        (ai.Update dt position velocity playerPos state attackCooldown 2 rolls).ai.actionTimer
          ≠ ai.actionTimer + dt)) := by
  obtain ⟨_, hlt, _⟩ := hd
  have hq : (d : Rat) < (d2 : Rat) := by exact_mod_cast hlt
  constructor
  · unfold AizenAI.baseActionDelay AizenAI.moveChance AizenAI.attackChance
    refine ⟨by linarith, by linarith, by linarith⟩
  · intro hissued
    have hdelay0 : AizenAI.baseActionDelay 0 = 2 := by norm_num [AizenAI.baseActionDelay]
    have hdelay2 : AizenAI.baseActionDelay 2 = 1 := by norm_num [AizenAI.baseActionDelay]
    have hchance0 : floatToInt (AizenAI.attackChance 0 * 100) = 40 := by decide!
    have hchance2 : floatToInt (AizenAI.attackChance 2 * 100) = 100 := by decide!
    obtain ⟨b1, b2⟩ := aizenAI_before_attack ai dt position velocity state 0 rolls
    obtain ⟨c1, c2⟩ := aizenAI_before_attack ai dt position velocity state 2 rolls
    obtain ⟨g0, n0⟩ := aizenAI_decideAttack_cases
      (AizenAI.walk ((ai.tickTimers dt).decideMove dt 0 rolls) position velocity state)
      attackCooldown 0 rolls
    obtain ⟨g2, _⟩ := aizenAI_decideAttack_cases
      (AizenAI.walk ((ai.tickTimers dt).decideMove dt 2 rolls) position velocity state)
      attackCooldown 2 rolls
    unfold AizenAI.Update at hissued ⊢
    by_cases hg : AizenAI.baseActionDelay 0 <
          (AizenAI.walk ((ai.tickTimers dt).decideMove dt 0 rolls) position velocity
            state).ai.actionTimer ∧
        rolls.attack < floatToInt (AizenAI.attackChance 0 * 100) ∧ attackCooldown ≤ 0
    · obtain ⟨s0, t0⟩ := g0 hg
      obtain ⟨h1, h2, h3⟩ := hg
      rw [b1, hdelay0] at h1
      rw [hchance0] at h2
      obtain ⟨s2, t2⟩ := g2 ⟨by rw [c1, hdelay2]; linarith, by rw [hchance2]; omega, h3⟩
      refine ⟨⟨t0, s0⟩, t2, by rw [s2, s0], ?_⟩
      rw [t2]
      intro hzero
      linarith
    · exfalso
      apply hissued
      rw [n0 hg, b1]

/-- Witness of C20: difficulties 0 and 2; an AI whose action timer stands at 3 s, attack roll
10, attack type roll 50, no cooldown: the Spirit Slash is issued at both difficulties. -/
theorem difficulty_monotone_aggression_witness :
    ((0 : Int) ≤ 0 ∧ (0 : Int) < 2 ∧ (2 : Int) ≤ 2) ∧
    (({ actionTimer := 3 } : AizenAI).Update (1 / 60) ⟨900, 430⟩ ⟨0, 0⟩ ⟨320, 430⟩
      AIZEN_IDLE 0 0 { attack := 10, attackType := 50 }).ai.actionTimer
        ≠ ({ actionTimer := 3 } : AizenAI).actionTimer + 1 / 60 ∧
    (({ actionTimer := 3 } : AizenAI).Update (1 / 60) ⟨900, 430⟩ ⟨0, 0⟩ ⟨320, 430⟩
      AIZEN_IDLE 0 2 { attack := 10, attackType := 50 }).ai.actionTimer = 0 :=
  ⟨by decide, by decide!,
    ((difficulty_monotone_aggression 0 2 (by decide) { actionTimer := 3 } (1 / 60) ⟨900, 430⟩
      ⟨0, 0⟩ ⟨320, 430⟩ AIZEN_IDLE 0 { attack := 10, attackType := 50 }).2 (by decide!)).2.1⟩

/-! ## Boss AI: movement and attack decisions -/

/-- The blocks of `AizenAI::Update` after the movement decision keep `moving` false when it is
false, and never touch the move timer. -/
theorem aizenAI_after_decideMove (b : AizenAI) (position velocity : Vector2)
    (state : AizenState) (attackCooldown : Rat) (difficulty : Int) (rolls : Rolls) :
    (AizenAI.decideAttack (AizenAI.walk b position velocity state) attackCooldown difficulty
      rolls).ai.moveTimer = b.moveTimer ∧
    (AizenAI.decideAttack (AizenAI.walk b position velocity state) attackCooldown difficulty
      rolls).ai.targetPosition = b.targetPosition ∧
    (b.moving = false →
      (AizenAI.decideAttack (AizenAI.walk b position velocity state) attackCooldown difficulty
        rolls).ai.moving = false) := by
  have hw : (AizenAI.walk b position velocity state).ai.moveTimer = b.moveTimer ∧
      (AizenAI.walk b position velocity state).ai.targetPosition = b.targetPosition ∧
      (b.moving = false → (AizenAI.walk b position velocity state).ai.moving = false) := by
    unfold AizenAI.walk
    simp only []
    split_ifs <;> refine ⟨rfl, rfl, ?_⟩ <;> intro h <;> simp_all
  have ha : ∀ r : AIResult,
      (AizenAI.decideAttack r attackCooldown difficulty rolls).ai.moveTimer = r.ai.moveTimer ∧
      (AizenAI.decideAttack r attackCooldown difficulty rolls).ai.targetPosition
        = r.ai.targetPosition ∧
      (AizenAI.decideAttack r attackCooldown difficulty rolls).ai.moving = r.ai.moving := by
    intro r
    unfold AizenAI.decideAttack
    simp only []
    split_ifs <;> exact ⟨rfl, rfl, rfl⟩
  obtain ⟨w1, w2, w3⟩ := hw
  obtain ⟨a1, a2, a3⟩ := ha (AizenAI.walk b position velocity state)
  exact ⟨by rw [a1, w1], by rw [a2, w2], fun h => by rw [a3]; exact w3 h⟩

/-- When the movement roll does not pass, an AI that is not moving stays so and its move timer
keeps running. -/
theorem aizenAI_update_no_move (ai : AizenAI) (dt : Rat) (position velocity playerPos : Vector2)
    (state : AizenState) (attackCooldown : Rat) (difficulty : Int) (rolls : Rolls)
    (hmoving : ai.moving = false)
    (hroll : ¬ rolls.move < floatToInt (AizenAI.moveChance difficulty * 100 * dt)) :
    (ai.Update dt position velocity playerPos state attackCooldown difficulty rolls).ai.moving
      = false ∧
    (ai.Update dt position velocity playerPos state attackCooldown difficulty
      rolls).ai.moveTimer = ai.moveTimer + dt := by
  have hd : (ai.tickTimers dt).decideMove dt difficulty rolls = ai.tickTimers dt := by
    unfold AizenAI.decideMove
    simp [hroll]
  unfold AizenAI.Update
  rw [hd]
  obtain ⟨f1, _, f3⟩ := aizenAI_after_decideMove (ai.tickTimers dt) position velocity state
    attackCooldown difficulty rolls
  exact ⟨f3 hmoving, f1⟩

/-- When the tick is long enough for `(int)(moveChance * 100 * dt)` to be at least 1, the roll
0 starts a movement of an AI that is not moving and has dwelt for more than 1 s: the target is
the target roll and the move timer is reset. -/
theorem aizenAI_update_move_starts (ai : AizenAI) (dt : Rat)
    (position velocity playerPos : Vector2) (state : AizenState) (attackCooldown : Rat)
    (difficulty : Int) (rolls : Rolls) (hmoving : ai.moving = false)
    (hdwell : 1 < ai.moveTimer + dt)
    (hroll : rolls.move < floatToInt (AizenAI.moveChance difficulty * 100 * dt)) :
    (ai.Update dt position velocity playerPos state attackCooldown difficulty
      rolls).ai.moveTimer = 0 ∧
    (ai.Update dt position velocity playerPos state attackCooldown difficulty
      rolls).ai.targetPosition = ⟨(rolls.target : Rat), 430⟩ := by
  have hd : (ai.tickTimers dt).decideMove dt difficulty rolls =
      { ai.tickTimers dt with
        moving := true, targetPosition := ⟨(rolls.target : Rat), 430⟩, moveTimer := 0 } := by
    unfold AizenAI.decideMove
    have h1 : (ai.tickTimers dt).moving = false := hmoving
    have h2 : (ai.tickTimers dt).moveTimer = ai.moveTimer + dt := rfl
    simp [h1, h2, hroll, hdwell]
  unfold AizenAI.Update
  rw [hd]
  obtain ⟨f1, f2, _⟩ := aizenAI_after_decideMove
    { ai.tickTimers dt with
      moving := true, targetPosition := ⟨(rolls.target : Rat), 430⟩, moveTimer := 0 }
    position velocity state attackCooldown difficulty rolls
  exact ⟨f1, f2⟩

/-- C21, the failing input: a tick of 1/144 s (the frame time of `SetTargetFPS(144)`), an AI
that is not moving and whose move timer stands at 2 s. At each difficulty 0, 1, 2 and for every
movement roll in 0..100 (and all other rolls) `AizenAI::Update` starts no movement: `moving`
stays false and the move timer runs on, because `(int)(moveChance * 100 * dt)` is 0. -/
theorem aizenAI_never_moves_on_short_ticks :
    ∀ (difficulty : Fin 3) (moveRoll : Fin 101) (target attack attackType : Int),
      ((({ moveTimer := 2 } : AizenAI).Update (1 / 144) ⟨900, 430⟩ ⟨0, 0⟩ ⟨320, 430⟩ AIZEN_IDLE 0
        (difficulty.val : Int)
        { move := (moveRoll.val : Int), target := target, attack := attack,
          attackType := attackType }).ai.moving = false) ∧
      ((({ moveTimer := 2 } : AizenAI).Update (1 / 144) ⟨900, 430⟩ ⟨0, 0⟩ ⟨320, 430⟩ AIZEN_IDLE 0
        (difficulty.val : Int)
        { move := (moveRoll.val : Int), target := target, attack := attack,
          attackType := attackType }).ai.moveTimer = 2 + 1 / 144) := by
  intro difficulty moveRoll target attack attackType
  have hzero : floatToInt (AizenAI.moveChance (difficulty.val : Int) * 100 * (1 / 144)) = 0 := by
    revert difficulty
    decide!
  exact aizenAI_update_no_move { moveTimer := 2 } (1 / 144) ⟨900, 430⟩ ⟨0, 0⟩ ⟨320, 430⟩
    AIZEN_IDLE 0 (difficulty.val : Int) _ rfl (by rw [hzero]; simp)

/-! ## Hit-stop and the name-input sub-state -/

/-- Counterexample to C22: `scenePlayed` has `hitStop = 1/20 > 0` (Zoro's last hit) and is in
the name-input sub-state; `GameScene::Update` returns at its first test and `hitStop` is not
decreased. -/
theorem update_hitStop_not_decreased_in_nameInput :
    (0 < scenePlayed.hitStop ∧ scenePlayed.nameInput = true) ∧
    (scenePlayed.Update (1 / 60) {} {}).hitStop = 1 / 20 ∧
    (scenePlayed.Update (1 / 60) {} {}).hitStop ≠ scenePlayed.hitStop - 1 / 60 := by
  decide!

/-- C22 (amended): for every initialised scene state outside the name-input sub-state with
`hitStop > 0`, `GameScene::Update(dt)` changes nothing except decreasing `hitStop` by `dt`; in
an uninitialised scene or in the name-input sub-state it changes nothing at all; and for every
Zoro with `hitStopTime > 0`, `Zoro::Update(dt)` changes nothing except decreasing
`hitStopTime` by `dt`. -/
theorem update_frozen_by_hitStop (g : GameScene) (z : Zoro) (dt : Rat) (keys : Keys)
    (rolls : Rolls) (hg : 0 < g.hitStop) (hz : 0 < z.hitStopTime) :
    ((g.initialized = true ∧ g.nameInput = false) →
      g.Update dt keys rolls = { g with hitStop := g.hitStop - dt }) ∧
    (¬ (g.initialized = true ∧ g.nameInput = false) → g.Update dt keys rolls = g) ∧
    z.Update dt keys = { z with hitStopTime := z.hitStopTime - dt } := by
  refine ⟨?_, ?_, ?_⟩
  · rintro ⟨h1, h2⟩
    unfold GameScene.Update
    simp [h1, h2, hg]
  · intro h
    unfold GameScene.Update
    have : (!g.initialized || g.nameInput) = true := by
      cases hi : g.initialized <;> cases hn : g.nameInput <;> simp_all
    rw [if_pos this]
  · unfold Zoro.Update
    rw [if_pos hz]

/-- Witness of C22 (amended): the scene `sceneHadoCast` with a hit-stop of 1/20 s, and an
initialised Zoro who has just taken 30 points of damage (`hitStopTime` 0.1 s). -/
theorem update_frozen_by_hitStop_witness :
    (0 < ({ sceneHadoCast with hitStop := 1 / 20 } : GameScene).hitStop ∧
      0 < ((({} : Zoro).Init).TakeDamage 30).hitStopTime) ∧
    ((({} : Zoro).Init).TakeDamage 30).Update (1 / 60) { j := true } =
      { (({} : Zoro).Init).TakeDamage 30 with
        hitStopTime := ((({} : Zoro).Init).TakeDamage 30).hitStopTime - 1 / 60 } :=
  ⟨by decide!,
    (update_frozen_by_hitStop { sceneHadoCast with hitStop := 1 / 20 }
      ((({} : Zoro).Init).TakeDamage 30) (1 / 60) { j := true } {} (by decide!)
      (by decide!)).2.2⟩

/-- What `GameScene::CheckCollisions` leaves alone: the scene's own fields. -/
theorem checkCollisions_scene_fields (g : GameScene) :
    g.CheckCollisions.nameInput = g.nameInput ∧
    g.CheckCollisions.gameTime = g.gameTime ∧
    g.CheckCollisions.initialized = g.initialized ∧
    g.CheckCollisions.scoreManager = g.scoreManager := by
  have h1 : g.zoroAttacksAizen.nameInput = g.nameInput ∧
      g.zoroAttacksAizen.gameTime = g.gameTime ∧
      g.zoroAttacksAizen.initialized = g.initialized ∧
      g.zoroAttacksAizen.scoreManager = g.scoreManager := by
    unfold GameScene.zoroAttacksAizen
    simp only []
    split_ifs <;> exact ⟨rfl, rfl, rfl, rfl⟩
  have h2 : ∀ w : GameScene, w.aizenAttacksZoro.nameInput = w.nameInput ∧
      w.aizenAttacksZoro.gameTime = w.gameTime ∧
      w.aizenAttacksZoro.initialized = w.initialized ∧
      w.aizenAttacksZoro.scoreManager = w.scoreManager := by
    intro w
    unfold GameScene.aizenAttacksZoro
    simp only []
    split_ifs <;> exact ⟨rfl, rfl, rfl, rfl⟩
  obtain ⟨a1, a2, a3, a4⟩ := h1
  obtain ⟨b1, b2, b3, b4⟩ := h2 g.zoroAttacksAizen
  unfold GameScene.CheckCollisions
  exact ⟨by rw [b1, a1], by rw [b2, a2], by rw [b3, a3], by rw [b4, a4]⟩

/-- The two blocks that can open the name input do so only with a fighter at health `<= 0`,
and change nothing else. -/
theorem nameInput_blocks (g : GameScene) (keys : Keys) :
    (g.CheckWinCondition.zoro = g.zoro ∧ g.CheckWinCondition.aizen = g.aizen ∧
      (g.CheckWinCondition.nameInput = true → g.nameInput = false →
        g.zoro.healthBar.hp ≤ 0 ∨ g.aizen.healthBar.hp ≤ 0)) ∧
    ((g.submitScore keys).zoro = g.zoro ∧ (g.submitScore keys).aizen = g.aizen ∧
      ((g.submitScore keys).nameInput = true → g.nameInput = false →
        g.zoro.healthBar.hp ≤ 0 ∨ g.aizen.healthBar.hp ≤ 0)) := by
  constructor
  · unfold GameScene.CheckWinCondition
    by_cases h : (decide (g.zoro.healthBar.hp ≤ 0) || decide (g.aizen.healthBar.hp ≤ 0)) = true
    · have hh : g.zoro.healthBar.hp ≤ 0 ∨ g.aizen.healthBar.hp ≤ 0 := by simpa using h
      rw [if_pos h]
      split_ifs <;> exact ⟨rfl, rfl, fun _ _ => hh⟩
    · rw [if_neg h]
      exact ⟨rfl, rfl, fun h1 h2 => by rw [h2] at h1; exact absurd h1 (by decide)⟩
  · unfold GameScene.submitScore
    by_cases h : (decide (g.zoro.healthBar.hp ≤ 0) || decide (g.aizen.healthBar.hp ≤ 0)) = true
    · have hh : g.zoro.healthBar.hp ≤ 0 ∨ g.aizen.healthBar.hp ≤ 0 := by simpa using h
      split_ifs <;> exact ⟨rfl, rfl, fun _ _ => hh⟩
    · split_ifs <;>
        exact ⟨rfl, rfl, fun h1 h2 => by rw [h2] at h1; exact absurd h1 (by decide)⟩

/-- C24: in `GameScene::Update`, `nameInput` can become true only when Zoro's or Aizen's
health is `<= 0` (after the tick's collisions), and for every scene state in which `nameInput`
is true `GameScene::Update(dt)` returns the scene unchanged: game time, both fighters, the
score and `nameInput` itself. -/
theorem nameInput_only_after_terminal_outcome (g : GameScene) (dt : Rat) (keys : Keys)
    (rolls : Rolls) :
    (g.nameInput = false → (g.Update dt keys rolls).nameInput = true →
      (g.Update dt keys rolls).zoro.healthBar.hp ≤ 0 ∨
      (g.Update dt keys rolls).aizen.healthBar.hp ≤ 0) ∧
    (g.nameInput = true → g.Update dt keys rolls = g) := by
  constructor
  · intro hfalse htrue
    unfold GameScene.Update at htrue ⊢
    by_cases h1 : (!g.initialized || g.nameInput) = true
    · rw [if_pos h1] at htrue
      rw [hfalse] at htrue
      exact absurd htrue (by decide)
    · rw [if_neg h1] at htrue ⊢
      by_cases h2 : g.hitStop > 0
      · rw [if_pos h2] at htrue
        rw [show ({ g with hitStop := g.hitStop - dt } : GameScene).nameInput = g.nameInput
          from rfl, hfalse] at htrue
        exact absurd htrue (by decide)
      · rw [if_neg h2] at htrue ⊢
        have hn4 : (g.advance dt keys rolls).CheckCollisions.nameInput = false := by
          rw [(checkCollisions_scene_fields _).1]
          exact hfalse
        obtain ⟨⟨w1, w2, w3⟩, _⟩ :=
          nameInput_blocks (g.advance dt keys rolls).CheckCollisions keys
        obtain ⟨_, ⟨s1, s2, s3⟩⟩ :=
          nameInput_blocks (g.advance dt keys rolls).CheckCollisions.CheckWinCondition keys
        rw [s1, s2, w1, w2]
        by_cases hw : (g.advance dt keys rolls).CheckCollisions.CheckWinCondition.nameInput
            = true
        · exact w3 hw hn4
        · have := s3 htrue (by simpa using hw)
          rw [w1, w2] at this
          exact this
  · intro h
    unfold GameScene.Update
    rw [if_pos (by rw [h]; simp)]

/-- Witness of C24: `sceneHiryuKaen` is not in the name input; one tick later Aizen is dead
and the name input is open (`scenePlayed`), and a further tick changes nothing. -/
theorem nameInput_only_after_terminal_outcome_witness :
    (sceneHiryuKaen.nameInput = false ∧
      (sceneHiryuKaen.Update (1 / 60) {} {}).nameInput = true) ∧
    ((sceneHiryuKaen.Update (1 / 60) {} {}).zoro.healthBar.hp ≤ 0 ∨
      (sceneHiryuKaen.Update (1 / 60) {} {}).aizen.healthBar.hp ≤ 0) ∧
    scenePlayed.Update (1 / 60) { enter := true } {} = scenePlayed :=
  ⟨by decide!,
    (nameInput_only_after_terminal_outcome sceneHiryuKaen (1 / 60) {} {}).1 (by decide)
      (by decide!),
    (nameInput_only_after_terminal_outcome scenePlayed (1 / 60) { enter := true } {}).2
      (by decide!)⟩

/-! ## Inactive effects -/

/-- C25, the failing input: in `sceneZoroNearLeftEdge` (two ticks after `GameScene::Init`)
Zoro stands at `(40, 430)` with 1000 health points and the three effects are inactive. One
tick of 1 s with `SPACE` pressed makes him jump to `(40, -20)`; his hurtbox
`{-10, -20, 100, 160}` then holds the origin, the rectangle `{0, 0, 0, 0}` of each inactive
effect overlaps it, and the collision check deducts the three damages 30, 100 and 50:
1000 -> 820, the effects being inactive before and after. -/
theorem inactive_effects_damage_jumping_zoro :
    (sceneZoroNearLeftEdge.zoro.position = ⟨40, 430⟩ ∧
      sceneZoroNearLeftEdge.zoro.isGrounded = true ∧
      sceneZoroNearLeftEdge.zoro.healthBar.hp = 1000) ∧
    (sceneZoroNearLeftEdge.aizen.hado.active = false ∧
      sceneZoroNearLeftEdge.aizen.spiritSlash.active = false ∧
      sceneZoroNearLeftEdge.aizen.suigetsuKyoka.active = false) ∧
    ((sceneZoroNearLeftEdge.advance 1 { space := true } {}).zoro.position = ⟨40, -20⟩ ∧
      (sceneZoroNearLeftEdge.advance 1 { space := true } {}).aizen.hado.active = false ∧
      (sceneZoroNearLeftEdge.advance 1 { space := true } {}).aizen.spiritSlash.active = false ∧
      (sceneZoroNearLeftEdge.advance 1 { space := true } {}).aizen.suigetsuKyoka.active
        = false) ∧
    (CheckCollisionRecs (sceneZoroNearLeftEdge.advance 1 { space := true } {}).aizen.GetHadoBounds
        (sceneZoroNearLeftEdge.advance 1 { space := true } {}).zoroBounds = true ∧
      CheckCollisionRecs
        (sceneZoroNearLeftEdge.advance 1 { space := true } {}).aizen.GetSpiritSlashBounds
        (sceneZoroNearLeftEdge.advance 1 { space := true } {}).zoroBounds = true ∧
      CheckCollisionRecs
        (sceneZoroNearLeftEdge.advance 1 { space := true } {}).aizen.GetSuigetsuBounds
        (sceneZoroNearLeftEdge.advance 1 { space := true } {}).zoroBounds = true) ∧
    ((sceneZoroNearLeftEdge.Update 1 { space := true } {}).zoro.position = ⟨40, -20⟩ ∧
      (sceneZoroNearLeftEdge.Update 1 { space := true } {}).zoro.healthBar.hp = 820 ∧
      (sceneZoroNearLeftEdge.Update 1 { space := true } {}).aizen.hado.active = false ∧
      (sceneZoroNearLeftEdge.Update 1 { space := true } {}).aizen.spiritSlash.active = false ∧
      (sceneZoroNearLeftEdge.Update 1 { space := true } {}).aizen.suigetsuKyoka.active
        = false) := by
  decide!

/-- The rectangle `{0, 0, 0, 0}` overlaps Zoro's hurtbox exactly when the origin lies strictly
inside it. -/
theorem zero_rectangle_overlap_iff (g : GameScene) :
    CheckCollisionRecs ⟨0, 0, 0, 0⟩ g.zoroBounds = true ↔
      (-50 < g.zoro.position.x ∧ g.zoro.position.x < 50 ∧
        -160 < g.zoro.position.y ∧ g.zoro.position.y < 0) := by
  unfold CheckCollisionRecs GameScene.zoroBounds
  simp only [Bool.and_eq_true, decide_eq_true_eq, zero_add, gt_iff_lt]
  constructor
  · rintro ⟨⟨h1, h2⟩, h3, h4⟩
    exact ⟨by linarith, by linarith, by linarith, by linarith⟩
  · rintro ⟨h1, h2, h3, h4⟩
    exact ⟨⟨by linarith, by linarith⟩, by linarith, by linarith⟩

/-- Where an inactive effect damages Zoro: its bounding rectangle `{0, 0, 0, 0}` overlaps
Zoro's hurtbox exactly when the origin lies strictly inside the hurtbox (`-50 < x < 50` and
`-160 < y < 0`); at every other Zoro position, with the three effects inactive,
`GameScene::CheckCollisions` leaves Zoro's health bar unchanged. -/
theorem inactive_effect_no_damage (g : GameScene) :
    (g.aizen.hado.active = false →
      (CheckCollisionRecs g.aizen.GetHadoBounds g.zoroBounds = true ↔
        (-50 < g.zoro.position.x ∧ g.zoro.position.x < 50 ∧
          -160 < g.zoro.position.y ∧ g.zoro.position.y < 0))) ∧
    (g.aizen.spiritSlash.active = false →
      (CheckCollisionRecs g.aizen.GetSpiritSlashBounds g.zoroBounds = true ↔
        (-50 < g.zoro.position.x ∧ g.zoro.position.x < 50 ∧
          -160 < g.zoro.position.y ∧ g.zoro.position.y < 0))) ∧
    (g.aizen.suigetsuKyoka.active = false →
      (CheckCollisionRecs g.aizen.GetSuigetsuBounds g.zoroBounds = true ↔
        (-50 < g.zoro.position.x ∧ g.zoro.position.x < 50 ∧
          -160 < g.zoro.position.y ∧ g.zoro.position.y < 0))) ∧
    ((g.aizen.hado.active = false ∧ g.aizen.spiritSlash.active = false ∧
        g.aizen.suigetsuKyoka.active = false) →
      ¬ (-50 < g.zoro.position.x ∧ g.zoro.position.x < 50 ∧
          -160 < g.zoro.position.y ∧ g.zoro.position.y < 0) →
      g.CheckCollisions.zoro.healthBar = g.zoro.healthBar) := by
  have hH : g.aizen.hado.active = false → g.aizen.GetHadoBounds = ⟨0, 0, 0, 0⟩ := by
    intro h; unfold Aizen.GetHadoBounds; simp [h]
  have hS : g.aizen.spiritSlash.active = false →
      g.aizen.GetSpiritSlashBounds = ⟨0, 0, 0, 0⟩ := by
    intro h; unfold Aizen.GetSpiritSlashBounds; simp [h]
  have hK : g.aizen.suigetsuKyoka.active = false →
      g.aizen.GetSuigetsuBounds = ⟨0, 0, 0, 0⟩ := by
    intro h; unfold Aizen.GetSuigetsuBounds; simp [h]
  refine ⟨fun h => by rw [hH h]; exact zero_rectangle_overlap_iff g,
    fun h => by rw [hS h]; exact zero_rectangle_overlap_iff g,
    fun h => by rw [hK h]; exact zero_rectangle_overlap_iff g, ?_⟩
  rintro ⟨h1, h2, h3⟩ hpos
  have hz : CheckCollisionRecs ⟨0, 0, 0, 0⟩ g.zoroBounds = false := by
    cases hc : CheckCollisionRecs ⟨0, 0, 0, 0⟩ g.zoroBounds
    · rfl
    · exact absurd ((zero_rectangle_overlap_iff g).mp hc) hpos
  obtain ⟨f1, f2, f3, f4, f5⟩ := zoroAttacksAizen_frame g
  have hb1 : g.zoroAttacksAizen.aizen.GetHadoBounds = ⟨0, 0, 0, 0⟩ := by
    unfold Aizen.GetHadoBounds; rw [f3]; simp [h1]
  have hb2 : g.zoroAttacksAizen.aizen.GetSpiritSlashBounds = ⟨0, 0, 0, 0⟩ := by
    unfold Aizen.GetSpiritSlashBounds; rw [f4]; simp [h2]
  have hb3 : g.zoroAttacksAizen.aizen.GetSuigetsuBounds = ⟨0, 0, 0, 0⟩ := by
    unfold Aizen.GetSuigetsuBounds; rw [f5]; simp [h3]
  unfold GameScene.CheckCollisions GameScene.aizenAttacksZoro
  by_cases hv : g.zoroAttacksAizen.aizen.IsVulnerable = true
  · rw [if_pos hv]
    simp only [hb1, hb2, hb3, f2, hz, Bool.false_eq_true, if_false]
    exact f1
  · rw [if_neg hv]
    exact f1

/-- C26: for every AI state, difficulty in {0, 1, 2} and random rolls, `AizenAI::Update`
changes Aizen's state to an attack only when the action timer (after adding `dt`) exceeds
`2.0 - 0.5*difficulty`, the chance roll is below `floor((0.4 + 0.3*difficulty)*100)` and
`attackCooldown <= 0`; the attack is then `AIZEN_HADO` for a type roll up to 39,
`AIZEN_SPIRIT_SLASH` for 40..69 and `AIZEN_SUIGETSU_KYOKA` from 70 on, and the action timer
is reset to 0; in every other case the state is unchanged and the action timer is not
reset. -/
theorem aizenAI_attack_decision (ai : AizenAI) (dt : Rat)
    (position velocity playerPos : Vector2) (state : AizenState) (attackCooldown : Rat)
    (difficulty : Int) (rolls : Rolls) (hd : 0 ≤ difficulty ∧ difficulty ≤ 2) :
    ((2 - (1 / 2 : Rat) * difficulty < ai.actionTimer + dt ∧
        rolls.attack < ⌊((2 / 5 : Rat) + 3 / 10 * difficulty) * 100⌋ ∧
        attackCooldown ≤ 0) →
      (ai.Update dt position velocity playerPos state attackCooldown difficulty
        rolls).ai.actionTimer = 0 ∧
      (rolls.attackType ≤ 39 →
        (ai.Update dt position velocity playerPos state attackCooldown difficulty rolls).state
          = AIZEN_HADO) ∧
      (40 ≤ rolls.attackType ∧ rolls.attackType ≤ 69 →
        (ai.Update dt position velocity playerPos state attackCooldown difficulty rolls).state
          = AIZEN_SPIRIT_SLASH) ∧
      (70 ≤ rolls.attackType →
        (ai.Update dt position velocity playerPos state attackCooldown difficulty rolls).state
          = AIZEN_SUIGETSU_KYOKA)) ∧
    (¬ (2 - (1 / 2 : Rat) * difficulty < ai.actionTimer + dt ∧
        rolls.attack < ⌊((2 / 5 : Rat) + 3 / 10 * difficulty) * 100⌋ ∧
        attackCooldown ≤ 0) →
      (ai.Update dt position velocity playerPos state attackCooldown difficulty rolls).state
        = state ∧
      (ai.Update dt position velocity playerPos state attackCooldown difficulty
        rolls).ai.actionTimer = ai.actionTimer + dt) := by
  obtain ⟨h0, h2⟩ := hd
  have hchance : floatToInt (AizenAI.attackChance difficulty * 100) = 40 + 30 * difficulty := by
    have : difficulty = 0 ∨ difficulty = 1 ∨ difficulty = 2 := by omega
    rcases this with h | h | h <;> subst h <;> decide!
  have hfloor : ⌊((2 / 5 : Rat) + 3 / 10 * difficulty) * 100⌋ = 40 + 30 * difficulty := by
    have : ((2 / 5 : Rat) + 3 / 10 * difficulty) * 100 = ((40 + 30 * difficulty : Int) : Rat) := by
      push_cast
      ring
    rw [this, Int.floor_intCast]
  have hdelay : AizenAI.baseActionDelay difficulty = 2 - (1 / 2 : Rat) * difficulty := by
    unfold AizenAI.baseActionDelay
    ring
  obtain ⟨b1, b2⟩ := aizenAI_before_attack ai dt position velocity state difficulty rolls
  obtain ⟨g1, g2⟩ := aizenAI_decideAttack_cases
    (AizenAI.walk ((ai.tickTimers dt).decideMove dt difficulty rolls) position velocity state)
    attackCooldown difficulty rolls
  rw [b1, hchance, hdelay] at g1 g2
  rw [hfloor]
  unfold AizenAI.Update
  constructor
  · intro hg
    obtain ⟨s, t⟩ := g1 hg
    refine ⟨t, ?_, ?_, ?_⟩
    · intro h
      rw [s, if_pos (by omega)]
    · rintro ⟨h40, h69⟩
      rw [s, if_neg (by omega), if_pos (by omega)]
    · intro h
      rw [s, if_neg (by omega), if_neg (by omega)]
  · intro hg
    rw [g2 hg]
    exact ⟨b2, b1⟩

/-- Witness of C26: difficulty 1, action timer at 3 s, chance roll 10, type roll 50, no
cooldown: the Spirit Slash is chosen and the action timer is reset. -/
theorem aizenAI_attack_decision_witness :
    ((0 : Int) ≤ 1 ∧ (1 : Int) ≤ 2) ∧
    (({ actionTimer := 3 } : AizenAI).Update (1 / 60) ⟨900, 430⟩ ⟨0, 0⟩ ⟨320, 430⟩
      AIZEN_IDLE 0 1 { attack := 10, attackType := 50 }).ai.actionTimer = 0 :=
  ⟨by decide,
    ((aizenAI_attack_decision { actionTimer := 3 } (1 / 60) ⟨900, 430⟩ ⟨0, 0⟩ ⟨320, 430⟩
      AIZEN_IDLE 0 1 { attack := 10, attackType := 50 } (by decide)).1
      ⟨by norm_num, by norm_num, le_refl _⟩).1⟩

/-! ## Attack priority -/

theorem startAttack_state (z : Zoro) (t : ZoroState) : (z.StartAttack t).state = t := by
  unfold Zoro.StartAttack
  cases t <;> rfl

/-- The grounded flag as the attack block of `HandleInput` reads it: grounded at the start of
the call and not taking off with `SPACE` in this tick. -/
theorem inputBlocks_isGrounded (z : Zoro) (keys : Keys) :
    (((z.inputMove keys).inputJump keys).inputBlock keys).isGrounded
      = (z.isGrounded && !keys.space) := by
  have hm : (z.inputMove keys).isGrounded = z.isGrounded := by
    unfold Zoro.inputMove
    simp only []
    split_ifs <;> rfl
  have hj : ∀ w : Zoro, (w.inputJump keys).isGrounded = (w.isGrounded && !keys.space) := by
    intro w
    unfold Zoro.inputJump
    cases hs : keys.space <;> cases hg : w.isGrounded <;> simp [hg]
  have hb : ∀ w : Zoro, (w.inputBlock keys).isGrounded = w.isGrounded := by
    intro w
    unfold Zoro.inputBlock
    split_ifs <;> rfl
  rw [hb, hj, hm]

/-- The attack block of `HandleInput` when its gate is open: the first attack of the fixed
order whose keys are pressed is started. -/
theorem inputAttack_priority (w : Zoro) (keys : Keys)
    (hgate : w.attackCooldown ≤ 0 ∧ w.isBlocking = false) :
    (keys.j = true →
      (w.inputAttack keys).state = ATTACK1 ∧ (w.inputAttack keys).attackCooldown = 1 / 5 ∧
      (w.inputAttack keys).comboCount = wrap32 (w.comboCount + 1)) ∧
    (keys.j = false → keys.k = true → w.isGrounded = true →
      (w.inputAttack keys).state = ONI_GIRI ∧ (w.inputAttack keys).attackCooldown = 1 ∧
      (w.inputAttack keys).comboCount = wrap32 (w.comboCount + 1)) ∧
    (keys.j = false → ¬ (keys.k = true ∧ w.isGrounded = true) → keys.l = true →
      w.isGrounded = true →
      (w.inputAttack keys).state = TATSUMAKI ∧ (w.inputAttack keys).attackCooldown = 2 ∧
      (w.inputAttack keys).comboCount = wrap32 (w.comboCount + 1)) ∧
    (keys.j = false → ¬ (keys.k = true ∧ w.isGrounded = true) →
      ¬ (keys.l = true ∧ w.isGrounded = true) → keys.u = true → keys.i = true →
      w.isGrounded = true →
      (w.inputAttack keys).state = HIRYU_KAEN ∧ (w.inputAttack keys).attackCooldown = 5 ∧
      (w.inputAttack keys).comboCount = wrap32 (w.comboCount + 1)) ∧
    (keys.j = false → ¬ (keys.k = true ∧ w.isGrounded = true) →
      ¬ (keys.l = true ∧ w.isGrounded = true) →
      ¬ (keys.u = true ∧ keys.i = true ∧ w.isGrounded = true) → keys.o = true →
      (w.inputAttack keys).state = SANZEN_SEKAI ∧ (w.inputAttack keys).attackCooldown = 3 ∧
      (w.inputAttack keys).comboCount = wrap32 (w.comboCount + 1)) ∧
    (keys.j = false → ¬ (keys.k = true ∧ w.isGrounded = true) →
      ¬ (keys.l = true ∧ w.isGrounded = true) →
      ¬ (keys.u = true ∧ keys.i = true ∧ w.isGrounded = true) → keys.o = false →
      w.inputAttack keys = w) := by
  obtain ⟨hcd, hb⟩ := hgate
  have hg : (decide (w.attackCooldown ≤ 0) && !w.isBlocking) = true := by simp [hcd, hb]
  unfold Zoro.inputAttack
  rw [if_pos hg]
  refine ⟨?_, ?_, ?_, ?_, ?_, ?_⟩
  · intro hj
    rw [if_pos hj]
    exact ⟨startAttack_state w ATTACK1, rfl, startAttack_comboCount w ATTACK1⟩
  · intro hj hk hgr
    rw [if_neg (by simp [hj]), if_pos (by simp [hk, hgr])]
    exact ⟨startAttack_state w ONI_GIRI, rfl, startAttack_comboCount w ONI_GIRI⟩
  · intro hj hk hl hgr
    rw [if_neg (by simp [hj]), if_neg (by simpa using hk), if_pos (by simp [hl, hgr])]
    exact ⟨startAttack_state w TATSUMAKI, rfl, startAttack_comboCount w TATSUMAKI⟩
  · intro hj hk hl hu hi hgr
    rw [if_neg (by simp [hj]), if_neg (by simpa using hk), if_neg (by simpa using hl),
      if_pos (by simp [hu, hi, hgr])]
    exact ⟨startAttack_state w HIRYU_KAEN, rfl, startAttack_comboCount w HIRYU_KAEN⟩
  · intro hj hk hl hui ho
    rw [if_neg (by simp [hj]), if_neg (by simpa using hk), if_neg (by simpa using hl),
      if_neg (by simpa [and_assoc] using hui), if_pos ho]
    exact ⟨startAttack_state w SANZEN_SEKAI, rfl, startAttack_comboCount w SANZEN_SEKAI⟩
  · intro hj hk hl hui ho
    rw [if_neg (by simp [hj]), if_neg (by simpa using hk), if_neg (by simpa using hl),
      if_neg (by simpa [and_assoc] using hui), if_neg (by simp [ho])]

/-- C27: for every Zoro with `attackCooldown <= 0` who does not block in this tick,
`Zoro::HandleInput` starts at most one attack, chosen by the fixed order `J` pressed
(`ATTACK1`), else `K` pressed and grounded (`ONI_GIRI`), else `L` pressed and grounded
(`TATSUMAKI`), else `U` and `I` both held and grounded (`HIRYU_KAEN`), else `O` pressed
(`SANZEN_SEKAI`), and sets `attackCooldown` to 0.2, 1.0, 2.0, 5.0 or 3.0 s for the chosen
attack; in particular `J` together with `U+I` starts `ATTACK1`. "Grounded" is `isGrounded` as
the attack block reads it: grounded at the start of the call and not taking off with `SPACE`
in this tick. -/
theorem handleInput_attack_priority (z : Zoro) (keys : Keys)
    (hcd : z.attackCooldown ≤ 0) (hnb : ¬ (keys.a = true ∧ z.blockCooldown ≤ 0)) :
    (keys.j = true →
      (z.HandleInput keys).state = ATTACK1 ∧ (z.HandleInput keys).attackCooldown = 1 / 5 ∧
      (z.HandleInput keys).comboCount = wrap32 (z.comboCount + 1)) ∧
    (keys.j = false → keys.k = true → (z.isGrounded = true ∧ keys.space = false) →
      (z.HandleInput keys).state = ONI_GIRI ∧ (z.HandleInput keys).attackCooldown = 1 ∧
      (z.HandleInput keys).comboCount = wrap32 (z.comboCount + 1)) ∧
    (keys.j = false → ¬ (keys.k = true ∧ (z.isGrounded = true ∧ keys.space = false)) →
      keys.l = true → (z.isGrounded = true ∧ keys.space = false) →
      (z.HandleInput keys).state = TATSUMAKI ∧ (z.HandleInput keys).attackCooldown = 2 ∧
      (z.HandleInput keys).comboCount = wrap32 (z.comboCount + 1)) ∧
    (keys.j = false → ¬ (keys.k = true ∧ (z.isGrounded = true ∧ keys.space = false)) →
      ¬ (keys.l = true ∧ (z.isGrounded = true ∧ keys.space = false)) →
      keys.u = true → keys.i = true → (z.isGrounded = true ∧ keys.space = false) →
      (z.HandleInput keys).state = HIRYU_KAEN ∧ (z.HandleInput keys).attackCooldown = 5 ∧
      (z.HandleInput keys).comboCount = wrap32 (z.comboCount + 1)) ∧
    (keys.j = false → ¬ (keys.k = true ∧ (z.isGrounded = true ∧ keys.space = false)) →
      ¬ (keys.l = true ∧ (z.isGrounded = true ∧ keys.space = false)) →
      ¬ (keys.u = true ∧ keys.i = true ∧ (z.isGrounded = true ∧ keys.space = false)) →
      keys.o = true →
      (z.HandleInput keys).state = SANZEN_SEKAI ∧ (z.HandleInput keys).attackCooldown = 3 ∧
      (z.HandleInput keys).comboCount = wrap32 (z.comboCount + 1)) ∧
    (keys.j = false → ¬ (keys.k = true ∧ (z.isGrounded = true ∧ keys.space = false)) →
      ¬ (keys.l = true ∧ (z.isGrounded = true ∧ keys.space = false)) →
      ¬ (keys.u = true ∧ keys.i = true ∧ (z.isGrounded = true ∧ keys.space = false)) →
      keys.o = false →
      (z.HandleInput keys).comboCount = z.comboCount ∧
      (z.HandleInput keys).attackCooldown = z.attackCooldown) ∧
    ((z.HandleInput keys).comboCount = z.comboCount ∨
      (z.HandleInput keys).comboCount = wrap32 (z.comboCount + 1)) ∧
    (keys.j = true → keys.u = true → keys.i = true → (z.HandleInput keys).state = ATTACK1) := by
  obtain ⟨f1, f2, f3, _⟩ := inputBlocks_frame z keys
  have hgr := inputBlocks_isGrounded z keys
  have hblock : (keys.a && decide (z.blockCooldown ≤ 0)) = false := by
    cases ha : keys.a
    · rfl
    · simpa using fun hb => hnb ⟨ha, hb⟩
  rw [hblock] at f2
  have hres : z.HandleInput keys =
      (((z.inputMove keys).inputJump keys).inputBlock keys).inputAttack keys := rfl
  rw [hres]
  generalize ((z.inputMove keys).inputJump keys).inputBlock keys = w at f1 f2 f3 hgr ⊢
  have hG : w.isGrounded = true ↔ (z.isGrounded = true ∧ keys.space = false) := by
    rw [hgr]
    cases z.isGrounded <;> cases keys.space <;> simp
  obtain ⟨p1, p2, p3, p4, p5, p6⟩ := inputAttack_priority w keys ⟨by rw [f1]; exact hcd, f2⟩
  rw [hG, f3] at p2 p3 p4 p5
  rw [hG] at p6
  rw [f3] at p1
  refine ⟨p1, p2, p3, p4, p5, ?_, ?_, fun hj _ _ => (p1 hj).1⟩
  · intro hj hk hl hui ho
    rw [p6 hj hk hl hui ho]
    exact ⟨f3, f1⟩
  · by_cases hj : keys.j = true
    · exact Or.inr (p1 hj).2.2
    · have hj2 : keys.j = false := by simpa using hj
      by_cases hk : keys.k = true ∧ (z.isGrounded = true ∧ keys.space = false)
      · exact Or.inr (p2 hj2 hk.1 hk.2).2.2
      · by_cases hl : keys.l = true ∧ (z.isGrounded = true ∧ keys.space = false)
        · exact Or.inr (p3 hj2 hk hl.1 hl.2).2.2
        · by_cases hui : keys.u = true ∧ keys.i = true ∧
              (z.isGrounded = true ∧ keys.space = false)
          · exact Or.inr (p4 hj2 hk hl hui.1 hui.2.1 hui.2.2).2.2
          · by_cases ho : keys.o = true
            · exact Or.inr (p5 hj2 hk hl hui ho).2.2
            · rw [p6 hj2 hk hl hui (by simpa using ho)]
              exact Or.inl f3

/-- Witness of C27: `zoroLateAttack` (cooldown run out, grounded) with `J`, `U` and `I` down
starts `ATTACK1`. -/
theorem handleInput_attack_priority_witness :
    zoroLateAttack.attackCooldown ≤ 0 ∧
    (zoroLateAttack.HandleInput { j := true, u := true, i := true }).state = ATTACK1 :=
  ⟨by decide!,
    (handleInput_attack_priority zoroLateAttack { j := true, u := true, i := true }
      (by decide!) (by decide)).1 rfl |>.1⟩

/-! ## The BLOCK state -/

/-- `HandleInput` on a Zoro in state `BLOCK`: without a grounded movement, a grounded jump or
an attack key the state stays `BLOCK`; `isBlocking` is false unless `A` is held. -/
theorem handleInput_block_state (z : Zoro) (keys : Keys) (hs : z.state = BLOCK)
    (hmove : ¬ ((keys.right = true ∨ keys.left = true) ∧ z.isGrounded = true))
    (hjump : ¬ (keys.space = true ∧ z.isGrounded = true))
    (hattack : keys.j = false ∧ keys.k = false ∧ keys.l = false ∧ keys.o = false ∧
      ¬ (keys.u = true ∧ keys.i = true)) :
    (z.HandleInput keys).state = BLOCK ∧
    (keys.a = false → (z.HandleInput keys).isBlocking = false) := by
  obtain ⟨hj, hk, hl, ho, hui⟩ := hattack
  have hm : (z.inputMove keys).state = BLOCK ∧ (z.inputMove keys).isGrounded = z.isGrounded ∧
      (z.inputMove keys).isBlocking = false := by
    unfold Zoro.inputMove
    simp only []
    by_cases hr : keys.right = true
    · have hg : z.isGrounded = false := by
        cases h : z.isGrounded
        · rfl
        · exact absurd ⟨Or.inl hr, h⟩ hmove
      simp [hr, hg, hs]
    · by_cases hl2 : keys.left = true
      · have hg : z.isGrounded = false := by
          cases h : z.isGrounded
          · rfl
          · exact absurd ⟨Or.inr hl2, h⟩ hmove
        simp [hr, hl2, hg, hs]
      · simp [hr, hl2, hs]
  obtain ⟨m1, m2, m3⟩ := hm
  have hjp : (z.inputMove keys).inputJump keys = z.inputMove keys := by
    unfold Zoro.inputJump
    rw [m2]
    have : (keys.space && z.isGrounded) = false := by
      cases h1 : keys.space <;> cases h2 : z.isGrounded <;> simp_all
    rw [this]
    rfl
  have hb : ((z.inputMove keys).inputBlock keys).state = BLOCK ∧
      (keys.a = false → ((z.inputMove keys).inputBlock keys).isBlocking = false) := by
    unfold Zoro.inputBlock
    split_ifs with h
    · refine ⟨rfl, fun ha => ?_⟩
      rw [ha] at h
      simp at h
    · exact ⟨m1, fun _ => m3⟩
  have ha : ∀ w : Zoro, w.inputAttack keys = w := by
    intro w
    unfold Zoro.inputAttack
    have hui2 : (keys.u && keys.i && w.isGrounded) = false := by
      cases h1 : keys.u <;> cases h2 : keys.i <;> simp_all
    simp [hj, hk, hl, ho, hui2]
  unfold Zoro.HandleInput
  rw [hjp, ha]
  exact hb

/-- The steps of `Zoro::Update` after the input keep the state `BLOCK`. -/
theorem zoro_after_input_block (w : Zoro) (dt : Rat) (hs : w.state = BLOCK) :
    (((w.physics dt).UpdateAnimationPositions).UpdateCurrentAnimation dt).state = BLOCK ∧
    (((w.physics dt).UpdateAnimationPositions).UpdateCurrentAnimation dt).isBlocking
      = w.isBlocking := by
  have hp : (w.physics dt).state = BLOCK ∧ (w.physics dt).isBlocking = w.isBlocking := by
    unfold Zoro.physics
    simp only []
    split_ifs <;> simp_all
  obtain ⟨p1, p2⟩ := hp
  have hu : ∀ v : Zoro, v.state = BLOCK → v.UpdateCurrentAnimation dt = v := by
    intro v hv
    unfold Zoro.UpdateCurrentAnimation
    rw [hv]
  have hq : (w.physics dt).UpdateAnimationPositions.state = BLOCK := p1
  rw [hu _ hq]
  exact ⟨p1, p2⟩

/-- C30: for every Zoro in state `BLOCK` with `hitStopTime <= 0` and every keyboard input in
which the block, left, right, jump and attack keys are all up, `Zoro::Update` leaves the state
`BLOCK` although `isBlocking` is set to false; and for every keyboard input, the state leaves
`BLOCK` in `Zoro::Update` only on a movement while grounded, a jump while grounded or an attack
key (damage is applied outside `Update`). -/
theorem update_block_state_persists (z : Zoro) (dt : Rat) (keys : Keys)
    (hs : z.state = BLOCK) (hstop : z.hitStopTime ≤ 0) :
    ((keys.a = false ∧ keys.left = false ∧ keys.right = false ∧ keys.space = false ∧
        keys.j = false ∧ keys.k = false ∧ keys.l = false ∧ keys.u = false ∧ keys.i = false ∧
        keys.o = false) →
      (z.Update dt keys).state = BLOCK ∧ (z.Update dt keys).isBlocking = false) ∧
    ((z.Update dt keys).state ≠ BLOCK →
      ((keys.right = true ∨ keys.left = true) ∧ z.isGrounded = true) ∨
      (keys.space = true ∧ z.isGrounded = true) ∨
      (keys.j = true ∨ keys.k = true ∨ keys.l = true ∨ keys.o = true ∨
        (keys.u = true ∧ keys.i = true))) := by
  have hupd : ∀ (hmove : ¬ ((keys.right = true ∨ keys.left = true) ∧ z.isGrounded = true))
      (hjump : ¬ (keys.space = true ∧ z.isGrounded = true))
      (hattack : keys.j = false ∧ keys.k = false ∧ keys.l = false ∧ keys.o = false ∧
        ¬ (keys.u = true ∧ keys.i = true)),
      (z.Update dt keys).state = BLOCK ∧
      (keys.a = false → (z.Update dt keys).isBlocking = false) := by
    intro hmove hjump hattack
    have h1 : (z.tickTimers dt).state = BLOCK := hs
    obtain ⟨i1, i2⟩ := handleInput_block_state (z.tickTimers dt) keys h1 hmove hjump hattack
    have hd : (z.tickTimers dt).dispatch keys = (z.tickTimers dt).HandleInput keys := by
      unfold Zoro.dispatch
      simp [h1]
    obtain ⟨a1, a2⟩ := zoro_after_input_block ((z.tickTimers dt).HandleInput keys) dt i1
    unfold Zoro.Update
    rw [if_neg (not_lt.mpr hstop)]
    simp only [hd]
    split_ifs
    · exact ⟨a1, fun ha => by
        show (((((z.tickTimers dt).HandleInput keys).physics dt).UpdateAnimationPositions
          ).UpdateCurrentAnimation dt).isBlocking = false
        rw [a2]; exact i2 ha⟩
    · exact ⟨a1, fun ha => by rw [a2]; exact i2 ha⟩
  constructor
  · rintro ⟨ha, hl, hr, hsp, hj, hk, hl2, hu, _, ho⟩
    obtain ⟨r1, r2⟩ := hupd (by simp [hl, hr]) (by simp [hsp])
      ⟨hj, hk, hl2, ho, by simp [hu]⟩
    exact ⟨r1, r2 ha⟩
  · intro hne
    by_contra hcon
    push_neg at hcon
    obtain ⟨c1, c2, c3, c4, c5, c6, c7⟩ := hcon
    apply hne
    exact (hupd (fun h => absurd h.2 (by
        rcases h.1 with h1 | h1
        · exact fun hg => absurd hg (by simpa using c1 (Or.inl h1))
        · exact fun hg => absurd hg (by simpa using c1 (Or.inr h1))))
      (fun h => absurd h.2 (by simpa using c2 h.1))
      ⟨by simpa using c3, by simpa using c4, by simpa using c5, by simpa using c6,
        fun h => absurd h.2 (by simpa using c7 h.1)⟩).1

/-- Witness of C30: an initialised Zoro who has blocked for one tick, then a tick with every
key up. -/
theorem update_block_state_persists_witness :
    ((({} : Zoro).Init).Update (1 / 60) { a := true }).state = BLOCK ∧
    ((({} : Zoro).Init).Update (1 / 60) { a := true }).hitStopTime ≤ 0 ∧
    (((({} : Zoro).Init).Update (1 / 60) { a := true }).Update (1 / 60) {}).state = BLOCK ∧
    (((({} : Zoro).Init).Update (1 / 60) { a := true }).Update (1 / 60) {}).isBlocking = false :=
  ⟨by decide!, by decide!,
    (update_block_state_persists ((({} : Zoro).Init).Update (1 / 60) { a := true }) (1 / 60) {}
      (by decide!) (by decide!)).1 (by decide)⟩

/-! ## The effects are never cast -/

/-- The three `Update` methods of the effects keep an inactive effect inactive. -/
theorem effects_update_inactive (a : Aizen) (dt : Rat)
    (h : a.hado.active = false ∧ a.spiritSlash.active = false ∧
      a.suigetsuKyoka.active = false) :
    (a.hado.Update dt).active = false ∧ (a.spiritSlash.Update dt).active = false ∧
    (a.suigetsuKyoka.Update dt).active = false := by
  obtain ⟨h1, h2, h3⟩ := h
  refine ⟨?_, ?_, ?_⟩
  · unfold HadoEffect.Update
    simp [h1]
  · unfold SpiritSlashEffect.Update
    simp [h2]
  · unfold SuigetsuKyokaEffect.Update
    simp [h3]

/-- The block "update state based on AI" changes nothing but the state. -/
theorem aizen_settleState_eq (a : Aizen) :
    a.settleState = { a with state := a.settleState.state } := by
  unfold Aizen.settleState
  simp only []
  split_ifs <;> rfl

/-- The block "update state based on AI" with the three effects inactive: every special
attack state is reverted, and the state becomes neither `AIZEN_HIT` nor `AIZEN_DEATH`. -/
theorem aizen_settleState_state (a : Aizen)
    (h : a.hado.active = false ∧ a.spiritSlash.active = false ∧
      a.suigetsuKyoka.active = false) :
    (a.settleState.state ≠ AIZEN_HADO ∧ a.settleState.state ≠ AIZEN_SPIRIT_SLASH ∧
      a.settleState.state ≠ AIZEN_SUIGETSU_KYOKA) ∧
    (a.state ≠ AIZEN_HIT ∧ a.state ≠ AIZEN_DEATH →
      a.settleState.state ≠ AIZEN_HIT ∧ a.settleState.state ≠ AIZEN_DEATH) := by
  obtain ⟨h1, h2, h3⟩ := h
  unfold Aizen.settleState
  simp only []
  split_ifs <;> simp_all

theorem aizen_settleState_inactive (a : Aizen)
    (h : a.hado.active = false ∧ a.spiritSlash.active = false ∧
      a.suigetsuKyoka.active = false) :
    (a.settleState.state ≠ AIZEN_HADO ∧ a.settleState.state ≠ AIZEN_SPIRIT_SLASH ∧
      a.settleState.state ≠ AIZEN_SUIGETSU_KYOKA) ∧
    (a.state ≠ AIZEN_HIT ∧ a.state ≠ AIZEN_DEATH →
      a.settleState.state ≠ AIZEN_HIT ∧ a.settleState.state ≠ AIZEN_DEATH) ∧
    (a.settleState.hado = a.hado ∧ a.settleState.spiritSlash = a.spiritSlash ∧
      a.settleState.suigetsuKyoka = a.suigetsuKyoka ∧
      a.settleState.healthBar = a.healthBar ∧ a.settleState.hit = a.hit) := by
  obtain ⟨s1, s2⟩ := aizen_settleState_state a h
  refine ⟨s1, s2, ?_⟩
  rw [aizen_settleState_eq a]
  exact ⟨rfl, rfl, rfl, rfl, rfl⟩

theorem aizen_faceAndMove_frame (a : Aizen) (dt : Rat) :
    (a.faceAndMove dt).state = a.state ∧ (a.faceAndMove dt).hado = a.hado ∧
    (a.faceAndMove dt).spiritSlash = a.spiritSlash ∧
    (a.faceAndMove dt).suigetsuKyoka = a.suigetsuKyoka ∧
    (a.faceAndMove dt).healthBar = a.healthBar ∧ (a.faceAndMove dt).hit = a.hit := by
  unfold Aizen.faceAndMove
  simp only []
  split_ifs <;> exact ⟨rfl, rfl, rfl, rfl, rfl, rfl⟩

/-- The cast step does nothing to the effects unless the state is one of the three special
attacks. -/
theorem aizen_executeAttacks_no_cast (a : Aizen) (dt : Rat)
    (h : a.state ≠ AIZEN_HADO ∧ a.state ≠ AIZEN_SPIRIT_SLASH ∧
      a.state ≠ AIZEN_SUIGETSU_KYOKA) :
    (a.executeAttacks dt).state = a.state ∧ (a.executeAttacks dt).hado = a.hado ∧
    (a.executeAttacks dt).spiritSlash = a.spiritSlash ∧
    (a.executeAttacks dt).suigetsuKyoka = a.suigetsuKyoka ∧
    (a.executeAttacks dt).healthBar = a.healthBar ∧ (a.executeAttacks dt).hit = a.hit := by
  obtain ⟨h1, h2, h3⟩ := h
  unfold Aizen.executeAttacks
  rw [if_neg (by simpa using h1), if_neg (by simpa using h2), if_neg (by simpa using h3)]
  split_ifs <;> exact ⟨rfl, rfl, rfl, rfl, rfl, rfl⟩

/-- The state that the AI hands back is never `AIZEN_HIT` or `AIZEN_DEATH` unless it was
before. -/
theorem aizen_applyAI_frame (a : Aizen) (dt : Rat) (zoroPos : Vector2) (rolls : Rolls) :
    (a.state ≠ AIZEN_HIT ∧ a.state ≠ AIZEN_DEATH →
      (a.applyAI dt zoroPos rolls).state ≠ AIZEN_HIT ∧
      (a.applyAI dt zoroPos rolls).state ≠ AIZEN_DEATH) ∧
    ((a.applyAI dt zoroPos rolls).hado = a.hado ∧
      (a.applyAI dt zoroPos rolls).spiritSlash = a.spiritSlash ∧
      (a.applyAI dt zoroPos rolls).suigetsuKyoka = a.suigetsuKyoka ∧
      (a.applyAI dt zoroPos rolls).healthBar = a.healthBar ∧
      (a.applyAI dt zoroPos rolls).hit = a.hit) := by
  refine ⟨?_, rfl, rfl, rfl, rfl, rfl⟩
  rintro ⟨hs1, hs2⟩
  show (a.ai.Update dt a.position a.velocity zoroPos a.state a.attackTimer a.difficulty
      rolls).state ≠ AIZEN_HIT ∧
    (a.ai.Update dt a.position a.velocity zoroPos a.state a.attackTimer a.difficulty
      rolls).state ≠ AIZEN_DEATH
  obtain ⟨_, b2⟩ := aizenAI_before_attack a.ai dt a.position a.velocity a.state
    a.difficulty rolls
  obtain ⟨g1, g2⟩ := aizenAI_decideAttack_cases
    (AizenAI.walk ((a.ai.tickTimers dt).decideMove dt a.difficulty rolls) a.position
      a.velocity a.state) a.attackTimer a.difficulty rolls
  unfold AizenAI.Update
  by_cases hg : AizenAI.baseActionDelay a.difficulty <
        (AizenAI.walk ((a.ai.tickTimers dt).decideMove dt a.difficulty rolls) a.position
          a.velocity a.state).ai.actionTimer ∧
      rolls.attack < floatToInt (AizenAI.attackChance a.difficulty * 100) ∧ a.attackTimer ≤ 0
  · rw [(g1 hg).1]
    split_ifs <;> exact ⟨by simp, by simp⟩
  · rw [g2 hg, b2]
    exact ⟨hs1, hs2⟩

/-- The branch `Aizen.act` with the three effects inactive: an attack state chosen by the AI
is reverted before the cast step, the effects stay as they are, and the resulting state is
neither `AIZEN_HIT` nor `AIZEN_DEATH` unless it was before. -/
theorem aizen_act_inactive (a : Aizen) (dt : Rat) (zoroPos : Vector2) (rolls : Rolls)
    (h : a.hado.active = false ∧ a.spiritSlash.active = false ∧
      a.suigetsuKyoka.active = false) :
    ((a.act dt zoroPos rolls).hado = a.hado ∧
      (a.act dt zoroPos rolls).spiritSlash = a.spiritSlash ∧
      (a.act dt zoroPos rolls).suigetsuKyoka = a.suigetsuKyoka) ∧
    (a.state ≠ AIZEN_HIT ∧ a.state ≠ AIZEN_DEATH →
      (a.act dt zoroPos rolls).state ≠ AIZEN_HIT ∧
      (a.act dt zoroPos rolls).state ≠ AIZEN_DEATH) ∧
    ((a.act dt zoroPos rolls).healthBar = a.healthBar ∧
      (a.act dt zoroPos rolls).hit = a.hit) := by
  obtain ⟨i1, i2, i3, i4, i5, i6⟩ := aizen_applyAI_frame a dt zoroPos rolls
  obtain ⟨s1, s2, s3, s4, s5, s6, s7⟩ := aizen_settleState_inactive (a.applyAI dt zoroPos rolls)
    (by rw [i2, i3, i4]; exact h)
  obtain ⟨m1, m2, m3, m4, m5, m6⟩ :=
    aizen_faceAndMove_frame (a.applyAI dt zoroPos rolls).settleState dt
  obtain ⟨e1, e2, e3, e4, e5, e6⟩ := aizen_executeAttacks_no_cast
    ((a.applyAI dt zoroPos rolls).settleState.faceAndMove dt) dt (by rw [m1]; exact s1)
  unfold Aizen.act
  refine ⟨⟨by rw [e2, m2, s3, i2], by rw [e3, m3, s4, i3], by rw [e4, m4, s5, i4]⟩, ?_,
    by rw [e5, m5, s6, i5], by rw [e6, m6, s7, i6]⟩
  intro hs
  rw [e1, m1]
  exact s2 (i1 hs)

/-- One call of `Aizen::Update` with the three effects inactive: they stay inactive, the health
bar and the `finished` flag of the hit clip are untouched, a state that is neither `AIZEN_HIT`
nor `AIZEN_DEATH` stays so, and `AIZEN_HIT` is kept while the hit clip has not finished. -/
theorem aizen_update_inactive (a : Aizen) (dt : Rat) (zoro : Zoro) (rolls : Rolls)
    (h : a.hado.active = false ∧ a.spiritSlash.active = false ∧
      a.suigetsuKyoka.active = false) :
    ((a.Update dt zoro rolls).hado.active = false ∧
      (a.Update dt zoro rolls).spiritSlash.active = false ∧
      (a.Update dt zoro rolls).suigetsuKyoka.active = false) ∧
    (a.Update dt zoro rolls).healthBar = a.healthBar ∧
    (a.Update dt zoro rolls).hit.finished = a.hit.finished ∧
    (a.state ≠ AIZEN_HIT ∧ a.state ≠ AIZEN_DEATH →
      (a.Update dt zoro rolls).state ≠ AIZEN_HIT ∧
      (a.Update dt zoro rolls).state ≠ AIZEN_DEATH) ∧
    (a.state = AIZEN_HIT → a.hit.finished = false →
      (a.Update dt zoro rolls).state = AIZEN_HIT) := by
  have hu : (a.updateEffects dt).hado.active = false ∧
      (a.updateEffects dt).spiritSlash.active = false ∧
      (a.updateEffects dt).suigetsuKyoka.active = false := effects_update_inactive a dt h
  obtain ⟨⟨c1, c2, c3⟩, c4, c5, c6⟩ :=
    aizen_act_inactive (a.updateEffects dt) dt zoro.position rolls hu
  have hs : (a.updateEffects dt).state = a.state := rfl
  have hb : (a.updateEffects dt).healthBar = a.healthBar := rfl
  have hh : (a.updateEffects dt).hit = a.hit := rfl
  have key : (((a.updateEffects dt).react dt zoro.position rolls).hado.active = false ∧
      ((a.updateEffects dt).react dt zoro.position rolls).spiritSlash.active = false ∧
      ((a.updateEffects dt).react dt zoro.position rolls).suigetsuKyoka.active = false) ∧
      ((a.updateEffects dt).react dt zoro.position rolls).healthBar = a.healthBar ∧
      ((a.updateEffects dt).react dt zoro.position rolls).hit.finished = a.hit.finished ∧
      (a.state ≠ AIZEN_HIT ∧ a.state ≠ AIZEN_DEATH →
        ((a.updateEffects dt).react dt zoro.position rolls).state ≠ AIZEN_HIT ∧
        ((a.updateEffects dt).react dt zoro.position rolls).state ≠ AIZEN_DEATH) ∧
      (a.state = AIZEN_HIT → a.hit.finished = false →
        ((a.updateEffects dt).react dt zoro.position rolls).state = AIZEN_HIT) := by
    unfold Aizen.react
    by_cases s1 : a.state = AIZEN_HIT
    · rw [if_pos (by rw [hs, s1]; rfl)]
      by_cases f : (a.updateEffects dt).hit.Finished = true
      · rw [if_pos f]
        refine ⟨hu, rfl, rfl, fun hn => absurd s1 hn.1, fun _ hf => ?_⟩
        rw [hh] at f
        unfold Animation.Finished at f
        rw [hf] at f
        exact absurd f (by decide)
      · rw [if_neg f]
        exact ⟨hu, rfl, rfl, fun hn => absurd s1 hn.1, fun _ _ => s1⟩
    · rw [if_neg (by rw [hs]; simpa using s1)]
      by_cases s2 : a.state = AIZEN_DEATH
      · rw [if_pos (by rw [hs, s2]; rfl)]
        exact ⟨hu, rfl, rfl, fun hn => absurd s2 hn.2, fun e _ => absurd e s1⟩
      · rw [if_neg (by rw [hs]; simpa using s2)]
        refine ⟨⟨by rw [c1]; exact hu.1, by rw [c2]; exact hu.2.1, by rw [c3]; exact hu.2.2⟩,
          by rw [c5, hb], by rw [c6, hh], fun _ => c4 ⟨s1, s2⟩, fun e _ => absurd e s1⟩
  exact key

/-- A run of `Aizen::Update` calls, each with its own frame time, Zoro and AI random rolls. -/
theorem aizen_updates_inactive (steps : List (Rat × Zoro × Rolls)) (a : Aizen)
    (h : a.hado.active = false ∧ a.spiritSlash.active = false ∧
      a.suigetsuKyoka.active = false) :
    (steps.foldl (fun b s => b.Update s.1 s.2.1 s.2.2) a).hado.active = false ∧
    (steps.foldl (fun b s => b.Update s.1 s.2.1 s.2.2) a).spiritSlash.active = false ∧
    (steps.foldl (fun b s => b.Update s.1 s.2.1 s.2.2) a).suigetsuKyoka.active = false := by
  induction steps generalizing a with
  | nil => exact h
  | cons s rest ih =>
    rw [List.foldl_cons]
    exact ih _ (aizen_update_inactive a s.1 s.2.1 s.2.2 h).1

/-- C28: starting from a freshly initialised Aizen (whatever the difficulty), after every
sequence of `Aizen::Update` calls, for every frame time, every Zoro and every AI random roll
of each call, the Hado, Spirit Slash and Suigetsu Kyoka effects are all still inactive; the
freshly initialised Aizen is not guarding. -/
theorem aizen_effects_never_cast (difficulty : Int) (steps : List (Rat × Zoro × Rolls)) :
    (({} : Aizen).Init difficulty).isGuarding = false ∧
    (steps.foldl (fun b s => b.Update s.1 s.2.1 s.2.2)
      (({} : Aizen).Init difficulty)).hado.active = false ∧
    (steps.foldl (fun b s => b.Update s.1 s.2.1 s.2.2)
      (({} : Aizen).Init difficulty)).spiritSlash.active = false ∧
    (steps.foldl (fun b s => b.Update s.1 s.2.1 s.2.2)
      (({} : Aizen).Init difficulty)).suigetsuKyoka.active = false :=
  ⟨rfl, aizen_updates_inactive steps _ ⟨rfl, rfl, rfl⟩⟩

/-! ## Aizen is hit at most once -/

theorem zoro_handleInput_damage (z : Zoro) (keys : Keys) :
    (z.HandleInput keys).damage = z.damage := by
  have h1 : ∀ y : Zoro, (y.inputMove keys).damage = y.damage := by
    intro y
    unfold Zoro.inputMove
    simp only []
    split_ifs <;> rfl
  have h2 : ∀ y : Zoro, (y.inputJump keys).damage = y.damage := by
    intro y
    unfold Zoro.inputJump
    split_ifs <;> rfl
  have h3 : ∀ y : Zoro, (y.inputBlock keys).damage = y.damage := by
    intro y
    unfold Zoro.inputBlock
    split_ifs <;> rfl
  have h4 : ∀ y : Zoro, (y.inputAttack keys).damage = y.damage := by
    intro y
    unfold Zoro.inputAttack
    split_ifs <;> rfl
  unfold Zoro.HandleInput
  rw [h4, h3, h2, h1]

/-- The method `Zoro::Update` never changes Zoro's base damage. -/
theorem zoro_update_damage (z : Zoro) (dt : Rat) (keys : Keys) :
    (z.Update dt keys).damage = z.damage := by
  have h1 : ∀ y : Zoro, (y.dispatch keys).damage = y.damage := by
    intro y
    unfold Zoro.dispatch
    split_ifs <;> first | rfl | exact zoro_handleInput_damage y keys
  have h2 : ∀ y : Zoro, (y.physics dt).damage = y.damage := by
    intro y
    unfold Zoro.physics
    simp only []
    split_ifs <;> rfl
  have h3 : ∀ y : Zoro, (y.UpdateCurrentAnimation dt).damage = y.damage := by
    intro y
    unfold Zoro.UpdateCurrentAnimation
    cases y.state <;> rfl
  unfold Zoro.Update
  simp only []
  split_ifs
  · rfl
  · show ((((z.tickTimers dt).dispatch keys).physics dt).UpdateAnimationPositions.UpdateCurrentAnimation
      dt).damage = z.damage
    rw [h3]
    show (((z.tickTimers dt).dispatch keys).physics dt).damage = z.damage
    rw [h2, h1]
    rfl
  · rw [h3]
    show (((z.tickTimers dt).dispatch keys).physics dt).damage = z.damage
    rw [h2, h1]
    rfl

theorem zoro_takeDamage_damage (z : Zoro) (amount : Int) :
    (z.TakeDamage amount).damage = z.damage := by
  unfold Zoro.TakeDamage
  simp only []
  split_ifs <;> rfl

/-- With Zoro's base damage at 20, the damage of a hit is between 20 and 100. -/
theorem attackDamage_bounds (g : GameScene) (h : g.zoro.damage = 20) :
    20 ≤ g.attackDamage ∧ g.attackDamage ≤ 100 := by
  unfold GameScene.attackDamage
  rw [h]
  cases g.zoro.state <;> decide

/-- The first hit on Aizen: with health between 800 and 1200 and a damage between 20 and 100,
Aizen enters `AIZEN_HIT` with the hit clip reset, and loses between 10 and 100 points. -/
theorem aizen_takeDamage_first_hit (a : Aizen) (amount : Int)
    (hs : a.state ≠ AIZEN_HIT)
    (hhp : 800 ≤ a.healthBar.hp ∧ a.healthBar.hp ≤ 1200)
    (ha : 20 ≤ amount ∧ amount ≤ 100) :
    (a.TakeDamage amount).state = AIZEN_HIT ∧
    (a.TakeDamage amount).hit.finished = false ∧
    a.healthBar.hp - 100 ≤ (a.TakeDamage amount).healthBar.hp ∧
    (a.TakeDamage amount).healthBar.hp ≤ a.healthBar.hp - 10 := by
  have hb : 10 ≤ (if a.state = AIZEN_GUARD then Int.tdiv amount 2 else amount) ∧
      (if a.state = AIZEN_GUARD then Int.tdiv amount 2 else amount) ≤ 100 := by
    split_ifs
    · rw [tdiv_two_eq (by omega)]
      omega
    · omega
  have hw : wrap32 (a.healthBar.hp -
      (if a.state = AIZEN_GUARD then Int.tdiv amount 2 else amount)) =
      a.healthBar.hp - (if a.state = AIZEN_GUARD then Int.tdiv amount 2 else amount) :=
    wrap32_of_inInt ⟨by omega, by omega⟩
  have h1 := aizen_takeDamage_hp a amount
  have h2 := aizen_takeDamage_state a amount
  rw [hw] at h1 h2
  rw [if_neg (by omega)] at h2
  rw [max_eq_right (by omega)] at h1
  refine ⟨h2, ?_, by omega, by omega⟩
  unfold Aizen.TakeDamage
  simp only [beq_iff_eq]
  rw [hw]
  rw [if_neg (by omega), if_pos (by simpa using hs)]
  rfl

/-- The method `GameScene::CheckCollisions` on a scene where Zoro's base damage is 20, Aizen's
effects are inactive, its hit clip is not finished, and Aizen either has its initial health
`hp0` and is neither hit nor dead, or is in `AIZEN_HIT` with between 10 and 100 points lost:
the same holds afterwards, and nothing changes for an Aizen already in `AIZEN_HIT`. -/
theorem checkCollisions_hit_once (g : GameScene) (hp0 : Int)
    (h0 : 800 ≤ hp0 ∧ hp0 ≤ 1200)
    (hd : g.zoro.damage = 20)
    (he : g.aizen.hado.active = false ∧ g.aizen.spiritSlash.active = false ∧
      g.aizen.suigetsuKyoka.active = false)
    (hf : g.aizen.hit.finished = false)
    (hst : (g.aizen.state ≠ AIZEN_HIT ∧ g.aizen.state ≠ AIZEN_DEATH ∧ g.aizen.healthBar.hp = hp0) ∨
      (g.aizen.state = AIZEN_HIT ∧ hp0 - 100 ≤ g.aizen.healthBar.hp ∧
        g.aizen.healthBar.hp ≤ hp0 - 10)) :
    g.CheckCollisions.zoro.damage = 20 ∧
    (g.CheckCollisions.aizen.hado.active = false ∧
      g.CheckCollisions.aizen.spiritSlash.active = false ∧
      g.CheckCollisions.aizen.suigetsuKyoka.active = false) ∧
    g.CheckCollisions.aizen.hit.finished = false ∧
    ((g.CheckCollisions.aizen.state ≠ AIZEN_HIT ∧ g.CheckCollisions.aizen.state ≠ AIZEN_DEATH ∧
        g.CheckCollisions.aizen.healthBar.hp = hp0) ∨
      (g.CheckCollisions.aizen.state = AIZEN_HIT ∧
        hp0 - 100 ≤ g.CheckCollisions.aizen.healthBar.hp ∧
        g.CheckCollisions.aizen.healthBar.hp ≤ hp0 - 10)) ∧
    (g.aizen.state = AIZEN_HIT → g.CheckCollisions.aizen = g.aizen) := by
  have hz : ∀ s : GameScene, s.aizenAttacksZoro.zoro.damage = s.zoro.damage := by
    intro s
    unfold GameScene.aizenAttacksZoro
    simp only []
    split_ifs <;> simp only [zoro_takeDamage_damage]
  have hux : g.CheckCollisions.aizen = g.zoroAttacksAizen.aizen := aizenAttacksZoro_aizen _
  have hzx : g.CheckCollisions.zoro.damage = g.zoroAttacksAizen.zoro.damage := hz _
  rw [hux, hzx]
  rcases hst with ⟨s1, s2, s3⟩ | ⟨s1, s2, s3⟩
  · by_cases hc : (g.zoro.IsAttacking && g.aizen.IsVulnerable) = true ∧
        CheckCollisionRecs g.zoro.GetAttackBounds g.aizen.GetBounds = true
    · have hg : g.zoroAttacksAizen =
          { g with
            aizen := g.aizen.TakeDamage g.attackDamage
            zoro := g.zoro.AddScore (wrap32 (g.attackDamage * 10))
            hitStop := 1 / 20 } := by
        unfold GameScene.zoroAttacksAizen
        rw [if_pos hc.1]
        simp only []
        rw [if_pos hc.2]
      obtain ⟨t1, t2, t3, t4⟩ := aizen_takeDamage_first_hit g.aizen g.attackDamage s1
        (by omega) (attackDamage_bounds g hd)
      obtain ⟨e1, e2, e3⟩ := aizen_takeDamage_effects g.aizen g.attackDamage
      rw [hg]
      have t3x : hp0 - 100 ≤ (g.aizen.TakeDamage g.attackDamage).healthBar.hp := by omega
      have t4x : (g.aizen.TakeDamage g.attackDamage).healthBar.hp ≤ hp0 - 10 := by omega
      refine ⟨hd, ⟨?_, ?_, ?_⟩, t2, Or.inr ⟨t1, t3x, t4x⟩, fun e => absurd e s1⟩
      · show (g.aizen.TakeDamage g.attackDamage).hado.active = false
        rw [e1]
        exact he.1
      · show (g.aizen.TakeDamage g.attackDamage).spiritSlash.active = false
        rw [e2]
        exact he.2.1
      · show (g.aizen.TakeDamage g.attackDamage).suigetsuKyoka.active = false
        rw [e3]
        exact he.2.2
    · have hg : g.zoroAttacksAizen = g := by
        unfold GameScene.zoroAttacksAizen
        simp only []
        split_ifs with c1 c2
        · exact absurd ⟨c1, c2⟩ hc
        · rfl
        · rfl
      rw [hg]
      exact ⟨hd, he, hf, Or.inl ⟨s1, s2, s3⟩, fun _ => rfl⟩
  · have hg : g.zoroAttacksAizen = g :=
      zoroAttacksAizen_aizen_of_not_vulnerable g (by unfold Aizen.IsVulnerable; simp [s1])
    rw [hg]
    exact ⟨hd, he, hf, Or.inr ⟨s1, s2, s3⟩, fun _ => rfl⟩

/-- The win check and the score submission of `GameScene::Update` leave both fighters as they
are. -/
theorem winCondition_submitScore_fighters (s : GameScene) (keys : Keys) :
    (s.CheckWinCondition.submitScore keys).aizen = s.aizen ∧
    (s.CheckWinCondition.submitScore keys).zoro = s.zoro := by
  have h1 : ∀ y : GameScene, y.CheckWinCondition.aizen = y.aizen ∧
      y.CheckWinCondition.zoro = y.zoro := by
    intro y
    unfold GameScene.CheckWinCondition
    split_ifs <;> exact ⟨rfl, rfl⟩
  have h2 : ∀ y : GameScene, (y.submitScore keys).aizen = y.aizen ∧
      (y.submitScore keys).zoro = y.zoro := by
    intro y
    unfold GameScene.submitScore
    split_ifs <;> exact ⟨rfl, rfl⟩
  exact ⟨(h2 _).1.trans (h1 s).1, (h2 _).2.trans (h1 s).2⟩

/-- One tick of `GameScene::Update` on a scene where Zoro's base damage is 20, Aizen's effects
are inactive, its hit clip is not finished, and Aizen either has its initial health `hp0` and
is neither hit nor dead, or is in `AIZEN_HIT` with between 10 and 100 points lost: the same
holds after the tick, and an Aizen in `AIZEN_HIT` keeps its state and its health. -/
theorem update_hit_once (g : GameScene) (dt : Rat) (keys : Keys) (rolls : Rolls) (hp0 : Int)
    (h0 : 800 ≤ hp0 ∧ hp0 ≤ 1200)
    (hd : g.zoro.damage = 20)
    (he : g.aizen.hado.active = false ∧ g.aizen.spiritSlash.active = false ∧
      g.aizen.suigetsuKyoka.active = false)
    (hf : g.aizen.hit.finished = false)
    (hst : (g.aizen.state ≠ AIZEN_HIT ∧ g.aizen.state ≠ AIZEN_DEATH ∧ g.aizen.healthBar.hp = hp0) ∨
      (g.aizen.state = AIZEN_HIT ∧ hp0 - 100 ≤ g.aizen.healthBar.hp ∧
        g.aizen.healthBar.hp ≤ hp0 - 10)) :
    (g.Update dt keys rolls).zoro.damage = 20 ∧
    ((g.Update dt keys rolls).aizen.hado.active = false ∧
      (g.Update dt keys rolls).aizen.spiritSlash.active = false ∧
      (g.Update dt keys rolls).aizen.suigetsuKyoka.active = false) ∧
    (g.Update dt keys rolls).aizen.hit.finished = false ∧
    (((g.Update dt keys rolls).aizen.state ≠ AIZEN_HIT ∧
        (g.Update dt keys rolls).aizen.state ≠ AIZEN_DEATH ∧
        (g.Update dt keys rolls).aizen.healthBar.hp = hp0) ∨
      ((g.Update dt keys rolls).aizen.state = AIZEN_HIT ∧
        hp0 - 100 ≤ (g.Update dt keys rolls).aizen.healthBar.hp ∧
        (g.Update dt keys rolls).aizen.healthBar.hp ≤ hp0 - 10)) ∧
    (g.aizen.state = AIZEN_HIT →
      (g.Update dt keys rolls).aizen.state = AIZEN_HIT ∧
      (g.Update dt keys rolls).aizen.healthBar.hp = g.aizen.healthBar.hp) := by
  unfold GameScene.Update
  split_ifs
  · exact ⟨hd, he, hf, hst, fun e => ⟨e, rfl⟩⟩
  · exact ⟨hd, he, hf, hst, fun e => ⟨e, rfl⟩⟩
  · obtain ⟨w1, w2⟩ := winCondition_submitScore_fighters (g.advance dt keys rolls).CheckCollisions
      keys
    rw [w1, w2]
    have ad : (g.advance dt keys rolls).zoro.damage = 20 :=
      (zoro_update_damage g.zoro dt keys).trans hd
    obtain ⟨u1, u2, u3, u4, u5⟩ :=
      aizen_update_inactive g.aizen dt (g.zoro.Update dt keys) rolls he
    have aa : (g.advance dt keys rolls).aizen =
        g.aizen.Update dt (g.zoro.Update dt keys) rolls := rfl
    have ast : ((g.advance dt keys rolls).aizen.state ≠ AIZEN_HIT ∧
        (g.advance dt keys rolls).aizen.state ≠ AIZEN_DEATH ∧
        (g.advance dt keys rolls).aizen.healthBar.hp = hp0) ∨
        ((g.advance dt keys rolls).aizen.state = AIZEN_HIT ∧
        hp0 - 100 ≤ (g.advance dt keys rolls).aizen.healthBar.hp ∧
        (g.advance dt keys rolls).aizen.healthBar.hp ≤ hp0 - 10) := by
      rw [aa, u2]
      rcases hst with ⟨s1, s2, s3⟩ | ⟨s1, s2, s3⟩
      · exact Or.inl ⟨(u4 ⟨s1, s2⟩).1, (u4 ⟨s1, s2⟩).2, s3⟩
      · exact Or.inr ⟨u5 s1 hf, s2, s3⟩
    obtain ⟨k1, k2, k3, k4, k5⟩ := checkCollisions_hit_once (g.advance dt keys rolls) hp0 h0 ad
      (by rw [aa]; exact u1) (by rw [aa, u3]; exact hf) ast
    refine ⟨k1, k2, k3, k4, fun e => ?_⟩
    have e1 : (g.advance dt keys rolls).aizen.state = AIZEN_HIT := by
      rw [aa]
      exact u5 e hf
    rw [k5 e1]
    refine ⟨e1, ?_⟩
    rw [aa, u2]

/-- A run of `GameScene::Update` ticks from such a scene: the same holds after the run, and an
Aizen in `AIZEN_HIT` keeps its state and its health through the whole run. -/
theorem updates_hit_once (ticks : List (Rat × Keys × Rolls)) (g : GameScene) (hp0 : Int)
    (h0 : 800 ≤ hp0 ∧ hp0 ≤ 1200)
    (hd : g.zoro.damage = 20)
    (he : g.aizen.hado.active = false ∧ g.aizen.spiritSlash.active = false ∧
      g.aizen.suigetsuKyoka.active = false)
    (hf : g.aizen.hit.finished = false)
    (hst : (g.aizen.state ≠ AIZEN_HIT ∧ g.aizen.state ≠ AIZEN_DEATH ∧ g.aizen.healthBar.hp = hp0) ∨
      (g.aizen.state = AIZEN_HIT ∧ hp0 - 100 ≤ g.aizen.healthBar.hp ∧
        g.aizen.healthBar.hp ≤ hp0 - 10)) :
    (ticks.foldl (fun s t => s.Update t.1 t.2.1 t.2.2) g).zoro.damage = 20 ∧
    ((ticks.foldl (fun s t => s.Update t.1 t.2.1 t.2.2) g).aizen.hado.active = false ∧
      (ticks.foldl (fun s t => s.Update t.1 t.2.1 t.2.2) g).aizen.spiritSlash.active = false ∧
      (ticks.foldl (fun s t => s.Update t.1 t.2.1 t.2.2) g).aizen.suigetsuKyoka.active = false) ∧
    (ticks.foldl (fun s t => s.Update t.1 t.2.1 t.2.2) g).aizen.hit.finished = false ∧
    (((ticks.foldl (fun s t => s.Update t.1 t.2.1 t.2.2) g).aizen.state ≠ AIZEN_HIT ∧
        (ticks.foldl (fun s t => s.Update t.1 t.2.1 t.2.2) g).aizen.state ≠ AIZEN_DEATH ∧
        (ticks.foldl (fun s t => s.Update t.1 t.2.1 t.2.2) g).aizen.healthBar.hp = hp0) ∨
      ((ticks.foldl (fun s t => s.Update t.1 t.2.1 t.2.2) g).aizen.state = AIZEN_HIT ∧
        hp0 - 100 ≤ (ticks.foldl (fun s t => s.Update t.1 t.2.1 t.2.2) g).aizen.healthBar.hp ∧
        (ticks.foldl (fun s t => s.Update t.1 t.2.1 t.2.2) g).aizen.healthBar.hp ≤ hp0 - 10)) ∧
    (g.aizen.state = AIZEN_HIT →
      (ticks.foldl (fun s t => s.Update t.1 t.2.1 t.2.2) g).aizen.state = AIZEN_HIT ∧
      (ticks.foldl (fun s t => s.Update t.1 t.2.1 t.2.2) g).aizen.healthBar.hp =
        g.aizen.healthBar.hp) := by
  induction ticks generalizing g with
  | nil => exact ⟨hd, he, hf, hst, fun e => ⟨e, rfl⟩⟩
  | cons t rest ih =>
    rw [List.foldl_cons]
    obtain ⟨k1, k2, k3, k4, k5⟩ := update_hit_once g t.1 t.2.1 t.2.2 hp0 h0 hd he hf hst
    obtain ⟨r1, r2, r3, r4, r5⟩ := ih (g.Update t.1 t.2.1 t.2.2) k1 k2 k3 k4
    refine ⟨r1, r2, r3, r4, fun e => ?_⟩
    obtain ⟨r6, r7⟩ := r5 (k5 e).1
    exact ⟨r6, r7.trans (k5 e).2⟩

/-- C29: from a freshly initialised scene on difficulty 0, 1 or 2 (Aizen's health is
`800 + 200 * difficulty`, Zoro's base damage is 20), after every run `ticks` of
`GameScene::Update` ticks Aizen is not in `AIZEN_DEATH` and its health is at least 700; either
Aizen still has its initial health and is not in `AIZEN_HIT`, or it has been hit: it is in
`AIZEN_HIT`, not vulnerable, has lost between 10 and 100 points, and after every further run
`later` of ticks it is still in `AIZEN_HIT` with the same health, so its health is reduced at
most once. -/
theorem aizen_hit_at_most_once (difficulty : Int) (file : Option (List HighScoreEntry))
    (ticks later : List (Rat × Keys × Rolls)) (hdiff : 0 ≤ difficulty ∧ difficulty ≤ 2) :
    ((({} : GameScene).Init difficulty file).aizen.healthBar.hp = 800 + 200 * difficulty ∧
      (({} : GameScene).Init difficulty file).zoro.damage = 20) ∧
    (ticks.foldl (fun s t => s.Update t.1 t.2.1 t.2.2)
      (({} : GameScene).Init difficulty file)).aizen.state ≠ AIZEN_DEATH ∧
    700 ≤ (ticks.foldl (fun s t => s.Update t.1 t.2.1 t.2.2)
      (({} : GameScene).Init difficulty file)).aizen.healthBar.hp ∧
    (((ticks.foldl (fun s t => s.Update t.1 t.2.1 t.2.2)
          (({} : GameScene).Init difficulty file)).aizen.state ≠ AIZEN_HIT ∧
        (ticks.foldl (fun s t => s.Update t.1 t.2.1 t.2.2)
          (({} : GameScene).Init difficulty file)).aizen.healthBar.hp = 800 + 200 * difficulty) ∨
      ((ticks.foldl (fun s t => s.Update t.1 t.2.1 t.2.2)
          (({} : GameScene).Init difficulty file)).aizen.state = AIZEN_HIT ∧
        (ticks.foldl (fun s t => s.Update t.1 t.2.1 t.2.2)
          (({} : GameScene).Init difficulty file)).aizen.IsVulnerable = false ∧
        800 + 200 * difficulty - 100 ≤ (ticks.foldl (fun s t => s.Update t.1 t.2.1 t.2.2)
          (({} : GameScene).Init difficulty file)).aizen.healthBar.hp ∧
        (ticks.foldl (fun s t => s.Update t.1 t.2.1 t.2.2)
          (({} : GameScene).Init difficulty file)).aizen.healthBar.hp ≤
            800 + 200 * difficulty - 10 ∧
        (later.foldl (fun s t => s.Update t.1 t.2.1 t.2.2)
          (ticks.foldl (fun s t => s.Update t.1 t.2.1 t.2.2)
            (({} : GameScene).Init difficulty file))).aizen.state = AIZEN_HIT ∧
        (later.foldl (fun s t => s.Update t.1 t.2.1 t.2.2)
          (ticks.foldl (fun s t => s.Update t.1 t.2.1 t.2.2)
            (({} : GameScene).Init difficulty file))).aizen.healthBar.hp =
          (ticks.foldl (fun s t => s.Update t.1 t.2.1 t.2.2)
            (({} : GameScene).Init difficulty file)).aizen.healthBar.hp)) := by
  have hp : (({} : GameScene).Init difficulty file).aizen.healthBar.hp =
      800 + 200 * difficulty := by
    show wrap32 (800 + wrap32 (difficulty * 200)) = 800 + 200 * difficulty
    rw [wrap32_of_inInt (x := difficulty * 200) ⟨by omega, by omega⟩,
      wrap32_of_inInt ⟨by omega, by omega⟩]
    omega
  have h0 : 800 ≤ 800 + 200 * difficulty ∧ 800 + 200 * difficulty ≤ 1200 := by omega
  obtain ⟨k1, k2, k3, k4, _⟩ := updates_hit_once ticks (({} : GameScene).Init difficulty file)
    (800 + 200 * difficulty) h0 rfl ⟨rfl, rfl, rfl⟩ rfl
    (Or.inl ⟨(by decide : AIZEN_IDLE ≠ AIZEN_HIT), (by decide : AIZEN_IDLE ≠ AIZEN_DEATH), hp⟩)
  refine ⟨⟨hp, rfl⟩, ?_, ?_, ?_⟩
  · rcases k4 with ⟨_, s2, _⟩ | ⟨s1, _, _⟩
    · exact s2
    · rw [s1]
      decide
  · rcases k4 with ⟨_, _, s3⟩ | ⟨_, s2, _⟩ <;> omega
  · rcases k4 with ⟨s1, _, s3⟩ | ⟨s1, s2, s3⟩
    · exact Or.inl ⟨s1, s3⟩
    · obtain ⟨_, _, _, _, r5⟩ := updates_hit_once later
        (ticks.foldl (fun s t => s.Update t.1 t.2.1 t.2.2)
          (({} : GameScene).Init difficulty file))
        (800 + 200 * difficulty) h0 k1 k2 k3 (Or.inr ⟨s1, s2, s3⟩)
      refine Or.inr ⟨s1, ?_, s2, s3, (r5 s1).1, (r5 s1).2⟩
      unfold Aizen.IsVulnerable
      rw [s1]
      rfl

/-- Witness of C29, on difficulty 1 with no score file: Zoro walks right for one second and
starts `SANZEN_SEKAI`, which takes Aizen from 1000 to 920; five further ticks, two of them
with `J` pressed, leave Aizen in `AIZEN_HIT` at 920. -/
theorem aizen_hit_at_most_once_witness :
    ((0 : Int) ≤ 1 ∧ (1 : Int) ≤ 2) ∧
    ([((1 : Rat), ({ right := true } : Keys), ({} : Rolls)),
        (1 / 60, { o := true }, {})].foldl (fun s t => s.Update t.1 t.2.1 t.2.2)
      (({} : GameScene).Init 1 none)).aizen.healthBar.hp = 920 ∧
    700 ≤ ([((1 : Rat), ({ right := true } : Keys), ({} : Rolls)),
        (1 / 60, { o := true }, {})].foldl (fun s t => s.Update t.1 t.2.1 t.2.2)
      (({} : GameScene).Init 1 none)).aizen.healthBar.hp :=
  ⟨by decide, by decide!,
    (aizen_hit_at_most_once 1 none
      [(1, { right := true }, {}), (1 / 60, { o := true }, {})]
      [(1 / 60, {}, {}), (1 / 60, {}, {}), (1 / 60, {}, {}), (1 / 60, { j := true }, {}),
        (1 / 60, { j := true }, {})]
      (by decide)).2.2.1⟩

/-! ## Transitions between the modes of the game -/

/-- The `OPTIONS` case of `Game::Update` starts no fade and either keeps the mode or switches
to the menu. -/
theorem updateOptions_mode (g : Game) (dt : Rat) (keys : Keys) :
    (g.updateOptions dt keys).transitioning = g.transitioning ∧
    (g.updateOptions dt keys).nextState = g.nextState ∧
    ((g.updateOptions dt keys).currentState = g.currentState ∨
      (g.updateOptions dt keys).currentState = GameState.MENU) := by
  have h1 : (g.optionsEnter dt keys).transitioning = g.transitioning ∧
      (g.optionsEnter dt keys).nextState = g.nextState ∧
      ((g.optionsEnter dt keys).currentState = g.currentState ∨
        (g.optionsEnter dt keys).currentState = GameState.MENU) := by
    unfold Game.optionsEnter
    simp only []
    split_ifs
    · exact ⟨rfl, rfl, Or.inr rfl⟩
    · exact ⟨rfl, rfl, Or.inl rfl⟩
    · exact ⟨rfl, rfl, Or.inl rfl⟩
    · exact ⟨rfl, rfl, Or.inl rfl⟩
  have h2 : ∀ y : Game, (y.optionsAdjust keys).transitioning = y.transitioning ∧
      (y.optionsAdjust keys).nextState = y.nextState ∧
      (y.optionsAdjust keys).currentState = y.currentState := by
    intro y
    unfold Game.optionsAdjust
    simp only []
    split_ifs <;> exact ⟨rfl, rfl, rfl⟩
  obtain ⟨a1, a2, a3⟩ := h1
  obtain ⟨b1, b2, b3⟩ := h2 (g.optionsEnter dt keys)
  unfold Game.updateOptions
  simp only []
  split_ifs
  · exact ⟨b1.trans a1, b2.trans a2, Or.inr rfl⟩
  · refine ⟨b1.trans a1, b2.trans a2, ?_⟩
    rw [b3]
    exact a3

/-- Counterexample to C23: the game after `Game::Init`, in the intro, with `ENTER` pressed.
The transition from the intro to the menu, two non-gameplay modes, is a fade: after the
`Update` call the mode is still `INTRO` and `transitioning` is true; a later call with a
frame time of 1/60 s still leaves `INTRO`, and only a later call that brings the alpha to 1
switches to `MENU`. -/
theorem intro_to_menu_fades :
    (({} : Game).Init none none).currentState = GameState.INTRO ∧
    (({} : Game).Init none none).transitioning = false ∧
    ((({} : Game).Init none none).Update (1 / 60) { enter := true } {} none).currentState =
      GameState.INTRO ∧
    ((({} : Game).Init none none).Update (1 / 60) { enter := true } {} none).transitioning =
      true ∧
    ((({} : Game).Init none none).Update (1 / 60) { enter := true } {} none).nextState =
      GameState.MENU ∧
    (((({} : Game).Init none none).Update (1 / 60) { enter := true } {} none).Update
      (1 / 60) {} {} none).currentState = GameState.INTRO ∧
    (((({} : Game).Init none none).Update (1 / 60) { enter := true } {} none).Update
      (1 / 2) {} {} none).currentState = GameState.MENU := by
  decide!

/-- C23 (amended): outside a fade, from the menu, the options, the credits, the high scores,
the help or the exit mode, every change of mode made by `Game::Update` is immediate:
`currentState` takes a non-gameplay mode other than the intro within the call and
`transitioning` stays false; a fade is started only from the menu towards the game, and then
`currentState` is unchanged. -/
theorem nongameplay_transition_immediate (g : Game) (dt : Rat) (keys : Keys) (rolls : Rolls)
    (scoreFile : Option (List HighScoreEntry))
    (ht : g.transitioning = false)
    (hs : g.currentState ≠ GameState.INTRO ∧ g.currentState ≠ GameState.GAME) :
    ((g.Update dt keys rolls scoreFile).currentState ≠ g.currentState →
      (g.Update dt keys rolls scoreFile).transitioning = false ∧
      (g.Update dt keys rolls scoreFile).currentState ≠ GameState.GAME ∧
      (g.Update dt keys rolls scoreFile).currentState ≠ GameState.INTRO) ∧
    ((g.Update dt keys rolls scoreFile).transitioning = true →
      g.currentState = GameState.MENU ∧
      (g.Update dt keys rolls scoreFile).nextState = GameState.GAME ∧
      (g.Update dt keys rolls scoreFile).currentState = GameState.MENU) := by
  obtain ⟨hs1, hs2⟩ := hs
  obtain ⟨o1, o2, o3⟩ := updateOptions_mode g dt keys
  unfold Game.Update
  rw [if_neg (by simp [ht])]
  cases hc : g.currentState with
  | INTRO => exact absurd hc hs1
  | GAME => exact absurd hc hs2
  | MENU =>
    simp only []
    split_ifs <;> simp [Game.StartTransition, ht, hc]
  | OPTIONS =>
    simp only []
    rw [o1, ht]
    refine ⟨fun hn => ⟨rfl, ?_, ?_⟩, fun e => absurd e (by decide)⟩
    · rcases o3 with e | e
      · rw [e, hc]
        decide
      · rw [e]
        decide
    · rcases o3 with e | e
      · rw [e, hc]
        decide
      · rw [e]
        decide
  | HIGHSCORES =>
    simp only []
    split_ifs <;> simp [ht, hc]
  | CREDITS =>
    simp only []
    split_ifs <;> simp [ht, hc]
  | HELP =>
    simp only []
    split_ifs <;> simp [ht, hc]
  | GAME_OVER => simp [ht, hc]
  | EXIT => simp [ht, hc]

/-- Witness of C23 (amended): the game after `Game::Init` put in the high-score mode, with
`ESCAPE` pressed: the mode is `MENU` after the call and no fade has started. -/
theorem nongameplay_transition_immediate_witness :
    ({ ({} : Game).Init none none with currentState := GameState.HIGHSCORES }).transitioning =
      false ∧
    (({ ({} : Game).Init none none with currentState := GameState.HIGHSCORES }).Update
      (1 / 60) { escape := true } {} none).currentState = GameState.MENU ∧
    (({ ({} : Game).Init none none with currentState := GameState.HIGHSCORES }).Update
      (1 / 60) { escape := true } {} none).transitioning = false :=
  ⟨rfl, by decide!,
    ((nongameplay_transition_immediate
      { ({} : Game).Init none none with currentState := GameState.HIGHSCORES }
      (1 / 60) { escape := true } {} none rfl ⟨by decide, by decide⟩).1 (by decide!)).1⟩

end Glino
